import Mathlib

/-!
# c-tetris: game core of `main.c`

Shallow embedding of the board model, the collision and placement tables, the
line-clear pass and the step loop of `main.c`, followed by the properties proved
about them.

Conventions.
* `unsigned int` is the 16-bit type of the MSP430 target: counters are reduced
  modulo `65536`, and `xPos - 1` is `dec xPos`.
* `grid[r][c]` is read as `g r c`. Index pairs with `r ≥ 14` or `c ≥ 10` stand for
  the words that such a C expression addresses (in memory `grid[r][10]` is the word of
  `grid[r+1][0]`, and row 14 lies after the array). The model keeps such a pair apart
  from the cells of the 14x10 grid, so the statements about stores are made for
  footprints that lie inside the grid, and no theorem assumes anything about the
  contents of such a word unless it says so.
* Calls that only drive the display (`drawPiece`, `erasePiece`, `drawGrid`,
  `drawScore`, `drawLevelColor`, `drawInstruction`, `initBackground`) do not touch
  the game state and are omitted from the state transformers.
-/

namespace Tetris

/-- Contents of `grid`, indexed as `grid[row][col]`. -/
abbrev Grid := Nat → Nat → Nat

/-- The statement `grid[r][c] = v`. -/
def wr (r c v : Nat) (g : Grid) : Grid :=
  fun r' c' => if r' = r ∧ c' = c then v else g r' c'

/-- The test `grid[r][c] != 0`. -/
def nz (g : Grid) (r c : Nat) : Bool := g r c != 0

/-- Value of `n - 1` in 16-bit unsigned arithmetic. -/
def dec (n : Nat) : Nat := (n + 65535) % 65536

/-- Value of `n + 1` in 16-bit unsigned arithmetic. -/
def inc (n : Nat) : Nat := (n + 1) % 65536

/-- The global variables of `main.c`. -/
structure State where
  z : Nat
  level : Nat
  linesCleared : Nat
  scoreVerticlePosition : Nat
  piece : Nat
  rotation : Nat
  xPos : Nat
  yPos : Nat
  dropCounter : Nat
  keyPress : Nat
  levelColor : Nat
  scoreColumn : Nat
  scoreRow : Nat
  downJoystick : Nat
  graceTime : Nat
  start : Bool
  pieceAlive : Bool
  leftKey : Bool
  rightKey : Bool
  rotateKey : Bool
  fullLine : Bool
  canRotate : Bool
  canRight : Bool
  canLeft : Bool
  canDown : Bool
  gameAlive : Bool
  grid : Grid

/-- The initial values of the globals (`piece`, `rotation`, `xPos`, `yPos`, `z` and
`downJoystick` have no initialiser and start at 0). -/
def initState : State where
  z := 0
  level := 1
  linesCleared := 0
  scoreVerticlePosition := 0
  piece := 0
  rotation := 0
  xPos := 0
  yPos := 0
  dropCounter := 0
  keyPress := 1
  levelColor := 0xAEBB
  scoreColumn := 0
  scoreRow := 0
  downJoystick := 0
  graceTime := 0
  start := false
  pieceAlive := false
  leftKey := false
  rightKey := false
  rotateKey := false
  fullLine := false
  canRotate := true
  canRight := true
  canLeft := true
  canDown := true
  gameAlive := true
  grid := fun _ _ => 0

/-- Store of the four legality flags computed by `checkCollisions` into the globals
`canLeft`, `canRight`, `canRotate`, `canDown`. -/
def setFlags (s : State) (canLeft canRight canRotate canDown : Bool) : State :=
  { s with canLeft := canLeft, canRight := canRight, canRotate := canRotate,
           canDown := canDown }

/-- The function `checkCollisions`. The four flags are carried as local values
(each `if (c) canLeft = false;` is `let canLeft := if c then false else canLeft`)
and stored at the end of the selected `case`. -/
def checkCollisions (s : State) : State :=
  let g := s.grid
  let x := s.xPos
  let y := s.yPos
  let p := s.piece
  let r := s.rotation
  let canLeft := true
  let canRight := true
  let canRotate := true
  let canDown := true
  let canLeft := if x == 0 then false else canLeft
  match p with
  | 1 =>  -- O
    let canLeft := if nz g y (dec x) || nz g (y + 1) (dec x) then false else canLeft
    let canRight := if nz g y (x + 2) || nz g (y + 1) (x + 2) || x == 8 then false else canRight
    let canDown := if y == 12 || nz g (y + 2) x || nz g (y + 2) (x + 1) then false else canDown
    setFlags s canLeft canRight canRotate canDown
  | 2 =>  -- I
    match r with
    | 0 | 2 =>
      let canLeft := if nz g y (dec x) || nz g (y + 1) (dec x) || nz g (y + 2) (dec x) || nz g (y + 3) (dec x) then false else canLeft
      let canRight := if nz g y (x + 1) || nz g (y + 1) (x + 1) || nz g (y + 2) (x + 1) || nz g (y + 3) (x + 1) || x == 9 then false else canRight
      let canRotate := if decide (x > 6) || nz g y (x + 1) || nz g y (x + 2) || nz g y (x + 3) then false else canRotate
      let canDown := if y == 10 || nz g (y + 4) x then false else canDown
      setFlags s canLeft canRight canRotate canDown
    | 1 | 3 =>
      let canLeft := if nz g y (dec x) then false else canLeft
      let canRight := if nz g y (x + 4) || x == 6 then false else canRight
      let canRotate := if x == 9 || nz g (y + 1) x || nz g (y + 2) x || nz g (y + 3) x then false else canRotate
      let canDown := if y == 13 || nz g (y + 1) x || nz g (y + 1) (x + 1) || nz g (y + 1) (x + 2) || nz g (y + 1) (x + 3) then false else canDown
      setFlags s canLeft canRight canRotate canDown
    | _ => setFlags s canLeft canRight canRotate canDown
  | 3 =>  -- Z
    match r with
    | 0 | 2 =>
      let canLeft := if nz g y (dec x) || nz g (y + 1) x then false else canLeft
      let canRight := if nz g y (x + 2) || nz g (y + 1) (x + 3) || x == 7 then false else canRight
      let canRotate := if nz g (y + 1) x || nz g (y + 2) x then false else canRotate
      let canDown := if y == 12 || nz g (y + 1) x || nz g (y + 2) (x + 1) || nz g (y + 2) (x + 2) then false else canDown
      setFlags s canLeft canRight canRotate canDown
    | 1 | 3 =>
      let canLeft := if nz g (y + 1) (dec x) || nz g (y + 2) (dec x) then false else canLeft
      let canRight := if nz g y (x + 2) || nz g (y + 1) (x + 2) || x == 8 then false else canRight
      let canRotate := if x == 9 || nz g y x || nz g (y + 1) (x + 2) then false else canRotate
      let canDown := if y == 11 || nz g (y + 3) x || nz g (y + 2) (x + 1) then false else canDown
      setFlags s canLeft canRight canRotate canDown
    | _ => setFlags s canLeft canRight canRotate canDown
  | 4 =>  -- S
    match r with
    | 0 | 2 =>
      let canLeft := if nz g y x || nz g (y + 1) (dec x) then false else canLeft
      let canRight := if nz g y (x + 3) || nz g (y + 1) (x + 2) || x == 7 then false else canRight
      let canRotate := if nz g y x || nz g (y + 2) (x + 1) then false else canRotate
      let canDown := if y == 12 || nz g (y + 2) x || nz g (y + 2) (x + 1) || nz g (y + 1) (x + 2) then false else canDown
      setFlags s canLeft canRight canRotate canDown
    | 1 | 3 =>
      let canLeft := if nz g y (dec x) || nz g (y + 1) (dec x) || nz g (y + 2) x then false else canLeft
      let canRight := if nz g y (x + 1) || nz g (y + 1) (x + 2) || nz g (y + 2) (x + 2) || x == 8 then false else canRight
      let canRotate := if x == 9 || nz g y (x + 1) || nz g y (x + 2) then false else canRotate
      let canDown := if y == 11 || nz g (y + 2) x || nz g (y + 3) (x + 1) then false else canDown
      setFlags s canLeft canRight canRotate canDown
    | _ => setFlags s canLeft canRight canRotate canDown
  | 5 =>  -- J
    match r with
    | 0 =>
      let canLeft := if nz g y x || nz g (y + 1) x || nz g (y + 2) (dec x) then false else canLeft
      let canRight := if nz g y (x + 2) || nz g (y + 1) (x + 2) || nz g (y + 2) (x + 2) || x == 8 then false else canRight
      let canRotate := if decide (x > 7) || nz g y x || nz g (y + 1) x || nz g (y + 1) (x + 2) then false else canRotate
      let canDown := if y == 11 || nz g (y + 3) x || nz g (y + 3) (x + 1) then false else canDown
      setFlags s canLeft canRight canRotate canDown
    | 1 =>
      let canLeft := if nz g y (dec x) || nz g (y + 1) (dec x) then false else canLeft
      let canRight := if nz g y (x + 1) || nz g (y + 1) (x + 3) || x == 7 then false else canRight
      let canRotate := if nz g y (x + 1) || nz g (y + 2) x then false else canRotate
      let canDown := if y == 12 || nz g (y + 2) x || nz g (y + 2) (x + 1) || nz g (y + 2) (x + 2) then false else canDown
      setFlags s canLeft canRight canRotate canDown
    | 2 =>
      let canLeft := if nz g y (dec x) || nz g (y + 1) (dec x) || nz g (y + 2) (dec x) then false else canLeft
      let canRight := if nz g y (x + 2) || nz g (y + 1) (x + 1) || nz g (y + 2) (x + 1) || x == 8 then false else canRight
      let canRotate := if decide (x > 7) || nz g (y + 1) (x + 2) || nz g y (x + 2) then false else canRotate
      let canDown := if y == 11 || nz g (y + 3) x || nz g (y + 1) (x + 1) then false else canDown
      setFlags s canLeft canRight canRotate canDown
    | 3 =>
      let canLeft := if nz g y (dec x) || nz g (y + 1) (x + 1) then false else canLeft
      let canRight := if nz g y (x + 3) || nz g (y + 1) (x + 3) || x == 7 then false else canRight
      let canRotate := if nz g (y + 1) (x + 1) || nz g (y + 2) x || nz g (y + 2) (x + 1) then false else canRotate
      let canDown := if y == 12 || nz g (y + 1) x || nz g (y + 1) (x + 1) || nz g (y + 2) (x + 2) then false else canDown
      setFlags s canLeft canRight canRotate canDown
    | _ => setFlags s canLeft canRight canRotate canDown
  | 6 =>  -- L
    match r with
    | 0 =>
      let canLeft := if nz g y (dec x) || nz g (y + 1) (dec x) || nz g (y + 2) (dec x) then false else canLeft
      let canRight := if nz g y (x + 1) || nz g (y + 1) (x + 1) || nz g (y + 2) (x + 2) || x == 8 then false else canRight
      let canRotate := if decide (x > 7) || nz g y (x + 1) || nz g y (x + 2) then false else canRotate
      let canDown := if y == 11 || nz g (y + 3) x || nz g (y + 3) (x + 1) then false else canDown
      setFlags s canLeft canRight canRotate canDown
    | 1 =>
      let canLeft := if nz g y (dec x) || nz g (y + 1) (dec x) then false else canLeft
      let canRight := if nz g y (x + 3) || nz g (y + 1) (x + 1) || x == 7 then false else canRight
      let canRotate := if nz g (y + 1) (x + 1) || nz g (y + 2) (x + 1) then false else canRotate
      let canDown := if y == 12 || nz g (y + 2) x || nz g (y + 1) (x + 1) || nz g (y + 1) (x + 2) then false else canDown
      setFlags s canLeft canRight canRotate canDown
    | 2 =>
      let canLeft := if nz g y (dec x) || nz g (y + 1) x || nz g (y + 2) x then false else canLeft
      let canRight := if nz g y (x + 2) || nz g (y + 1) (x + 2) || nz g (y + 2) (x + 2) || x == 8 then false else canRight
      let canRotate := if decide (x > 7) || nz g y (x + 2) || nz g (y + 1) x || nz g (y + 1) (x + 2) then false else canRotate
      let canDown := if y == 11 || nz g (y + 1) x || nz g (y + 3) (x + 1) then false else canDown
      setFlags s canLeft canRight canRotate canDown
    | 3 =>
      let canLeft := if nz g y (x + 1) || nz g (y + 1) (dec x) then false else canLeft
      let canRight := if nz g y (x + 3) || nz g (y + 1) (x + 3) || x == 7 then false else canRight
      let canRotate := if nz g y x || nz g (y + 2) x || nz g (y + 2) (x + 1) then false else canRotate
      let canDown := if y == 12 || nz g (y + 2) x || nz g (y + 2) (x + 1) || nz g (y + 2) (x + 2) then false else canDown
      setFlags s canLeft canRight canRotate canDown
    | _ => setFlags s canLeft canRight canRotate canDown
  | 7 =>  -- T
    match r with
    | 0 =>
      let canLeft := if nz g y x || nz g (y + 1) (dec x) then false else canLeft
      let canRight := if nz g y (x + 2) || nz g (y + 1) (x + 3) || x == 7 then false else canRight
      let canRotate := if nz g y x || nz g (y + 2) x then false else canRotate
      let canDown := if y == 12 || nz g (y + 2) x || nz g (y + 2) (x + 1) || nz g (y + 2) (x + 2) then false else canDown
      setFlags s canLeft canRight canRotate canDown
    | 1 =>
      let canLeft := if nz g y (dec x) || nz g (y + 1) (dec x) || nz g (y + 2) (dec x) then false else canLeft
      let canRight := if nz g y (x + 1) || nz g (y + 1) (x + 2) || nz g (y + 2) (x + 1) || x == 8 then false else canRight
      let canRotate := if decide (x > 7) || nz g y (x + 1) || nz g y (x + 2) then false else canRotate
      let canDown := if y == 11 || nz g (y + 3) x || nz g (y + 2) (x + 1) then false else canDown
      setFlags s canLeft canRight canRotate canDown
    | 2 =>
      let canLeft := if nz g y (dec x) || nz g (y + 1) x then false else canLeft
      let canRight := if nz g y (x + 3) || nz g (y + 1) (x + 2) || x == 7 then false else canRight
      let canRotate := if nz g (y + 1) x || nz g (y + 2) (x + 1) then false else canRotate
      let canDown := if y == 12 || nz g (y + 1) x || nz g (y + 2) (x + 1) || nz g (y + 1) (x + 2) then false else canDown
      setFlags s canLeft canRight canRotate canDown
    | 3 =>
      let canLeft := if nz g y x || nz g (y + 1) (dec x) || nz g (y + 2) x then false else canLeft
      let canRight := if nz g y (x + 2) || nz g (y + 1) (x + 2) || nz g (y + 2) (x + 2) || x == 8 then false else canRight
      let canRotate := if decide (x > 7) || nz g (y + 1) (x + 2) then false else canRotate
      let canDown := if y == 11 || nz g (y + 2) x || nz g (y + 3) (x + 1) then false else canDown
      setFlags s canLeft canRight canRotate canDown
    | _ => setFlags s canLeft canRight canRotate canDown
  | _ => setFlags s canLeft canRight canRotate canDown

/-- The function `checkGameOver` (its `|` on 0/1 values is the Boolean or). -/
def checkGameOver (s : State) : State :=
  let g := s.grid
  let x := s.xPos
  let y := s.yPos
  let p := s.piece
  match p with
  | 1 => if nz g y x || nz g (y + 1) x || nz g y (x + 1) || nz g (y + 1) (x + 1) then { s with gameAlive := false } else s
  | 2 => if nz g y x || nz g (y + 1) x || nz g (y + 2) x || nz g (y + 3) x then { s with gameAlive := false } else s
  | 3 => if nz g y x || nz g y (x + 1) || nz g (y + 1) (x + 1) || nz g (y + 1) (x + 2) then { s with gameAlive := false } else s
  | 4 => if nz g y (x + 1) || nz g y (x + 2) || nz g (y + 1) x || nz g (y + 1) (x + 1) then { s with gameAlive := false } else s
  | 5 => if nz g y (x + 1) || nz g (y + 1) (x + 1) || nz g (y + 2) x || nz g (y + 2) (x + 1) then { s with gameAlive := false } else s
  | 6 => if nz g y x || nz g (y + 1) x || nz g (y + 2) x || nz g (y + 2) (x + 1) then { s with gameAlive := false } else s
  | 7 => if nz g y (x + 1) || nz g (y + 1) x || nz g (y + 1) (x + 1) || nz g (y + 1) (x + 2) then { s with gameAlive := false } else s
  | _ => s

/-- The function `placePiece`. -/
def placePiece (s : State) : State :=
  let x := s.xPos
  let y := s.yPos
  let p := s.piece
  let r := s.rotation
  match p with
  | 1 =>  -- O
    { s with grid := s.grid |> wr y x p |> wr (y + 1) x p |> wr y (x + 1) p |> wr (y + 1) (x + 1) p }
  | 2 =>  -- I
    match r with
    | 0 | 2 =>
      { s with grid := s.grid |> wr y x p |> wr (y + 1) x p |> wr (y + 2) x p |> wr (y + 3) x p }
    | 1 | 3 =>
      { s with grid := s.grid |> wr y x p |> wr y (x + 1) p |> wr y (x + 2) p |> wr y (x + 3) p }
    | _ => s
  | 3 =>  -- Z
    match r with
    | 0 | 2 =>
      { s with grid := s.grid |> wr y x p |> wr y (x + 1) p |> wr (y + 1) (x + 1) p |> wr (y + 1) (x + 2) p }
    | 1 | 3 =>
      { s with grid := s.grid |> wr y (x + 1) p |> wr (y + 1) x p |> wr (y + 1) (x + 1) p |> wr (y + 2) x p }
    | _ => s
  | 4 =>  -- S
    match r with
    | 0 | 2 =>
      { s with grid := s.grid |> wr y (x + 1) p |> wr y (x + 2) p |> wr (y + 1) x p |> wr (y + 1) (x + 1) p }
    | 1 | 3 =>
      { s with grid := s.grid |> wr y x p |> wr (y + 1) x p |> wr (y + 1) (x + 1) p |> wr (y + 2) (x + 1) p }
    | _ => s
  | 5 =>  -- J
    match r with
    | 0 =>
      { s with grid := s.grid |> wr y (x + 1) p |> wr (y + 1) (x + 1) p |> wr (y + 2) x p |> wr (y + 2) (x + 1) p }
    | 1 =>
      { s with grid := s.grid |> wr y x p |> wr (y + 1) x p |> wr (y + 1) (x + 1) p |> wr (y + 1) (x + 2) p }
    | 2 =>
      { s with grid := s.grid |> wr y x p |> wr y (x + 1) p |> wr (y + 1) x p |> wr (y + 2) x p }
    | 3 =>
      { s with grid := s.grid |> wr y x p |> wr y (x + 1) p |> wr y (x + 2) p |> wr (y + 1) (x + 2) p }
    | _ => s
  | 6 =>  -- L
    match r with
    | 0 =>
      { s with grid := s.grid |> wr y x p |> wr (y + 1) x p |> wr (y + 2) x p |> wr (y + 2) (x + 1) p }
    | 1 =>
      { s with grid := s.grid |> wr y x p |> wr y (x + 1) p |> wr y (x + 2) p |> wr (y + 1) x p }
    | 2 =>
      { s with grid := s.grid |> wr y x p |> wr y (x + 1) p |> wr (y + 1) (x + 1) p |> wr (y + 2) (x + 1) p }
    | 3 =>
      { s with grid := s.grid |> wr y (x + 2) p |> wr (y + 1) x p |> wr (y + 1) (x + 1) p |> wr (y + 1) (x + 2) p }
    | _ => s
  | 7 =>  -- T
    match r with
    | 0 =>
      { s with grid := s.grid |> wr y (x + 1) p |> wr (y + 1) x p |> wr (y + 1) (x + 1) p |> wr (y + 1) (x + 2) p }
    | 1 =>
      { s with grid := s.grid |> wr y x p |> wr (y + 1) x p |> wr (y + 1) (x + 1) p |> wr (y + 2) x p }
    | 2 =>
      { s with grid := s.grid |> wr y x p |> wr y (x + 1) p |> wr y (x + 2) p |> wr (y + 1) (x + 1) p }
    | 3 =>
      { s with grid := s.grid |> wr y (x + 1) p |> wr (y + 1) x p |> wr (y + 1) (x + 1) p |> wr (y + 2) (x + 1) p }
    | _ => s
  | _ => s

/-- The function `removePiece`. -/
def removePiece (s : State) : State :=
  let x := s.xPos
  let y := s.yPos
  let p := s.piece
  let r := s.rotation
  match p with
  | 1 =>  -- O
    { s with grid := s.grid |> wr y x 0 |> wr (y + 1) x 0 |> wr y (x + 1) 0 |> wr (y + 1) (x + 1) 0 }
  | 2 =>  -- I
    match r with
    | 0 | 2 =>
      { s with grid := s.grid |> wr y x 0 |> wr (y + 1) x 0 |> wr (y + 2) x 0 |> wr (y + 3) x 0 }
    | 1 | 3 =>
      { s with grid := s.grid |> wr y x 0 |> wr y (x + 1) 0 |> wr y (x + 2) 0 |> wr y (x + 3) 0 }
    | _ => s
  | 3 =>  -- Z
    match r with
    | 0 | 2 =>
      { s with grid := s.grid |> wr y x 0 |> wr y (x + 1) 0 |> wr (y + 1) (x + 1) 0 |> wr (y + 1) (x + 2) 0 }
    | 1 | 3 =>
      { s with grid := s.grid |> wr y (x + 1) 0 |> wr (y + 1) x 0 |> wr (y + 1) (x + 1) 0 |> wr (y + 2) x 0 }
    | _ => s
  | 4 =>  -- S
    match r with
    | 0 | 2 =>
      { s with grid := s.grid |> wr y (x + 1) 0 |> wr y (x + 2) 0 |> wr (y + 1) x 0 |> wr (y + 1) (x + 1) 0 }
    | 1 | 3 =>
      { s with grid := s.grid |> wr y x 0 |> wr (y + 1) x 0 |> wr (y + 1) (x + 1) 0 |> wr (y + 2) (x + 1) 0 }
    | _ => s
  | 5 =>  -- J
    match r with
    | 0 =>
      { s with grid := s.grid |> wr y (x + 1) 0 |> wr (y + 1) (x + 1) 0 |> wr (y + 2) x 0 |> wr (y + 2) (x + 1) 0 }
    | 1 =>
      { s with grid := s.grid |> wr y x 0 |> wr (y + 1) x 0 |> wr (y + 1) (x + 1) 0 |> wr (y + 1) (x + 2) 0 }
    | 2 =>
      { s with grid := s.grid |> wr y x 0 |> wr y (x + 1) 0 |> wr (y + 1) x 0 |> wr (y + 2) x 0 }
    | 3 =>
      { s with grid := s.grid |> wr y x 0 |> wr y (x + 1) 0 |> wr y (x + 2) 0 |> wr (y + 1) (x + 2) 0 }
    | _ => s
  | 6 =>  -- L
    match r with
    | 0 =>
      { s with grid := s.grid |> wr y x 0 |> wr (y + 1) x 0 |> wr (y + 2) x 0 |> wr (y + 2) (x + 1) 0 }
    | 1 =>
      { s with grid := s.grid |> wr y x 0 |> wr y (x + 1) 0 |> wr y (x + 2) 0 |> wr (y + 1) x 0 }
    | 2 =>
      { s with grid := s.grid |> wr y x 0 |> wr y (x + 1) 0 |> wr (y + 1) (x + 1) 0 |> wr (y + 2) (x + 1) 0 }
    | 3 =>
      { s with grid := s.grid |> wr y (x + 2) 0 |> wr (y + 1) x 0 |> wr (y + 1) (x + 1) 0 |> wr (y + 1) (x + 2) 0 }
    | _ => s
  | 7 =>  -- T
    match r with
    | 0 =>
      { s with grid := s.grid |> wr y (x + 1) 0 |> wr (y + 1) x 0 |> wr (y + 1) (x + 1) 0 |> wr (y + 1) (x + 2) 0 }
    | 1 =>
      { s with grid := s.grid |> wr y x 0 |> wr (y + 1) x 0 |> wr (y + 1) (x + 1) 0 |> wr (y + 2) x 0 }
    | 2 =>
      { s with grid := s.grid |> wr y x 0 |> wr y (x + 1) 0 |> wr y (x + 2) 0 |> wr (y + 1) (x + 1) 0 }
    | 3 =>
      { s with grid := s.grid |> wr y (x + 1) 0 |> wr (y + 1) x 0 |> wr (y + 1) (x + 1) 0 |> wr (y + 2) (x + 1) 0 }
    | _ => s
  | _ => s

/-- The (row, column) offsets from the anchor that `placePiece` writes for a piece
identity and rotation, in source order. -/
def footprint (p r : Nat) : List (Nat × Nat) :=
  match p with
  | 1 =>  -- O
    [(0, 0), (1, 0), (0, 1), (1, 1)]
  | 2 =>  -- I
    match r with
    | 0 | 2 => [(0, 0), (1, 0), (2, 0), (3, 0)]
    | 1 | 3 => [(0, 0), (0, 1), (0, 2), (0, 3)]
    | _ => []
  | 3 =>  -- Z
    match r with
    | 0 | 2 => [(0, 0), (0, 1), (1, 1), (1, 2)]
    | 1 | 3 => [(0, 1), (1, 0), (1, 1), (2, 0)]
    | _ => []
  | 4 =>  -- S
    match r with
    | 0 | 2 => [(0, 1), (0, 2), (1, 0), (1, 1)]
    | 1 | 3 => [(0, 0), (1, 0), (1, 1), (2, 1)]
    | _ => []
  | 5 =>  -- J
    match r with
    | 0 => [(0, 1), (1, 1), (2, 0), (2, 1)]
    | 1 => [(0, 0), (1, 0), (1, 1), (1, 2)]
    | 2 => [(0, 0), (0, 1), (1, 0), (2, 0)]
    | 3 => [(0, 0), (0, 1), (0, 2), (1, 2)]
    | _ => []
  | 6 =>  -- L
    match r with
    | 0 => [(0, 0), (1, 0), (2, 0), (2, 1)]
    | 1 => [(0, 0), (0, 1), (0, 2), (1, 0)]
    | 2 => [(0, 0), (0, 1), (1, 1), (2, 1)]
    | 3 => [(0, 2), (1, 0), (1, 1), (1, 2)]
    | _ => []
  | 7 =>  -- T
    match r with
    | 0 => [(0, 1), (1, 0), (1, 1), (1, 2)]
    | 1 => [(0, 0), (1, 0), (1, 1), (2, 0)]
    | 2 => [(0, 0), (0, 1), (0, 2), (1, 1)]
    | 3 => [(0, 1), (1, 0), (1, 1), (2, 1)]
    | _ => []
  | _ => []

/-- The function `setLevelColor`. -/
def setLevelColor (s : State) : State :=
  match s.level with
  | 1 | 8 => { s with levelColor := 0xAEBB }
  | 2 | 9 => { s with levelColor := 0xAF5D }
  | 3 | 10 => { s with levelColor := 0x7EBF }
  | 4 | 11 => { s with levelColor := 0x7D7F }
  | 5 | 12 => { s with levelColor := 0x8CFF }
  | 6 => { s with levelColor := 0xAC3F }
  | 7 => { s with levelColor := 0xD37C }
  | _ => s

/-- The loop `for (j = 0; j < 10; j++) if (grid[i][j] == 0) fullLine = false;` of `step`. -/
def scanRow (i : Nat) (s : State) : State :=
  (List.range 10).foldl
    (fun s j => if s.grid i j == 0 then { s with fullLine := false } else s) s

/-- The compaction loop of `step`, run when row `i` is full:
`for (k = 0; (i - k) >= 0; k++) for (j = 0; j < 10; j++) ...`.
The signed counter `k` takes the values `0..i`. -/
def shiftRows (i : Nat) (s : State) : State :=
  (List.range (i + 1)).foldl
    (fun s k =>
      (List.range 10).foldl
        (fun s j =>
          if i - k == 0 then { s with grid := wr (i - k) j 0 s.grid }
          else { s with grid := wr (i - k) j (s.grid (i - (1 + k)) j) s.grid })
        s)
    s

/-- The statements `linesCleared++; scoreRow += 2;` of `step`. -/
def countLine (s : State) : State :=
  { s with linesCleared := inc s.linesCleared, scoreRow := (s.scoreRow + 2) % 65536 }

/-- The statement `if (linesCleared % 10 == 0) { scoreColumn += 2; scoreRow = 0; }`. -/
def decadeShift (s : State) : State :=
  if s.linesCleared % 10 == 0 then
    { s with scoreColumn := (s.scoreColumn + 2) % 65536, scoreRow := 0 }
  else s

/-- The statement
`if (linesCleared == level * 10) { level++; linesCleared = 0; setLevelColor(); }`. -/
def levelUp (s : State) : State :=
  if s.linesCleared == (s.level * 10) % 65536 then
    setLevelColor { s with level := inc s.level, linesCleared := 0 }
  else s

/-- Body of the loop `for (i = 0; i < 14; i++)` of `step`: test row `i` and, when
it is full, delete it and update score position and level. -/
def clearRow (s : State) (i : Nat) : State :=
  let s := { s with fullLine := true }
  let s := scanRow i s
  if s.fullLine then levelUp (decadeShift (countLine (shiftRows i s)))
  else s

/-- The line-clear pass of `step`: the loop over `i = 0..13`. -/
def lineClear (s : State) : State :=
  (List.range 14).foldl clearRow s

/-- The lock of the piece in `step`: `pieceAlive = false;`, the line-clear pass and
`graceTime = 0;`. -/
def lock (s : State) : State :=
  { lineClear { s with pieceAlive := false } with graceTime := 0 }

/-- First part of the loop body of `step`, after `checkCollisions`: the grace
counter and the lock of the piece. -/
def lockStage (s : State) : State :=
  if !s.canDown then
    let s := { s with graceTime := inc s.graceTime }
    if s.graceTime > 9000 then lock s else s
  else s

/-- The four assignments that start a spawn in `step`:
`xPos = 4; yPos = 0; piece = (keyPress % 7) + 1; rotation = 0;`. -/
def spawnSetup (s : State) : State :=
  { s with xPos := 4, yPos := 0, piece := (s.keyPress % 7) + 1, rotation := 0 }

/-- The spawn branch of `step`:
`checkGameOver(); placePiece(); pieceAlive = true;` after the four assignments. -/
def spawn (s : State) : State :=
  { placePiece (checkGameOver (spawnSetup s)) with pieceAlive := true }

/-- The left branch of `step`: `removePiece(); xPos--; placePiece(); leftKey = false;`. -/
def shiftLeft (s : State) : State :=
  let s := removePiece s
  let s := { s with xPos := dec s.xPos }
  { placePiece s with leftKey := false }

/-- The right branch of `step`: `removePiece(); xPos++; placePiece(); rightKey = false;`. -/
def shiftRight (s : State) : State :=
  let s := removePiece s
  let s := { s with xPos := inc s.xPos }
  { placePiece s with rightKey := false }

/-- The value stored by `if (rotation < 3) rotation++; else rotation = 0;`. -/
def nextRotation (r : Nat) : Nat := if r < 3 then r + 1 else 0

/-- The rotate branch of `step`: `removePiece();`, the rotation update, then
`placePiece(); rotateKey = false;`. -/
def rotate (s : State) : State :=
  let s := removePiece s
  let s := { s with rotation := nextRotation s.rotation }
  { placePiece s with rotateKey := false }

/-- Second part of the loop body of `step`: spawn, or one of left, right, rotate. -/
def moveStage (s : State) : State :=
  if !s.pieceAlive then spawn s
  else if s.leftKey && s.canLeft then shiftLeft s
  else if s.rightKey && s.canRight then shiftRight s
  else if s.rotateKey && s.canRotate then rotate s
  else s

/-- Value of `24000 - (level-1)*1166` in 16-bit unsigned arithmetic. -/
def dropThreshold (level : Nat) : Nat :=
  (24000 + 65536 - (dec level * 1166) % 65536) % 65536

/-- The body of the forced downward step of `step`:
`removePiece(); yPos++; placePiece();` and the five assignments that follow. -/
def dropOne (s : State) : State :=
  let s := removePiece s
  let s := { s with yPos := inc s.yPos }
  { placePiece s with
    leftKey := false, rightKey := false, rotateKey := false,
    keyPress := inc s.keyPress, dropCounter := 0 }

/-- Third part of the loop body of `step`: the forced downward step. -/
def dropStage (s : State) : State :=
  if decide (s.dropCounter > dropThreshold s.level) && s.canDown then dropOne s
  else s

/-- Last part of the loop body of `step`: the joystick sample `adc` (the value read
from `ADC10MEM`) and the drop counter. -/
def joystickStage (adc : Nat) (s : State) : State :=
  let s := { s with downJoystick := adc }
  let s :=
    if s.downJoystick < 100 then { s with dropCounter := (s.dropCounter + 24000) % 65536 }
    else if s.downJoystick < 200 then { s with dropCounter := (s.dropCounter + 500) % 65536 }
    else if s.downJoystick < 455 then { s with dropCounter := (s.dropCounter + 100) % 65536 }
    else s
  { s with dropCounter := inc s.dropCounter }

/-- One iteration of the body of `while (gameAlive)` in `step`, with joystick
sample `adc`. -/
def tick (adc : Nat) (s : State) : State :=
  joystickStage adc (dropStage (moveStage (lockStage (checkCollisions s))))

/-- The loop `while (gameAlive)` of `step`, run for at most `fuel` iterations on the
joystick samples `adc 0, adc 1, ...`; `none` when the fuel runs out before the loop
exits. -/
def stepLoop : Nat → (Nat → Nat) → State → Option State
  | 0, _, s => if s.gameAlive then none else some s
  | fuel + 1, adc, s =>
    if s.gameAlive then stepLoop fuel (fun n => adc (n + 1)) (tick (adc 0) s)
    else some s

/-- Absolute (row, column) cells of the piece `p` in rotation `r` anchored at
column `x`, row `y`. -/
def cellsAt (p r x y : Nat) : List (Nat × Nat) :=
  (footprint p r).map fun d => (y + d.1, x + d.2)

/-- The footprint of the piece lies inside the 14x10 grid. -/
def Inside (p r x y : Nat) : Prop :=
  ∀ d ∈ footprint p r, y + d.1 < 14 ∧ x + d.2 < 10

/-- The piece is placed in the grid: its four cells hold its identifier. -/
def Placed (g : Grid) (p r x y : Nat) : Prop :=
  ∀ d ∈ footprint p r, g (y + d.1) (x + d.2) = p

/-- A cell is free for the piece whose current cells are `own`: it lies inside the
14x10 grid and is either empty or one of the piece's own cells. -/
def Free (g : Grid) (own : List (Nat × Nat)) (r c : Nat) : Prop :=
  r < 14 ∧ c < 10 ∧ (g r c = 0 ∨ (r, c) ∈ own)

/-- The grid `g` with the value `v` stored in every cell of `cells`. -/
def writeCells (cells : List (Nat × Nat)) (v : Nat) (g : Grid) : Grid :=
  fun r c => if (r, c) ∈ cells then v else g r c

/-- A grid given by its list of rows (cells not listed are 0). -/
def gridOf (rows : List (List Nat)) : Grid :=
  fun r c => (rows.getD r []).getD c 0

/-- The left branch of the move stage runs in the tick that starts in `s`
(for a live piece that is not locked in this tick). -/
def leftApplied (s : State) : Bool :=
  s.leftKey && (checkCollisions s).canLeft

/-- The right branch of the move stage runs in the tick that starts in `s`. -/
def rightApplied (s : State) : Bool :=
  !leftApplied s && (s.rightKey && (checkCollisions s).canRight)

/-- The rotate branch of the move stage runs in the tick that starts in `s`. -/
def rotateApplied (s : State) : Bool :=
  !leftApplied s && !rightApplied s && (s.rotateKey && (checkCollisions s).canRotate)

/-- The forced downward step runs in the tick that starts in `s`. -/
def dropApplied (s : State) : Bool :=
  decide (s.dropCounter > dropThreshold s.level) && (checkCollisions s).canDown

/-- The tick that starts in `s` locks the piece: descent is illegal and the
incremented grace counter exceeds 9000. -/
def lockApplied (s : State) : Bool :=
  !(checkCollisions s).canDown && decide (inc s.graceTime > 9000)

/-- The grid after a piece with identifier `p` is removed from the cells `old` and
placed on the cells `new`. -/
def moveGrid (p : Nat) (old new : List (Nat × Nat)) (g : Grid) : Grid :=
  writeCells new p (writeCells old 0 g)

/-- Rotation, column and row of the piece after the move stage of the tick that
starts in `s` (for a live piece that is not locked in this tick). -/
def moveTarget (s : State) : Nat × Nat × Nat :=
  if leftApplied s then (s.rotation, dec s.xPos, s.yPos)
  else if rightApplied s then (s.rotation, inc s.xPos, s.yPos)
  else if rotateApplied s then (nextRotation s.rotation, s.xPos, s.yPos)
  else (s.rotation, s.xPos, s.yPos)

/-- Row `i` of the grid, as the list of its ten cells. -/
def rowOf (g : Grid) (i : Nat) : List Nat := (List.range 10).map (g i)

/-- The fourteen rows of the grid, top to bottom. -/
def rowsOf (g : Grid) : List (List Nat) := (List.range 14).map (rowOf g)

/-- A row is full when it has no zero cell. -/
def isFull (row : List Nat) : Bool := row.all fun v => v != 0

/-- Specification of the line-clear pass, following the description of the pass:
delete every full row, keep the remaining rows in their order at the bottom, and
fill the freed rows at the top with zeros. -/
def compactRows (rows : List (List Nat)) : List (List Nat) :=
  let kept := rows.filter fun row => !isFull row
  List.replicate (rows.length - kept.length) (List.replicate 10 0) ++ kept

/-- Number of iterations of the line-clear pass of `step` that take the branch
`if (fullLine)`, i.e. the number of rows the pass clears. -/
def lineClearCount (s : State) : Nat :=
  ((List.range 14).foldl
    (fun (a : State × Nat) i =>
      (clearRow a.1 i,
        if (scanRow i { a.1 with fullLine := true }).fullLine then a.2 + 1 else a.2))
    (s, 0)).2

/-- Rows `0..i` moved down by one with a zero row on top; all other cells kept. -/
def shiftG (i : Nat) (g : Grid) : Grid :=
  fun r c => if r ≤ i ∧ c < 10 then (if r = 0 then 0 else g (r - 1) c) else g r c

/-- Effect of one iteration of the line-clear pass on the grid alone. -/
def clearRowG (g : Grid) (i : Nat) : Grid :=
  if isFull (rowOf g i) then shiftG i g else g

/-- The globals that the line-clear pass never assigns. -/
structure Ctl where
  piece : Nat
  rotation : Nat
  xPos : Nat
  yPos : Nat
  dropCounter : Nat
  keyPress : Nat
  graceTime : Nat
  pieceAlive : Bool
  leftKey : Bool
  rightKey : Bool
  rotateKey : Bool
  canRotate : Bool
  canRight : Bool
  canLeft : Bool
  canDown : Bool
  gameAlive : Bool

/-- Projection of a state on the globals that the line-clear pass never assigns. -/
def ctl (s : State) : Ctl where
  piece := s.piece
  rotation := s.rotation
  xPos := s.xPos
  yPos := s.yPos
  dropCounter := s.dropCounter
  keyPress := s.keyPress
  graceTime := s.graceTime
  pieceAlive := s.pieceAlive
  leftKey := s.leftKey
  rightKey := s.rightKey
  rotateKey := s.rotateKey
  canRotate := s.canRotate
  canRight := s.canRight
  canLeft := s.canLeft
  canDown := s.canDown
  gameAlive := s.gameAlive

/-- The statements of `step` that follow the compaction of a full row
(`linesCleared++; scoreRow += 2;` and the two `if` statements): the progression
update that `clearRow` applies once per cleared row. -/
def progress (s : State) : State :=
  levelUp (decadeShift (countLine s))

/-- The function `readTS`: `z = 1023 - z0 + z1` in 16-bit unsigned arithmetic, where
`z0` and `z1` are the two samples read from `ADC10MEM`. -/
def readTS (z0 z1 : Nat) (s : State) : State :=
  { s with z := (1023 + 65536 - z0 % 65536 + z1) % 65536 }

/-- The loops `for (i = 0; i < 14; i++) for (j = 0; j < 10; j++) grid[i][j] = 0;` at
the end of `step`. -/
def zeroGrid (s : State) : State :=
  (List.range 14).foldl
    (fun s i => (List.range 10).foldl (fun s j => { s with grid := wr i j 0 s.grid }) s) s

/-- The body of `if (z > 100)` in the restart loop of `step`: the assignments in source
order, then the loops that zero the grid. -/
def restartReset (s : State) : State :=
  zeroGrid
    { s with
      level := 1, linesCleared := 0, scoreVerticlePosition := 0, dropCounter := 0,
      keyPress := 1, levelColor := 0xAEBB, scoreColumn := 0, scoreRow := 0,
      pieceAlive := false, leftKey := false, rightKey := false, rotateKey := false,
      fullLine := false, canRotate := true, canRight := true, canLeft := true,
      canDown := true, gameAlive := true, start := true }

/-- The statement `if (z > 100) { ... }` of the restart loop of `step`. -/
def restartIf (s : State) : State :=
  if s.z > 100 then restartReset s else s

/-- One iteration of the loop `while (!start)` at the end of `step`: `readTS();`
followed by `if (z > 100) { ... }`. -/
def restartBody (z0 z1 : Nat) (s : State) : State :=
  restartIf (readTS z0 z1 s)

/-- The loop `while (!start)` at the end of `step`, run for at most `fuel` iterations
on the touch samples `ts 0, ts 1, ...`, followed by `start = false;`; `none` when the
fuel runs out before a qualifying press. -/
def restartLoop : Nat → (Nat → Nat × Nat) → State → Option State
  | 0, _, s => if s.start then some { s with start := false } else none
  | fuel + 1, ts, s =>
    if s.start then some { s with start := false }
    else restartLoop fuel (fun n => ts (n + 1)) (restartBody (ts 0).1 (ts 0).2 s)

/-- Every cell of the 14x10 grid holds a value in 0..7. -/
def CellsInRange (g : Grid) : Prop :=
  ∀ a b, a < 14 → b < 10 → g a b ≤ 7

/-- The state of a fresh game in which the in-level counter and the level have the
given values. -/
def progressState (level linesCleared : Nat) : State :=
  { initState with level := level, linesCleared := linesCleared }


/-- One byte sent to the LCD controller over SPI: a command byte (sent by
`writeLCDControl`, D/C line low) or a data byte (sent by `writeLCDData`, D/C line
high). -/
inductive LcdByte where
  | command (b : Nat)
  | data (b : Nat)
deriving DecidableEq

/-- The function `writeLCDControl`: the `char` argument is put in the transmit buffer
with the D/C line low. -/
def writeLCDControl (data : Nat) : List LcdByte := [LcdByte.command (data % 256)]

/-- The function `writeLCDData`: the `char` argument is put in the transmit buffer
with the D/C line high. -/
def writeLCDData (data : Nat) : List LcdByte := [LcdByte.data (data % 256)]

/-- The fill loops of `drawSquare`:
`for (i = n; i > 0; i--) { writeLCDData(c >> 8); writeLCDData(c & 0xff);
writeLCDData(c >> 8); writeLCDData(c & 0xff); }`. -/
def fillLoop : Nat → Nat → List LcdByte
  | 0, _ => []
  | n + 1, c =>
    writeLCDData (c >>> 8) ++ writeLCDData (c &&& 0xff) ++
      writeLCDData (c >>> 8) ++ writeLCDData (c &&& 0xff) ++ fillLoop n c

/-- The first `switch (pieceNumber)` of `drawSquare`: the fill of the outer square. -/
def outerFill (pieceNumber : Nat) : List LcdByte :=
  match pieceNumber with
  | 0 => fillLoop 220 0x110F
  | 1 => fillLoop 220 0x69D6
  | 2 => fillLoop 220 0x24BD
  | 3 => fillLoop 220 0x053D
  | 4 => fillLoop 220 0x05D9
  | 5 => fillLoop 220 0x3A96
  | 6 => fillLoop 220 0x9135
  | 7 => fillLoop 220 0x03D2
  | _ => []

/-- The second `switch (pieceNumber)` of `drawSquare`: the fill of the inner square
(there is no `case 0`). -/
def innerFill (pieceNumber : Nat) : List LcdByte :=
  match pieceNumber with
  | 1 => fillLoop 162 0xAC3F
  | 2 => fillLoop 162 0x7D7F
  | 3 => fillLoop 162 0x7EBF
  | 4 => fillLoop 162 0xAF5D
  | 5 => fillLoop 162 0x8CFF
  | 6 => fillLoop 162 0xD37C
  | 7 => fillLoop 162 0xAEBB
  | _ => []

/-- The function `drawSquare`, as the bytes it sends to the LCD controller in order.
The `int` arguments are taken non-negative, as at every call site. -/
def drawSquare (x0 y pieceNumber : Nat) : List LcdByte :=
  let y0 := y / 256
  let y1 := y % 256
  let y2 := (y + 19) / 256
  let y3 := (y + 19) % 256
  let y4 := (y + 2) / 256
  let y5 := (y + 2) % 256
  let y6 := (y + 17) / 256
  let y7 := (y + 17) % 256
  writeLCDControl 0x2A ++ writeLCDData 0 ++ writeLCDData x0 ++ writeLCDData 0 ++
    writeLCDData (x0 + 19) ++
    writeLCDControl 0x2B ++ writeLCDData y0 ++ writeLCDData y1 ++ writeLCDData y2 ++
    writeLCDData y3 ++
    writeLCDControl 0x2C ++ outerFill pieceNumber ++
    writeLCDControl 0x2A ++ writeLCDData 0 ++ writeLCDData (x0 + 2) ++ writeLCDData 0 ++
    writeLCDData (x0 + 17) ++
    writeLCDControl 0x2B ++ writeLCDData y4 ++ writeLCDData y5 ++ writeLCDData y6 ++
    writeLCDData y7 ++
    writeLCDControl 0x2C ++ innerFill pieceNumber

/-- The function `drawPiece(x, y)`, as the list of the calls
`drawSquare(x0, y, pieceNumber)` it makes, in order. -/
def drawPiece (x y : Nat) (s : State) : List (Nat × Nat × Nat) :=
  let p := s.piece
  match s.piece with
  | 1 =>  -- O
    [(x, y, p), (x + 20, y, p), (x, y + 20, p), (x + 20, y + 20, p)]
  | 2 =>  -- I
    match s.rotation with
    | 0 | 2 => [(x, y, p), (x, y + 20, p), (x, y + 40, p), (x, y + 60, p)]
    | 1 | 3 => [(x, y, p), (x + 20, y, p), (x + 40, y, p), (x + 60, y, p)]
    | _ => []
  | 3 =>  -- Z
    match s.rotation with
    | 0 | 2 => [(x, y, p), (x + 20, y, p), (x + 20, y + 20, p), (x + 40, y + 20, p)]
    | 1 | 3 => [(x + 20, y, p), (x, y + 20, p), (x + 20, y + 20, p), (x, y + 40, p)]
    | _ => []
  | 4 =>  -- S
    match s.rotation with
    | 0 | 2 => [(x + 20, y, p), (x + 40, y, p), (x, y + 20, p), (x + 20, y + 20, p)]
    | 1 | 3 => [(x, y, p), (x, y + 20, p), (x + 20, y + 20, p), (x + 20, y + 40, p)]
    | _ => []
  | 5 =>  -- J
    match s.rotation with
    | 0 => [(x + 20, y, p), (x + 20, y + 20, p), (x, y + 40, p), (x + 20, y + 40, p)]
    | 1 => [(x, y, p), (x, y + 20, p), (x + 20, y + 20, p), (x + 40, y + 20, p)]
    | 2 => [(x, y, p), (x + 20, y, p), (x, y + 20, p), (x, y + 40, p)]
    | 3 => [(x, y, p), (x + 20, y, p), (x + 40, y, p), (x + 40, y + 20, p)]
    | _ => []
  | 6 =>  -- L
    match s.rotation with
    | 0 => [(x, y, p), (x, y + 20, p), (x, y + 40, p), (x + 20, y + 40, p)]
    | 1 => [(x, y, p), (x + 20, y, p), (x + 40, y, p), (x, y + 20, p)]
    | 2 => [(x, y, p), (x + 20, y, p), (x + 20, y + 20, p), (x + 20, y + 40, p)]
    | 3 => [(x + 40, y, p), (x, y + 20, p), (x + 20, y + 20, p), (x + 40, y + 20, p)]
    | _ => []
  | 7 =>  -- T
    match s.rotation with
    | 0 => [(x + 20, y, p), (x, y + 20, p), (x + 20, y + 20, p), (x + 40, y + 20, p)]
    | 1 => [(x, y, p), (x, y + 20, p), (x + 20, y + 20, p), (x, y + 40, p)]
    | 2 => [(x, y, p), (x + 20, y, p), (x + 40, y, p), (x + 20, y + 20, p)]
    | 3 => [(x + 20, y, p), (x, y + 20, p), (x + 20, y + 20, p), (x + 20, y + 40, p)]
    | _ => []
  | _ => []

/-- The function `erasePiece(x, y)`, as the list of the calls
`drawSquare(x0, y, pieceNumber)` it makes, in order. -/
def erasePiece (x y : Nat) (s : State) : List (Nat × Nat × Nat) :=
  match s.piece with
  | 1 =>  -- O
    [(x, y, 0), (x + 20, y, 0), (x, y + 20, 0), (x + 20, y + 20, 0)]
  | 2 =>  -- I
    match s.rotation with
    | 0 | 2 => [(x, y, 0), (x, y + 20, 0), (x, y + 40, 0), (x, y + 60, 0)]
    | 1 | 3 => [(x, y, 0), (x + 20, y, 0), (x + 40, y, 0), (x + 60, y, 0)]
    | _ => []
  | 3 =>  -- Z
    match s.rotation with
    | 0 | 2 => [(x, y, 0), (x + 20, y, 0), (x + 20, y + 20, 0), (x + 40, y + 20, 0)]
    | 1 | 3 => [(x + 20, y, 0), (x, y + 20, 0), (x + 20, y + 20, 0), (x, y + 40, 0)]
    | _ => []
  | 4 =>  -- S
    match s.rotation with
    | 0 | 2 => [(x + 20, y, 0), (x + 40, y, 0), (x, y + 20, 0), (x + 20, y + 20, 0)]
    | 1 | 3 => [(x, y, 0), (x, y + 20, 0), (x + 20, y + 20, 0), (x + 20, y + 40, 0)]
    | _ => []
  | 5 =>  -- J
    match s.rotation with
    | 0 => [(x + 20, y, 0), (x + 20, y + 20, 0), (x, y + 40, 0), (x + 20, y + 40, 0)]
    | 1 => [(x, y, 0), (x, y + 20, 0), (x + 20, y + 20, 0), (x + 40, y + 20, 0)]
    | 2 => [(x, y, 0), (x + 20, y, 0), (x, y + 20, 0), (x, y + 40, 0)]
    | 3 => [(x, y, 0), (x + 20, y, 0), (x + 40, y, 0), (x + 40, y + 20, 0)]
    | _ => []
  | 6 =>  -- L
    match s.rotation with
    | 0 => [(x, y, 0), (x, y + 20, 0), (x, y + 40, 0), (x + 20, y + 40, 0)]
    | 1 => [(x, y, 0), (x + 20, y, 0), (x + 40, y, 0), (x, y + 20, 0)]
    | 2 => [(x, y, 0), (x + 20, y, 0), (x + 20, y + 20, 0), (x + 20, y + 40, 0)]
    | 3 => [(x + 40, y, 0), (x, y + 20, 0), (x + 20, y + 20, 0), (x + 40, y + 20, 0)]
    | _ => []
  | 7 =>  -- T
    match s.rotation with
    | 0 => [(x + 20, y, 0), (x, y + 20, 0), (x + 20, y + 20, 0), (x + 40, y + 20, 0)]
    | 1 => [(x, y, 0), (x, y + 20, 0), (x + 20, y + 20, 0), (x, y + 40, 0)]
    | 2 => [(x, y, 0), (x + 20, y, 0), (x + 40, y, 0), (x + 20, y + 20, 0)]
    | 3 => [(x + 20, y, 0), (x, y + 20, 0), (x + 20, y + 20, 0), (x + 20, y + 40, 0)]
    | _ => []
  | _ => []

/-- The bytes sent to the LCD controller by a list of `drawSquare` calls. -/
def lcdBytes (calls : List (Nat × Nat × Nat)) : List LcdByte :=
  calls.flatMap fun c => drawSquare c.1 c.2.1 c.2.2

/-- The addressing-window command sequence for the pixel rectangle with columns
`xa..xb` and rows `ya..yb`: column bounds with a zero high byte, row bounds as high
byte then low byte, then the memory-write command. -/
def window (xa xb ya yb : Nat) : List LcdByte :=
  [LcdByte.command 0x2A, LcdByte.data 0, LcdByte.data xa, LcdByte.data 0, LcdByte.data xb,
   LcdByte.command 0x2B, LcdByte.data (ya / 256), LcdByte.data (ya % 256),
   LcdByte.data (yb / 256), LcdByte.data (yb % 256), LcdByte.command 0x2C]

/-- A bulk write of `n` pixels of the 16-bit colour `c`, each pixel sent
most-significant byte first. -/
def bulk (n c : Nat) : List LcdByte :=
  (List.replicate n [LcdByte.data (c / 256), LcdByte.data (c % 256)]).flatten

/-- Outer colour of a fill identifier, as in the first `switch` of `drawSquare`. -/
def outerColour : Nat → Nat
  | 0 => 0x110F
  | 1 => 0x69D6
  | 2 => 0x24BD
  | 3 => 0x053D
  | 4 => 0x05D9
  | 5 => 0x3A96
  | 6 => 0x9135
  | _ => 0x03D2

/-- Inner colour of a fill identifier 1..7, as in the second `switch` of `drawSquare`. -/
def innerColour : Nat → Nat
  | 1 => 0xAC3F
  | 2 => 0x7D7F
  | 3 => 0x7EBF
  | 4 => 0xAF5D
  | 5 => 0x8CFF
  | 6 => 0xD37C
  | _ => 0xAEBB
instance (g : Grid) (own : List (Nat × Nat)) (r c : Nat) : Decidable (Free g own r c) := by
  unfold Free
  infer_instance

instance (p r x y : Nat) : Decidable (Inside p r x y) := by
  unfold Inside
  infer_instance

instance (g : Grid) (p r x y : Nat) : Decidable (Placed g p r x y) := by
  unfold Placed
  infer_instance

/-- A vertical Z (identity 3, rotation 1) anchored at column 1, row 10, with a settled
O piece in rows 9..10, columns 0..1: cell (10, 1), up-left of the Z, is occupied. -/
def zLeftState : State :=
  { initState with
    piece := 3, rotation := 1, xPos := 1, yPos := 10, pieceAlive := true,
    grid := gridOf
      [[0, 0, 0, 0, 0, 0, 0, 0, 0, 0],
       [0, 0, 0, 0, 0, 0, 0, 0, 0, 0],
       [0, 0, 0, 0, 0, 0, 0, 0, 0, 0],
       [0, 0, 0, 0, 0, 0, 0, 0, 0, 0],
       [0, 0, 0, 0, 0, 0, 0, 0, 0, 0],
       [0, 0, 0, 0, 0, 0, 0, 0, 0, 0],
       [0, 0, 0, 0, 0, 0, 0, 0, 0, 0],
       [0, 0, 0, 0, 0, 0, 0, 0, 0, 0],
       [0, 0, 0, 0, 0, 0, 0, 0, 0, 0],
       [1, 1, 0, 0, 0, 0, 0, 0, 0, 0],
       [1, 1, 3, 0, 0, 0, 0, 0, 0, 0],
       [0, 3, 3, 0, 0, 0, 0, 0, 0, 0],
       [0, 3, 0, 0, 0, 0, 0, 0, 0, 0],
       [0, 0, 0, 0, 0, 0, 0, 0, 0, 0]] }

/-- A vertical Z (identity 3, rotation 1) anchored at column 4, row 11, resting on the
floor next to a settled horizontal I in row 13, columns 5..8: cell (13, 5), down-right
of the Z, is occupied. -/
def zRightState : State :=
  { initState with
    piece := 3, rotation := 1, xPos := 4, yPos := 11, pieceAlive := true,
    grid := gridOf
      [[0, 0, 0, 0, 0, 0, 0, 0, 0, 0],
       [0, 0, 0, 0, 0, 0, 0, 0, 0, 0],
       [0, 0, 0, 0, 0, 0, 0, 0, 0, 0],
       [0, 0, 0, 0, 0, 0, 0, 0, 0, 0],
       [0, 0, 0, 0, 0, 0, 0, 0, 0, 0],
       [0, 0, 0, 0, 0, 0, 0, 0, 0, 0],
       [0, 0, 0, 0, 0, 0, 0, 0, 0, 0],
       [0, 0, 0, 0, 0, 0, 0, 0, 0, 0],
       [0, 0, 0, 0, 0, 0, 0, 0, 0, 0],
       [0, 0, 0, 0, 0, 0, 0, 0, 0, 0],
       [0, 0, 0, 0, 0, 0, 0, 0, 0, 0],
       [0, 0, 0, 0, 0, 3, 0, 0, 0, 0],
       [0, 0, 0, 0, 3, 3, 0, 0, 0, 0],
       [0, 0, 0, 0, 3, 2, 2, 2, 2, 0]] }

/-- The grid whose words hold the given rows, addressed the way the C array is laid out
in memory (row-major): `grid[r][c]` is the word at index `10*r + c`, so an index pair
with `c ≥ 10` addresses a cell of a following row. -/
def arrayGrid (rows : List (List Nat)) : Grid :=
  fun r c => gridOf rows ((10 * r + c) / 10) ((10 * r + c) % 10)

/-- A vertical Z (identity 3, rotation 1) at its right-most legal column 8, rows 5..7 of
an otherwise empty grid: its cells are (5, 9), (6, 8), (6, 9), (7, 8). -/
def zEdgeState : State :=
  { initState with
    piece := 3, rotation := 1, xPos := 8, yPos := 5, pieceAlive := true,
    grid := arrayGrid
      [[0, 0, 0, 0, 0, 0, 0, 0, 0, 0],
       [0, 0, 0, 0, 0, 0, 0, 0, 0, 0],
       [0, 0, 0, 0, 0, 0, 0, 0, 0, 0],
       [0, 0, 0, 0, 0, 0, 0, 0, 0, 0],
       [0, 0, 0, 0, 0, 0, 0, 0, 0, 0],
       [0, 0, 0, 0, 0, 0, 0, 0, 0, 3],
       [0, 0, 0, 0, 0, 0, 0, 0, 3, 3],
       [0, 0, 0, 0, 0, 0, 0, 0, 3, 0],
       [0, 0, 0, 0, 0, 0, 0, 0, 0, 0],
       [0, 0, 0, 0, 0, 0, 0, 0, 0, 0],
       [0, 0, 0, 0, 0, 0, 0, 0, 0, 0],
       [0, 0, 0, 0, 0, 0, 0, 0, 0, 0],
       [0, 0, 0, 0, 0, 0, 0, 0, 0, 0],
       [0, 0, 0, 0, 0, 0, 0, 0, 0, 0]] }

/-- A T piece (identity 7, rotation 0) anchored at column 4, row 12, over any contents
`g` of the grid words: with the piece placed its cells are (12, 5), (13, 4), (13, 5),
(13, 6), and the next orientation has a cell in row 14. -/
def tFloorState (g : Grid) : State :=
  { initState with
    piece := 7, rotation := 0, xPos := 4, yPos := 12, pieceAlive := true, grid := g }

/-- A T piece (identity 7, rotation 0) anchored at column 4, row 5 on an otherwise
empty grid. -/
def tMidState : State :=
  { initState with
    piece := 7, rotation := 0, xPos := 4, yPos := 5, pieceAlive := true,
    grid := gridOf
      [[0, 0, 0, 0, 0, 0, 0, 0, 0, 0],
       [0, 0, 0, 0, 0, 0, 0, 0, 0, 0],
       [0, 0, 0, 0, 0, 0, 0, 0, 0, 0],
       [0, 0, 0, 0, 0, 0, 0, 0, 0, 0],
       [0, 0, 0, 0, 0, 0, 0, 0, 0, 0],
       [0, 0, 0, 0, 0, 7, 0, 0, 0, 0],
       [0, 0, 0, 0, 7, 7, 7, 0, 0, 0],
       [0, 0, 0, 0, 0, 0, 0, 0, 0, 0],
       [0, 0, 0, 0, 0, 0, 0, 0, 0, 0],
       [0, 0, 0, 0, 0, 0, 0, 0, 0, 0],
       [0, 0, 0, 0, 0, 0, 0, 0, 0, 0],
       [0, 0, 0, 0, 0, 0, 0, 0, 0, 0],
       [0, 0, 0, 0, 0, 0, 0, 0, 0, 0],
       [0, 0, 0, 0, 0, 0, 0, 0, 0, 0]] }

/-- An O piece (identity 1) resting on the floor at column 0, row 12, beside settled
cells that fill the rest of row 13; the grace counter is at 9000, so the next tick
locks the piece. -/
def lockFullRowState : State :=
  { initState with
    piece := 1, rotation := 0, xPos := 0, yPos := 12, pieceAlive := true,
    graceTime := 9000,
    grid := gridOf
      [[0, 0, 0, 0, 0, 0, 0, 0, 0, 0],
       [0, 0, 0, 0, 0, 0, 0, 0, 0, 0],
       [0, 0, 0, 0, 0, 0, 0, 0, 0, 0],
       [0, 0, 0, 0, 0, 0, 0, 0, 0, 0],
       [0, 0, 0, 0, 0, 0, 0, 0, 0, 0],
       [0, 0, 0, 0, 0, 0, 0, 0, 0, 0],
       [0, 0, 0, 0, 0, 0, 0, 0, 0, 0],
       [0, 0, 0, 0, 0, 0, 0, 0, 0, 0],
       [0, 0, 0, 0, 0, 0, 0, 0, 0, 0],
       [0, 0, 0, 0, 0, 0, 0, 0, 0, 0],
       [0, 0, 0, 0, 0, 0, 0, 0, 0, 0],
       [0, 0, 0, 0, 0, 0, 0, 0, 0, 0],
       [1, 1, 0, 0, 0, 0, 0, 0, 0, 0],
       [1, 1, 2, 2, 2, 2, 2, 2, 2, 2]] }

/-- An O piece (identity 1) at the spawn anchor (column 4, row 0), resting on a stack
of settled cells in columns 4 and 5; the grace counter is at 9000 and `keyPress` is 1,
so the next tick locks the piece and spawns a vertical I (identity 2) onto it. -/
def topOutState : State :=
  { initState with
    piece := 1, rotation := 0, xPos := 4, yPos := 0, pieceAlive := true,
    graceTime := 9000, keyPress := 1,
    grid := gridOf
      [[0, 0, 0, 0, 1, 1, 0, 0, 0, 0],
       [0, 0, 0, 0, 1, 1, 0, 0, 0, 0],
       [0, 0, 0, 0, 3, 3, 0, 0, 0, 0],
       [0, 0, 0, 0, 0, 3, 3, 0, 0, 0],
       [0, 0, 0, 0, 1, 1, 0, 0, 0, 0],
       [0, 0, 0, 0, 1, 1, 0, 0, 0, 0],
       [0, 0, 0, 0, 1, 1, 0, 0, 0, 0],
       [0, 0, 0, 0, 1, 1, 0, 0, 0, 0],
       [0, 0, 0, 0, 1, 1, 0, 0, 0, 0],
       [0, 0, 0, 0, 1, 1, 0, 0, 0, 0],
       [0, 0, 0, 0, 1, 1, 0, 0, 0, 0],
       [0, 0, 0, 0, 1, 1, 0, 0, 0, 0],
       [0, 0, 0, 0, 1, 1, 0, 0, 0, 0],
       [0, 0, 0, 0, 1, 1, 0, 0, 0, 0]] }

/-- A spawn state for the vertical I (identity 2) with cell (1, 4) occupied. -/
def spawnBlockedState : State :=
  { initState with
    piece := 2, rotation := 0, xPos := 4, yPos := 0,
    grid := gridOf
      [[0, 0, 0, 0, 0, 0, 0, 0, 0, 0],
       [0, 0, 0, 0, 5, 0, 0, 0, 0, 0],
       [0, 0, 0, 0, 5, 0, 0, 0, 0, 0],
       [0, 0, 0, 5, 5, 0, 0, 0, 0, 0],
       [0, 0, 0, 1, 1, 0, 0, 0, 0, 0],
       [0, 0, 0, 1, 1, 0, 0, 0, 0, 0],
       [0, 0, 0, 1, 1, 0, 0, 0, 0, 0],
       [0, 0, 0, 1, 1, 0, 0, 0, 0, 0],
       [0, 0, 0, 1, 1, 0, 0, 0, 0, 0],
       [0, 0, 0, 1, 1, 0, 0, 0, 0, 0],
       [0, 0, 0, 1, 1, 0, 0, 0, 0, 0],
       [0, 0, 0, 1, 1, 0, 0, 0, 0, 0],
       [0, 0, 0, 1, 1, 0, 0, 0, 0, 0],
       [0, 0, 0, 1, 1, 0, 0, 0, 0, 0]] }

/-- The state `tMidState` with a pending left intent. -/
def tLeftState : State := { tMidState with leftKey := true }

/-- The state `tMidState` with a full drop counter. -/
def tDropState : State := { tMidState with dropCounter := 24001 }

/-- The state `tMidState` with a pending left intent and a full drop counter: the tick
moves the T piece one column to the left and then one row down. -/
def tLeftDropState : State := { tMidState with leftKey := true, dropCounter := 24001 }


/-- An operand of a `||` chain in a condition of `checkCollisions`: a test of the
coordinates (its value), or the test `grid[r][c] != 0` of a grid element. -/
inductive Operand where
  | test (b : Bool)
  | cell (r c : Nat)

/-- The conditions of the `if` statements that `checkCollisions` evaluates for the
piece and orientation of `s`, in source order, each as its `||` chain of operands in
source order. -/
def collisionChecks (s : State) : List (List Operand) :=
  let x := s.xPos
  let y := s.yPos
  match s.piece with
  | 1 =>  -- O
    [[.cell y (dec x), .cell (y + 1) (dec x)],
     [.cell y (x + 2), .cell (y + 1) (x + 2), .test (x == 8)],
     [.test (y == 12), .cell (y + 2) x, .cell (y + 2) (x + 1)]]
  | 2 =>  -- I
    match s.rotation with
    | 0 | 2 =>
      [[.cell y (dec x), .cell (y + 1) (dec x), .cell (y + 2) (dec x), .cell (y + 3) (dec x)],
       [.cell y (x + 1), .cell (y + 1) (x + 1), .cell (y + 2) (x + 1), .cell (y + 3) (x + 1), .test (x == 9)],
       [.test (decide (x > 6)), .cell y (x + 1), .cell y (x + 2), .cell y (x + 3)],
       [.test (y == 10), .cell (y + 4) x]]
    | 1 | 3 =>
      [[.cell y (dec x)],
       [.cell y (x + 4), .test (x == 6)],
       [.test (x == 9), .cell (y + 1) x, .cell (y + 2) x, .cell (y + 3) x],
       [.test (y == 13), .cell (y + 1) x, .cell (y + 1) (x + 1), .cell (y + 1) (x + 2), .cell (y + 1) (x + 3)]]
    | _ => []
  | 3 =>  -- Z
    match s.rotation with
    | 0 | 2 =>
      [[.cell y (dec x), .cell (y + 1) x],
       [.cell y (x + 2), .cell (y + 1) (x + 3), .test (x == 7)],
       [.cell (y + 1) x, .cell (y + 2) x],
       [.test (y == 12), .cell (y + 1) x, .cell (y + 2) (x + 1), .cell (y + 2) (x + 2)]]
    | 1 | 3 =>
      [[.cell (y + 1) (dec x), .cell (y + 2) (dec x)],
       [.cell y (x + 2), .cell (y + 1) (x + 2), .test (x == 8)],
       [.test (x == 9), .cell y x, .cell (y + 1) (x + 2)],
       [.test (y == 11), .cell (y + 3) x, .cell (y + 2) (x + 1)]]
    | _ => []
  | 4 =>  -- S
    match s.rotation with
    | 0 | 2 =>
      [[.cell y x, .cell (y + 1) (dec x)],
       [.cell y (x + 3), .cell (y + 1) (x + 2), .test (x == 7)],
       [.cell y x, .cell (y + 2) (x + 1)],
       [.test (y == 12), .cell (y + 2) x, .cell (y + 2) (x + 1), .cell (y + 1) (x + 2)]]
    | 1 | 3 =>
      [[.cell y (dec x), .cell (y + 1) (dec x), .cell (y + 2) x],
       [.cell y (x + 1), .cell (y + 1) (x + 2), .cell (y + 2) (x + 2), .test (x == 8)],
       [.test (x == 9), .cell y (x + 1), .cell y (x + 2)],
       [.test (y == 11), .cell (y + 2) x, .cell (y + 3) (x + 1)]]
    | _ => []
  | 5 =>  -- J
    match s.rotation with
    | 0 =>
      [[.cell y x, .cell (y + 1) x, .cell (y + 2) (dec x)],
       [.cell y (x + 2), .cell (y + 1) (x + 2), .cell (y + 2) (x + 2), .test (x == 8)],
       [.test (decide (x > 7)), .cell y x, .cell (y + 1) x, .cell (y + 1) (x + 2)],
       [.test (y == 11), .cell (y + 3) x, .cell (y + 3) (x + 1)]]
    | 1 =>
      [[.cell y (dec x), .cell (y + 1) (dec x)],
       [.cell y (x + 1), .cell (y + 1) (x + 3), .test (x == 7)],
       [.cell y (x + 1), .cell (y + 2) x],
       [.test (y == 12), .cell (y + 2) x, .cell (y + 2) (x + 1), .cell (y + 2) (x + 2)]]
    | 2 =>
      [[.cell y (dec x), .cell (y + 1) (dec x), .cell (y + 2) (dec x)],
       [.cell y (x + 2), .cell (y + 1) (x + 1), .cell (y + 2) (x + 1), .test (x == 8)],
       [.test (decide (x > 7)), .cell (y + 1) (x + 2), .cell y (x + 2)],
       [.test (y == 11), .cell (y + 3) x, .cell (y + 1) (x + 1)]]
    | 3 =>
      [[.cell y (dec x), .cell (y + 1) (x + 1)],
       [.cell y (x + 3), .cell (y + 1) (x + 3), .test (x == 7)],
       [.cell (y + 1) (x + 1), .cell (y + 2) x, .cell (y + 2) (x + 1)],
       [.test (y == 12), .cell (y + 1) x, .cell (y + 1) (x + 1), .cell (y + 2) (x + 2)]]
    | _ => []
  | 6 =>  -- L
    match s.rotation with
    | 0 =>
      [[.cell y (dec x), .cell (y + 1) (dec x), .cell (y + 2) (dec x)],
       [.cell y (x + 1), .cell (y + 1) (x + 1), .cell (y + 2) (x + 2), .test (x == 8)],
       [.test (decide (x > 7)), .cell y (x + 1), .cell y (x + 2)],
       [.test (y == 11), .cell (y + 3) x, .cell (y + 3) (x + 1)]]
    | 1 =>
      [[.cell y (dec x), .cell (y + 1) (dec x)],
       [.cell y (x + 3), .cell (y + 1) (x + 1), .test (x == 7)],
       [.cell (y + 1) (x + 1), .cell (y + 2) (x + 1)],
       [.test (y == 12), .cell (y + 2) x, .cell (y + 1) (x + 1), .cell (y + 1) (x + 2)]]
    | 2 =>
      [[.cell y (dec x), .cell (y + 1) x, .cell (y + 2) x],
       [.cell y (x + 2), .cell (y + 1) (x + 2), .cell (y + 2) (x + 2), .test (x == 8)],
       [.test (decide (x > 7)), .cell y (x + 2), .cell (y + 1) x, .cell (y + 1) (x + 2)],
       [.test (y == 11), .cell (y + 1) x, .cell (y + 3) (x + 1)]]
    | 3 =>
      [[.cell y (x + 1), .cell (y + 1) (dec x)],
       [.cell y (x + 3), .cell (y + 1) (x + 3), .test (x == 7)],
       [.cell y x, .cell (y + 2) x, .cell (y + 2) (x + 1)],
       [.test (y == 12), .cell (y + 2) x, .cell (y + 2) (x + 1), .cell (y + 2) (x + 2)]]
    | _ => []
  | 7 =>  -- T
    match s.rotation with
    | 0 =>
      [[.cell y x, .cell (y + 1) (dec x)],
       [.cell y (x + 2), .cell (y + 1) (x + 3), .test (x == 7)],
       [.cell y x, .cell (y + 2) x],
       [.test (y == 12), .cell (y + 2) x, .cell (y + 2) (x + 1), .cell (y + 2) (x + 2)]]
    | 1 =>
      [[.cell y (dec x), .cell (y + 1) (dec x), .cell (y + 2) (dec x)],
       [.cell y (x + 1), .cell (y + 1) (x + 2), .cell (y + 2) (x + 1), .test (x == 8)],
       [.test (decide (x > 7)), .cell y (x + 1), .cell y (x + 2)],
       [.test (y == 11), .cell (y + 3) x, .cell (y + 2) (x + 1)]]
    | 2 =>
      [[.cell y (dec x), .cell (y + 1) x],
       [.cell y (x + 3), .cell (y + 1) (x + 2), .test (x == 7)],
       [.cell (y + 1) x, .cell (y + 2) (x + 1)],
       [.test (y == 12), .cell (y + 1) x, .cell (y + 2) (x + 1), .cell (y + 1) (x + 2)]]
    | 3 =>
      [[.cell y x, .cell (y + 1) (dec x), .cell (y + 2) x],
       [.cell y (x + 2), .cell (y + 1) (x + 2), .cell (y + 2) (x + 2), .test (x == 8)],
       [.test (decide (x > 7)), .cell (y + 1) (x + 2)],
       [.test (y == 11), .cell (y + 2) x, .cell (y + 3) (x + 1)]]
    | _ => []
  | _ => []

/-- Grid elements read by the evaluation of a `||` chain: operands are evaluated left
to right and evaluation stops at the first operand that is true. -/
def chainReads (g : Grid) : List Operand → List (Nat × Nat)
  | [] => []
  | .test b :: rest => if b then [] else chainReads g rest
  | .cell r c :: rest => (r, c) :: (if nz g r c then [] else chainReads g rest)

/-- Value of a `||` chain. -/
def chainValue (g : Grid) : List Operand → Bool
  | [] => false
  | .test b :: rest => b || chainValue g rest
  | .cell r c :: rest => nz g r c || chainValue g rest

/-- The index pairs `(r, c)` of the grid elements `grid[r][c]` that one call of
`checkCollisions` evaluates, in order (`xPos - 1` is `dec xPos`). -/
def checkCollisionsReads (s : State) : List (Nat × Nat) :=
  (collisionChecks s).flatMap (chainReads s.grid)

/-- An empty board row. -/
def emptyRow : List Nat := [0, 0, 0, 0, 0, 0, 0, 0, 0, 0]

/-- An O piece (identity 1) placed at column 0, rows 5..6 of an otherwise empty
grid. -/
def oLeftEdgeState : State :=
  { initState with
    piece := 1, rotation := 0, xPos := 0, yPos := 5, pieceAlive := true,
    grid := gridOf
      [emptyRow, emptyRow, emptyRow, emptyRow, emptyRow,
       [1, 1, 0, 0, 0, 0, 0, 0, 0, 0],
       [1, 1, 0, 0, 0, 0, 0, 0, 0, 0],
       emptyRow, emptyRow, emptyRow, emptyRow, emptyRow, emptyRow, emptyRow] }

/-- An O piece (identity 1) placed at its right-most legal column 8, rows 5..6 of an
otherwise empty grid. -/
def oRightEdgeState : State :=
  { initState with
    piece := 1, rotation := 0, xPos := 8, yPos := 5, pieceAlive := true,
    grid := gridOf
      [emptyRow, emptyRow, emptyRow, emptyRow, emptyRow,
       [0, 0, 0, 0, 0, 0, 0, 0, 1, 1],
       [0, 0, 0, 0, 0, 0, 0, 0, 1, 1],
       emptyRow, emptyRow, emptyRow, emptyRow, emptyRow, emptyRow, emptyRow] }

/-- A horizontal I (identity 2, rotation 1) lying on the floor: row 13, columns 3..6 of
an otherwise empty grid. -/
def iFloorState : State :=
  { initState with
    piece := 2, rotation := 1, xPos := 3, yPos := 13, pieceAlive := true,
    grid := gridOf
      [emptyRow, emptyRow, emptyRow, emptyRow, emptyRow, emptyRow, emptyRow,
       emptyRow, emptyRow, emptyRow, emptyRow, emptyRow, emptyRow,
       [0, 0, 0, 2, 2, 2, 2, 0, 0, 0]] }

/-- The state `oLeftEdgeState` with a pending left intent and a full drop counter: the
piece cannot move left (it is at column 0) and descends in the next tick. -/
def oDropLeftState : State :=
  { oLeftEdgeState with leftKey := true, dropCounter := 24001 }

/-- An O piece (identity 1) at column 4, rows 10..11, next to a settled L (identity 6)
whose cells are (12, 3), (13, 1), (13, 2), (13, 3); a left intent is pending and the
drop counter is full. -/
def staleDownState : State :=
  { initState with
    piece := 1, rotation := 0, xPos := 4, yPos := 10, pieceAlive := true,
    leftKey := true, dropCounter := 24001,
    grid := gridOf
      [emptyRow, emptyRow, emptyRow, emptyRow, emptyRow, emptyRow, emptyRow,
       emptyRow, emptyRow, emptyRow,
       [0, 0, 0, 0, 1, 1, 0, 0, 0, 0],
       [0, 0, 0, 0, 1, 1, 0, 0, 0, 0],
       [0, 0, 0, 6, 0, 0, 0, 0, 0, 0],
       [0, 6, 6, 6, 0, 0, 0, 0, 0, 0]] }

/-- The state `zLeftState` with a pending left intent. -/
def zLeftMoveState : State := { zLeftState with leftKey := true }

/-- The state `zRightState` with a pending right intent. -/
def zRightMoveState : State := { zRightState with rightKey := true }

/-- The state `zEdgeState` with a pending rotate intent. -/
def zEdgeRotateState : State := { zEdgeState with rotateKey := true }

/-- Total number of cleared rows at which level `k + 1` is reached from a fresh game
when level `L` lasts `10 * L` rows: `10 * (1 + 2 + ... + k)`. -/
def levelStart : Nat → Nat
  | 0 => 0
  | k + 1 => levelStart k + 10 * (k + 1)

/-- The amount the soft-drop bands add to `dropCounter` in one tick, by joystick
sample, following the description of the bands: full pull, medium pull, light pull,
resting. -/
def bandIncrement (adc : Nat) : Nat :=
  if adc < 100 then 24001
  else if adc < 200 then 501
  else if adc < 455 then 101
  else 1

/-- The state at the piece move logic of the tick that starts in `s`: after
`checkCollisions` and the lock stage. -/
def atMove (s : State) : State := lockStage (checkCollisions s)

/-- The state at the drop check of the tick that starts in `s`: after the piece move
logic. -/
def atDrop (s : State) : State := moveStage (atMove s)

/-- The left branch of the piece move logic executes in the tick that starts in `s`. -/
def leftTaken (s : State) : Bool :=
  (atMove s).pieceAlive && ((atMove s).leftKey && (atMove s).canLeft)

/-- The right branch of the piece move logic executes in the tick that starts in `s`. -/
def rightTaken (s : State) : Bool :=
  (atMove s).pieceAlive && !((atMove s).leftKey && (atMove s).canLeft) &&
    ((atMove s).rightKey && (atMove s).canRight)

/-- The rotate branch of the piece move logic executes in the tick that starts in
`s`. -/
def rotateTaken (s : State) : Bool :=
  (atMove s).pieceAlive && !((atMove s).leftKey && (atMove s).canLeft) &&
    !((atMove s).rightKey && (atMove s).canRight) &&
    ((atMove s).rotateKey && (atMove s).canRotate)

/-- The drop branch executes in the tick that starts in `s`. -/
def dropTaken (s : State) : Bool :=
  decide ((atDrop s).dropCounter > dropThreshold (atDrop s).level) && (atDrop s).canDown

/-- The grid that holds an O piece (identity 1) in columns 4..5, rows `y..y+1`, and
zeros everywhere else. -/
def oGrid (y : Nat) : Grid := writeCells (cellsAt 1 0 4 y) 1 (fun _ _ => 0)

/-- A game at level 1 in which a live O piece stands at column 4, row `y` of an
otherwise empty grid, with no left, right or rotate intent pending. -/
def IsO (s : State) (y : Nat) : Prop :=
  s.piece = 1 ∧ s.rotation = 0 ∧ s.xPos = 4 ∧ s.yPos = y ∧ s.pieceAlive = true ∧
    s.leftKey = false ∧ s.rightKey = false ∧ s.rotateKey = false ∧ s.level = 1 ∧
    s.grid = oGrid y

/-- The O piece of `IsO` as a concrete state. -/
def oAt (y : Nat) : State :=
  { initState with
    piece := 1, rotation := 0, xPos := 4, yPos := y, pieceAlive := true, grid := oGrid y }

/-- A fresh game in which `keyPress` is 7, after the piece move logic of the first tick
has spawned the piece: `7 % 7 + 1 = 1`, an O. -/
def oSpawnState : State := moveStage { initState with keyPress := 7 }

/-- The function `drawGrid`, as the list of the calls `drawSquare(x0, y, pieceNumber)` it
makes, in order. The loop over the rows carries `dY` (initially 30, increased by 20
at the start of every row but the first); the loop over the columns computes
`dX = 20*j` and calls `drawSquare(dX+20, dY, grid[i][j])`. -/
def drawGrid (s : State) : List (Nat × Nat × Nat) :=
  ((List.range 14).foldl
    (fun (acc : Nat × List (Nat × Nat × Nat)) i =>
      let dY := if i != 0 then acc.1 + 20 else acc.1
      (dY, acc.2 ++ (List.range 10).map fun j => (20 * j + 20, dY, s.grid i j)))
    (30, [])).2

/-- The arguments `20+(20*xPos), 30+(20*yPos)` that `step` passes to `drawPiece` and
`erasePiece`, in 16-bit unsigned arithmetic. -/
def pieceOrigin (s : State) : Nat × Nat :=
  ((20 + 20 * s.xPos) % 65536, (30 + 20 * s.yPos) % 65536)

/-- Pin mask of the right button (`#define BTN_RGHT 0x0010`). -/
def BTN_RGHT : Nat := 0x0010

/-- Pin mask of the left button (`#define BTN_LFT 0x0008`). -/
def BTN_LFT : Nat := 0x0008

/-- The interrupt handler `Port_1` on the global variables (the writes to the
interrupt flag registers are not part of the state). -/
def Port_1 (s : State) : State :=
  { s with rotateKey := true, keyPress := (s.keyPress + 18) % 65536 }

/-- The interrupt handler `Port_2` on the global variables, for the value `p2in` read
from the input register `P2IN`. -/
def Port_2 (p2in : Nat) (s : State) : State :=
  if p2in &&& BTN_RGHT != 0 then
    { s with rightKey := true, keyPress := (s.keyPress + 33) % 65536 }
  else if p2in &&& BTN_LFT != 0 then
    { s with leftKey := true, keyPress := (s.keyPress + 29) % 65536 }
  else s

/-- What happens between two states of a running game: one iteration of the step loop
with a joystick sample, or one of the two button interrupts. -/
inductive Event where
  | tick (adc : Nat)
  | port1
  | port2 (p2in : Nat)

/-- The state after an event. -/
def applyEvent (s : State) : Event → State
  | .tick adc => tick adc s
  | .port1 => Port_1 s
  | .port2 p2in => Port_2 p2in s

/-- The state after a sequence of events. -/
def run (evs : List Event) (s : State) : State := evs.foldl applyEvent s

/-- The piece variables select a table entry: `piece` is in 1..7 and `rotation` in
0..3. -/
def PieceOk (s : State) : Prop := (1 ≤ s.piece ∧ s.piece ≤ 7) ∧ s.rotation ≤ 3

/-- Value of `a - b` in 16-bit unsigned arithmetic. -/
def sub16 (a b : Nat) : Nat := (a + 65536 - b % 65536) % 65536

/-- The function `drawScore`, as the list of the calls `drawPixel(x, y, color)` it
makes; the coordinates are computed in 16-bit unsigned arithmetic. -/
def drawScore (s : State) : List (Nat × Nat × Nat) :=
  [(sub16 218 s.scoreColumn, sub16 23 s.scoreRow, s.levelColor),
   (sub16 218 s.scoreColumn, sub16 24 s.scoreRow, s.levelColor),
   (sub16 219 s.scoreColumn, sub16 23 s.scoreRow, s.levelColor),
   (sub16 219 s.scoreColumn, sub16 24 s.scoreRow, s.levelColor)]

/-- A footprint turned by 90 degrees, (row, column) going to (column, -row), and
moved so that its smallest row offset and its smallest column offset are 0. -/
def rot90 (cells : List (Nat × Nat)) : List (Nat × Nat) :=
  let maxRow := (cells.map fun d => d.1).foldl max 0
  let minCol := (cells.map fun d => d.2).foldl min ((cells.map fun d => d.2).headD 0)
  cells.map fun d => (d.2 - minCol, maxRow - d.1)

/-- The pixel `(px, py)` lies in the window `x0..x0+19` by `y..y+19` that `drawSquare`
addresses for the origin `(x0, y)`. -/
def inSquare (x0 y px py : Nat) : Prop :=
  x0 ≤ px ∧ px ≤ x0 + 19 ∧ y ≤ py ∧ py ≤ y + 19

/-- Number of cleared rows that level `L` lasts in the 16-bit arithmetic of the
level-up test: `level * 10` reduced modulo 65536, or 65536 rows when that is 0. -/
def levelSpan (L : Nat) : Nat :=
  if (L * 10) % 65536 = 0 then 65536 else (L * 10) % 65536

theorem wr_eq_writeCells (r c v : Nat) (g : Grid) : wr r c v g = writeCells [(r, c)] v g := by
  funext a b
  simp [wr, writeCells]

theorem writeCells_writeCells (l l' : List (Nat × Nat)) (v : Nat) (g : Grid) :
    writeCells l v (writeCells l' v g) = writeCells (l' ++ l) v g := by
  funext a b
  simp only [writeCells, List.mem_append]
  by_cases h1 : (a, b) ∈ l <;> by_cases h2 : (a, b) ∈ l' <;> simp [h1, h2]

set_option maxHeartbeats 1000000 in
theorem placePiece_eq (s : State) (hp : 1 ≤ s.piece ∧ s.piece ≤ 7) (hr : s.rotation ≤ 3) :
    placePiece s =
      { s with grid := writeCells (cellsAt s.piece s.rotation s.xPos s.yPos) s.piece s.grid } := by
  obtain ⟨h1, h2⟩ := hp
  generalize hP : s.piece = p at *
  generalize hR : s.rotation = r at *
  unfold placePiece
  interval_cases p <;> interval_cases r <;>
    simp only [hP, hR, cellsAt, footprint, wr_eq_writeCells, writeCells_writeCells,
      List.map, List.cons_append, List.nil_append, Nat.add_zero]

set_option maxHeartbeats 1000000 in
theorem removePiece_eq (s : State) (hp : 1 ≤ s.piece ∧ s.piece ≤ 7) (hr : s.rotation ≤ 3) :
    removePiece s =
      { s with grid := writeCells (cellsAt s.piece s.rotation s.xPos s.yPos) 0 s.grid } := by
  obtain ⟨h1, h2⟩ := hp
  generalize hP : s.piece = p at *
  generalize hR : s.rotation = r at *
  unfold removePiece
  interval_cases p <;> interval_cases r <;>
    simp only [hP, hR, cellsAt, footprint, wr_eq_writeCells, writeCells_writeCells,
      List.map, List.cons_append, List.nil_append, Nat.add_zero]

theorem dec_succ (n : Nat) (h : n < 65535) : dec (n + 1) = n := by
  unfold dec
  omega

/-- For a placed piece at an anchor inside the grid, `canDown` is true exactly when
every cell of the footprint shifted one row down is free. -/
theorem canDown_iff (s : State) (hp : 1 ≤ s.piece ∧ s.piece ≤ 7) (hr : s.rotation ≤ 3)
    (hin : Inside s.piece s.rotation s.xPos s.yPos)
    (hpl : Placed s.grid s.piece s.rotation s.xPos s.yPos) :
    (checkCollisions s).canDown = true ↔
      ∀ d ∈ footprint s.piece s.rotation,
        Free s.grid (cellsAt s.piece s.rotation s.xPos s.yPos) (s.yPos + d.1 + 1)
          (s.xPos + d.2) := by
  obtain ⟨h1, h2⟩ := hp
  generalize hP : s.piece = p at *
  generalize hR : s.rotation = r at *
  unfold checkCollisions
  interval_cases p <;> interval_cases r <;>
    simp only [Inside, Placed, Free, cellsAt, hP, hR, footprint, setFlags,
      List.mem_cons, List.mem_singleton, List.map_cons, List.map_nil, forall_eq_or_imp,
      forall_eq, Prod.mk.injEq, nz, Bool.or_eq_true, beq_iff_eq, bne_iff_ne, ne_eq,
      decide_eq_true_eq, Nat.add_assoc, Nat.reduceAdd, Nat.add_zero, ite_eq_left_iff,
      ite_eq_right_iff, Bool.false_eq_true, imp_false, not_or, not_not, Bool.true_eq_false,
      Bool.ite_eq_true_distrib, if_false_left, if_true_left, if_false_right, if_true_right,
      List.not_mem_nil, or_false, and_true, true_and, true_or, or_true, and_false, false_and,
      false_or, Nat.reduceMod, Nat.reduceEqDiff, Nat.reduceLTLE, Nat.add_one_sub_one,
      Nat.reduceSub, Nat.add_sub_cancel, not_true_eq_false, not_false_eq_true, OfNat.ofNat_ne_zero,
      OfNat.zero_ne_ofNat, Nat.succ_ne_self, gt_iff_lt, Nat.zero_add, Nat.add_eq_zero, one_ne_zero,
      false_implies, implies_true, Nat.reduceBEq, Nat.reduceBNe, false_iff, iff_false,
      Nat.reduceLeDiff, Nat.not_succ_le_zero, not_and, iff_true, true_iff, ↓reduceIte,
      Nat.reduceLT, Nat.lt_irrefl, Nat.ofNat_pos] at hin hpl ⊢ <;>
    omega

/-- For a placed piece other than a vertical Z at an anchor inside the grid,
`canRight` is true exactly when every cell of the footprint shifted one column to
the right is free. -/
theorem canRight_iff (s : State) (hp : 1 ≤ s.piece ∧ s.piece ≤ 7) (hr : s.rotation ≤ 3)
    (hz : ¬(s.piece = 3 ∧ s.rotation % 2 = 1))
    (hin : Inside s.piece s.rotation s.xPos s.yPos)
    (hpl : Placed s.grid s.piece s.rotation s.xPos s.yPos) :
    (checkCollisions s).canRight = true ↔
      ∀ d ∈ footprint s.piece s.rotation,
        Free s.grid (cellsAt s.piece s.rotation s.xPos s.yPos) (s.yPos + d.1)
          (s.xPos + d.2 + 1) := by
  obtain ⟨h1, h2⟩ := hp
  generalize hP : s.piece = p at *
  generalize hR : s.rotation = r at *
  unfold checkCollisions
  interval_cases p <;> interval_cases r <;>
    simp only [Inside, Placed, Free, cellsAt, hP, hR, footprint, setFlags,
      List.mem_cons, List.mem_singleton, List.map_cons, List.map_nil, forall_eq_or_imp,
      forall_eq, Prod.mk.injEq, nz, Bool.or_eq_true, beq_iff_eq, bne_iff_ne, ne_eq,
      decide_eq_true_eq, Nat.add_assoc, Nat.reduceAdd, Nat.add_zero, ite_eq_left_iff,
      ite_eq_right_iff, Bool.false_eq_true, imp_false, not_or, not_not, Bool.true_eq_false,
      Bool.ite_eq_true_distrib, if_false_left, if_true_left, if_false_right, if_true_right,
      List.not_mem_nil, or_false, and_true, true_and, true_or, or_true, and_false, false_and,
      false_or, Nat.reduceMod, Nat.reduceEqDiff, Nat.reduceLTLE, Nat.add_one_sub_one,
      Nat.reduceSub, Nat.add_sub_cancel, not_true_eq_false, not_false_eq_true, OfNat.ofNat_ne_zero,
      OfNat.zero_ne_ofNat, Nat.succ_ne_self, gt_iff_lt, Nat.zero_add, Nat.add_eq_zero, one_ne_zero,
      false_implies, implies_true, Nat.reduceBEq, Nat.reduceBNe, false_iff, iff_false,
      Nat.reduceLeDiff, Nat.not_succ_le_zero, not_and, iff_true, true_iff, ↓reduceIte,
      Nat.reduceLT, Nat.lt_irrefl, Nat.ofNat_pos] at hz hin hpl ⊢ <;>
    omega

/-- For a placed piece other than a vertical Z at an anchor inside the grid,
`canLeft` is true exactly when every cell of the footprint shifted one column to
the left is free. -/
theorem canLeft_iff (s : State) (hp : 1 ≤ s.piece ∧ s.piece ≤ 7) (hr : s.rotation ≤ 3)
    (hz : ¬(s.piece = 3 ∧ s.rotation % 2 = 1))
    (hin : Inside s.piece s.rotation s.xPos s.yPos)
    (hpl : Placed s.grid s.piece s.rotation s.xPos s.yPos) :
    (checkCollisions s).canLeft = true ↔
      ∀ d ∈ footprint s.piece s.rotation, 1 ≤ s.xPos + d.2 ∧
        Free s.grid (cellsAt s.piece s.rotation s.xPos s.yPos) (s.yPos + d.1)
          (s.xPos + d.2 - 1) := by
  obtain ⟨h1, h2⟩ := hp
  generalize hP : s.piece = p at *
  generalize hR : s.rotation = r at *
  generalize hX : s.xPos = x at *
  unfold checkCollisions
  rcases x with _ | x'
  · interval_cases p <;> interval_cases r <;>
      simp only [hX, Inside, Placed, Free, cellsAt, hP, hR, footprint, setFlags,
      List.mem_cons, List.mem_singleton, List.map_cons, List.map_nil, forall_eq_or_imp,
      forall_eq, Prod.mk.injEq, nz, Bool.or_eq_true, beq_iff_eq, bne_iff_ne, ne_eq,
      decide_eq_true_eq, Nat.add_assoc, Nat.reduceAdd, Nat.add_zero, ite_eq_left_iff,
      ite_eq_right_iff, Bool.false_eq_true, imp_false, not_or, not_not, Bool.true_eq_false,
      Bool.ite_eq_true_distrib, if_false_left, if_true_left, if_false_right, if_true_right,
      List.not_mem_nil, or_false, and_true, true_and, true_or, or_true, and_false, false_and,
      false_or, Nat.reduceMod, Nat.reduceEqDiff, Nat.reduceLTLE, Nat.add_one_sub_one,
      Nat.reduceSub, Nat.add_sub_cancel, not_true_eq_false, not_false_eq_true, OfNat.ofNat_ne_zero,
      OfNat.zero_ne_ofNat, Nat.succ_ne_self, gt_iff_lt, Nat.zero_add, Nat.add_eq_zero, one_ne_zero,
      false_implies, implies_true, Nat.reduceBEq, Nat.reduceBNe, false_iff, iff_false,
      Nat.reduceLeDiff, Nat.not_succ_le_zero, not_and, iff_true, true_iff, ↓reduceIte,
      Nat.reduceLT, Nat.lt_irrefl, Nat.ofNat_pos] at hz ⊢
  · have hd : x' < 65535 → dec (x' + 1) = x' := dec_succ x'
    interval_cases p <;> interval_cases r <;>
      simp only [hX, Inside, Placed, Free, cellsAt, hP, hR, footprint, setFlags,
      List.mem_cons, List.mem_singleton, List.map_cons, List.map_nil, forall_eq_or_imp,
      forall_eq, Prod.mk.injEq, nz, Bool.or_eq_true, beq_iff_eq, bne_iff_ne, ne_eq,
      decide_eq_true_eq, Nat.add_assoc, Nat.reduceAdd, Nat.add_zero, ite_eq_left_iff,
      ite_eq_right_iff, Bool.false_eq_true, imp_false, not_or, not_not, Bool.true_eq_false,
      Bool.ite_eq_true_distrib, if_false_left, if_true_left, if_false_right, if_true_right,
      List.not_mem_nil, or_false, and_true, true_and, true_or, or_true, and_false, false_and,
      false_or, Nat.reduceMod, Nat.reduceEqDiff, Nat.reduceLTLE, Nat.add_one_sub_one,
      Nat.reduceSub, Nat.add_sub_cancel, not_true_eq_false, not_false_eq_true, OfNat.ofNat_ne_zero,
      OfNat.zero_ne_ofNat, Nat.succ_ne_self, gt_iff_lt, Nat.zero_add, Nat.add_eq_zero, one_ne_zero,
      false_implies, implies_true, Nat.reduceBEq, Nat.reduceBNe, false_iff, iff_false,
      Nat.reduceLeDiff, Nat.not_succ_le_zero, not_and, iff_true, true_iff, ↓reduceIte,
      Nat.reduceLT, Nat.lt_irrefl, Nat.ofNat_pos] at hz hin hpl ⊢ <;>
      (rw [hd (by omega)]; omega)

/-- For a placed piece at an anchor inside the grid whose next orientation stays
within rows 0..13 (and which is not a vertical Z or S at column 8), `canRotate` is
true exactly when every cell of the next orientation's footprint at the same anchor
is free. -/
theorem canRotate_iff (s : State) (hp : 1 ≤ s.piece ∧ s.piece ≤ 7) (hr : s.rotation ≤ 3)
    (hrow : ∀ d ∈ footprint s.piece (((s.rotation + 1) % 4)), s.yPos + d.1 < 14)
    (hzs : ¬((s.piece = 3 ∨ s.piece = 4) ∧ s.rotation % 2 = 1 ∧ s.xPos = 8))
    (hin : Inside s.piece s.rotation s.xPos s.yPos)
    (hpl : Placed s.grid s.piece s.rotation s.xPos s.yPos) :
    (checkCollisions s).canRotate = true ↔
      ∀ d ∈ footprint s.piece (((s.rotation + 1) % 4)),
        Free s.grid (cellsAt s.piece s.rotation s.xPos s.yPos) (s.yPos + d.1)
          (s.xPos + d.2) := by
  obtain ⟨h1, h2⟩ := hp
  generalize hP : s.piece = p at *
  generalize hR : s.rotation = r at *
  unfold checkCollisions
  interval_cases p <;> interval_cases r <;>
    simp only [Inside, Placed, Free, cellsAt, hP, hR, footprint, setFlags,
      List.mem_cons, List.mem_singleton, List.map_cons, List.map_nil, forall_eq_or_imp,
      forall_eq, Prod.mk.injEq, nz, Bool.or_eq_true, beq_iff_eq, bne_iff_ne, ne_eq,
      decide_eq_true_eq, Nat.add_assoc, Nat.reduceAdd, Nat.add_zero, ite_eq_left_iff,
      ite_eq_right_iff, Bool.false_eq_true, imp_false, not_or, not_not, Bool.true_eq_false,
      Bool.ite_eq_true_distrib, if_false_left, if_true_left, if_false_right, if_true_right,
      List.not_mem_nil, or_false, and_true, true_and, true_or, or_true, and_false, false_and,
      false_or, Nat.reduceMod, Nat.reduceEqDiff, Nat.reduceLTLE, Nat.add_one_sub_one,
      Nat.reduceSub, Nat.add_sub_cancel, not_true_eq_false, not_false_eq_true, OfNat.ofNat_ne_zero,
      OfNat.zero_ne_ofNat, Nat.succ_ne_self, gt_iff_lt, Nat.zero_add, Nat.add_eq_zero, one_ne_zero,
      false_implies, implies_true, Nat.reduceBEq, Nat.reduceBNe, false_iff, iff_false,
      Nat.reduceLeDiff, Nat.not_succ_le_zero, not_and, iff_true, true_iff, ↓reduceIte,
      Nat.reduceLT, Nat.lt_irrefl, Nat.ofNat_pos] at hrow hzs hin hpl ⊢ <;>
    omega

/-! ## Collision flags (C1 to C4) -/

/-- C1 (code defect). For the vertical Z of `zLeftState` the cell (10, 1) of the
left-shifted footprint is occupied by a settled piece, yet `checkCollisions` leaves
`canLeft` true: the table entry for identity 3, rotation 1 or 3 tests
`grid[yPos+1][xPos-1]` and `grid[yPos+2][xPos-1]` but not `grid[yPos][xPos]`. -/
theorem checkCollisions_canLeft_vertical_Z :
    Inside 3 1 1 10 ∧ Placed zLeftState.grid 3 1 1 10 ∧
      zLeftState.grid 10 1 ≠ 0 ∧ (10, 1) ∉ cellsAt 3 1 1 10 ∧
      (checkCollisions zLeftState).canLeft = true ∧
      ¬ ∀ d ∈ footprint 3 1, 1 ≤ 1 + d.2 ∧
          Free zLeftState.grid (cellsAt 3 1 1 10) (10 + d.1) (1 + d.2 - 1) := by
  decide

/-- C2 (code defect). For the vertical Z of `zRightState` the cell (13, 5) of the
right-shifted footprint is occupied by a settled piece, yet `checkCollisions` leaves
`canRight` true: the table entry for identity 3, rotation 1 or 3 tests
`grid[yPos][xPos+2]` and `grid[yPos+1][xPos+2]` but not `grid[yPos+2][xPos+1]`. -/
theorem checkCollisions_canRight_vertical_Z :
    Inside 3 1 4 11 ∧ Placed zRightState.grid 3 1 4 11 ∧
      zRightState.grid 13 5 ≠ 0 ∧ (13, 5) ∉ cellsAt 3 1 4 11 ∧
      (checkCollisions zRightState).canRight = true ∧
      ¬ ∀ d ∈ footprint 3 1,
          Free zRightState.grid (cellsAt 3 1 4 11) (11 + d.1) (4 + d.2 + 1) := by
  decide

/-- C3. For every identity 1..7, rotation 0..3, anchor with the footprint inside the
grid and grid in which the piece is placed, `checkCollisions` sets `canDown` to true
exactly when every cell of the footprint shifted one row down is inside the grid and
is zero or one of the piece's own cells. -/
theorem checkCollisions_canDown_spec (s : State) (hp : 1 ≤ s.piece ∧ s.piece ≤ 7)
    (hr : s.rotation ≤ 3) (hin : Inside s.piece s.rotation s.xPos s.yPos)
    (hpl : Placed s.grid s.piece s.rotation s.xPos s.yPos) :
    (checkCollisions s).canDown = true ↔
      ∀ d ∈ footprint s.piece s.rotation,
        s.yPos + d.1 + 1 < 14 ∧ s.xPos + d.2 < 10 ∧
          (s.grid (s.yPos + d.1 + 1) (s.xPos + d.2) = 0 ∨
            (s.yPos + d.1 + 1, s.xPos + d.2) ∈ cellsAt s.piece s.rotation s.xPos s.yPos) :=
  canDown_iff s hp hr hin hpl

/-- Witness of C3 on `tMidState`. -/
theorem checkCollisions_canDown_spec_witness :
    (checkCollisions tMidState).canDown = true ↔
      ∀ d ∈ footprint 7 0,
        5 + d.1 + 1 < 14 ∧ 4 + d.2 < 10 ∧
          (tMidState.grid (5 + d.1 + 1) (4 + d.2) = 0 ∨
            (5 + d.1 + 1, 4 + d.2) ∈ cellsAt 7 0 4 5) :=
  checkCollisions_canDown_spec tMidState (by decide) (by decide) (by decide) (by decide)

/-- C4 (evaluated on the code): `checkCollisions` reports `canRotate = true` for a
rotation that takes the piece out of the grid. The vertical Z of `zEdgeState` stands at
column 8; its entry tests `xPos == 9`, then `grid[5][8]` and `grid[6][10]` (the word of
`grid[7][0]`), which are 0, so `canRotate` is true although the next orientation has
the cell (6, 10) outside the grid. No entry tests a row either: for the T piece of
`tFloorState`, whose next orientation has a cell in row 14, the flag is decided by
`grid[12][4]` and by `grid[14][4]`, a word after the array, whatever the grid holds. -/
theorem checkCollisions_canRotate_leaves_grid :
    Inside 3 1 8 5 ∧ Placed zEdgeState.grid 3 1 8 5 ∧
      (∃ d ∈ footprint 3 ((1 + 1) % 4), ¬ (5 + d.1 < 14 ∧ 8 + d.2 < 10)) ∧
      (checkCollisions zEdgeState).canRotate = true ∧
      (∃ d ∈ footprint 7 ((0 + 1) % 4), ¬ (12 + d.1 < 14 ∧ 4 + d.2 < 10)) ∧
      (∀ g : Grid,
        (checkCollisions (tFloorState g)).canRotate = !(nz g 12 4 || nz g 14 4)) := by
  have key : ∀ s : State, s.piece = 7 → s.rotation = 0 → s.xPos = 4 → s.yPos = 12 →
      (checkCollisions s).canRotate = !(nz s.grid 12 4 || nz s.grid 14 4) := by
    intro s h1 h2 h3 h4
    unfold checkCollisions
    simp only [h1, h2, h3, h4, setFlags]
    cases (nz s.grid 12 4 || nz s.grid 14 4) <;> rfl
  exact ⟨by decide, by decide, by decide, by decide, by decide,
    fun g => key (tFloorState g) rfl rfl rfl rfl⟩

/-- Companion to C4. Where the footprint of rotation (r+1) mod 4 at the same anchor has
no cell below row 13 and the piece is not a vertical Z or S at column 8, `canRotate`
is true exactly when every cell of that footprint has its column inside the grid and
is zero or one of the piece's own cells. -/
theorem checkCollisions_canRotate_spec (s : State) (hp : 1 ≤ s.piece ∧ s.piece ≤ 7)
    (hr : s.rotation ≤ 3)
    (hrow : ∀ d ∈ footprint s.piece ((s.rotation + 1) % 4), s.yPos + d.1 < 14)
    (hzs : ¬((s.piece = 3 ∨ s.piece = 4) ∧ s.rotation % 2 = 1 ∧ s.xPos = 8))
    (hin : Inside s.piece s.rotation s.xPos s.yPos)
    (hpl : Placed s.grid s.piece s.rotation s.xPos s.yPos) :
    (checkCollisions s).canRotate = true ↔
      ∀ d ∈ footprint s.piece ((s.rotation + 1) % 4),
        s.yPos + d.1 < 14 ∧ s.xPos + d.2 < 10 ∧
          (s.grid (s.yPos + d.1) (s.xPos + d.2) = 0 ∨
            (s.yPos + d.1, s.xPos + d.2) ∈ cellsAt s.piece s.rotation s.xPos s.yPos) :=
  canRotate_iff s hp hr hrow hzs hin hpl

/-- The rotation rule of the companion lemma on `tMidState`. -/
theorem checkCollisions_canRotate_spec_witness :
    (checkCollisions tMidState).canRotate = true ↔
      ∀ d ∈ footprint 7 ((0 + 1) % 4),
        5 + d.1 < 14 ∧ 4 + d.2 < 10 ∧
          (tMidState.grid (5 + d.1) (4 + d.2) = 0 ∨ (5 + d.1, 4 + d.2) ∈ cellsAt 7 0 4 5) :=
  checkCollisions_canRotate_spec tMidState (by decide) (by decide) (by decide) (by decide)
    (by decide) (by decide)

/-! ## Placement (C6, C7) and spawn check (C9) -/

theorem footprint_shape (p r : Nat) (hp : 1 ≤ p ∧ p ≤ 7) (hr : r ≤ 3) :
    (footprint p r).length = 4 ∧ (footprint p r).Nodup ∧
      ∀ d ∈ footprint p r, d.1 ≤ 3 ∧ d.2 ≤ 3 := by
  obtain ⟨h1, h2⟩ := hp
  interval_cases p <;> interval_cases r <;> decide

theorem cellsAt_nodup (p r x y : Nat) (h : (footprint p r).Nodup) :
    (cellsAt p r x y).Nodup := by
  unfold cellsAt
  refine List.Nodup.map ?_ h
  intro a b hab
  simp only [Prod.mk.injEq] at hab
  exact Prod.ext (by omega) (by omega)

theorem mem_cellsAt (p r x y a b : Nat) :
    (a, b) ∈ cellsAt p r x y ↔ ∃ d ∈ footprint p r, a = y + d.1 ∧ b = x + d.2 := by
  unfold cellsAt
  simp only [List.mem_map, Prod.mk.injEq]
  constructor
  · rintro ⟨d, hd, h1, h2⟩
    exact ⟨d, hd, h1.symm, h2.symm⟩
  · rintro ⟨d, hd, h1, h2⟩
    exact ⟨d, hd, h1.symm, h2.symm⟩

/-- C6. For every identity 1..7, rotation 0..3 and anchor at which the footprint lies
inside the grid, `placePiece` stores the identifier in exactly the four pairwise
distinct cells `cellsAt`, each inside the grid at a row and a column offset between 0
and 3 from the anchor, and changes no other cell; `removePiece` stores 0 in the same
four cells and changes no other cell. -/
theorem placePiece_removePiece_cells (s : State) (hp : 1 ≤ s.piece ∧ s.piece ≤ 7)
    (hr : s.rotation ≤ 3) (hin : Inside s.piece s.rotation s.xPos s.yPos) :
    (cellsAt s.piece s.rotation s.xPos s.yPos).length = 4 ∧
      (cellsAt s.piece s.rotation s.xPos s.yPos).Nodup ∧
      (∀ c ∈ cellsAt s.piece s.rotation s.xPos s.yPos,
        c.1 < 14 ∧ c.2 < 10 ∧
          ∃ dr dc, dr ≤ 3 ∧ dc ≤ 3 ∧ c = (s.yPos + dr, s.xPos + dc)) ∧
      (∀ a b, (placePiece s).grid a b =
        if (a, b) ∈ cellsAt s.piece s.rotation s.xPos s.yPos then s.piece else s.grid a b) ∧
      (∀ a b, (removePiece s).grid a b =
        if (a, b) ∈ cellsAt s.piece s.rotation s.xPos s.yPos then 0 else s.grid a b) := by
  obtain ⟨hlen, hnd, hoff⟩ := footprint_shape s.piece s.rotation hp hr
  refine ⟨?_, cellsAt_nodup _ _ _ _ hnd, ?_, ?_, ?_⟩
  · simp [cellsAt, hlen]
  · rintro ⟨a, b⟩ hc
    obtain ⟨d, hd, h1, h2⟩ := (mem_cellsAt _ _ _ _ _ _).1 hc
    refine ⟨?_, ?_, d.1, d.2, (hoff d hd).1, (hoff d hd).2, by rw [h1, h2]⟩
    · show a < 14
      rw [h1]
      exact (hin d hd).1
    · show b < 10
      rw [h2]
      exact (hin d hd).2
  · intro a b
    rw [placePiece_eq s hp hr]
    rfl
  · intro a b
    rw [removePiece_eq s hp hr]
    rfl

/-- Witness of C6 on `tMidState`. -/
theorem placePiece_removePiece_cells_witness :
    (cellsAt 7 0 4 5).length = 4 ∧ (cellsAt 7 0 4 5).Nodup ∧
      (∀ c ∈ cellsAt 7 0 4 5,
        c.1 < 14 ∧ c.2 < 10 ∧ ∃ dr dc, dr ≤ 3 ∧ dc ≤ 3 ∧ c = (5 + dr, 4 + dc)) ∧
      (∀ a b, (placePiece tMidState).grid a b =
        if (a, b) ∈ cellsAt 7 0 4 5 then 7 else tMidState.grid a b) ∧
      (∀ a b, (removePiece tMidState).grid a b =
        if (a, b) ∈ cellsAt 7 0 4 5 then 0 else tMidState.grid a b) :=
  placePiece_removePiece_cells tMidState (by decide) (by decide) (by decide)

theorem writeCells_same (cells : List (Nat × Nat)) (v w : Nat) (g : Grid)
    (h : ∀ c ∈ cells, g c.1 c.2 = w) :
    writeCells cells w (writeCells cells v g) = g := by
  funext a b
  unfold writeCells
  by_cases hm : (a, b) ∈ cells
  · simp only [hm, if_true]
    exact (h (a, b) hm).symm
  · simp only [hm, if_false]

/-- C7. For every identity 1..7, rotation 0..3 and anchor with the footprint inside the
grid: on a grid whose footprint cells are all 0, `removePiece` after `placePiece`
gives back the original state; on a grid whose footprint cells all hold the
identifier, `placePiece` after `removePiece` gives back the original state. -/
theorem placePiece_removePiece_roundtrip (s : State) (hp : 1 ≤ s.piece ∧ s.piece ≤ 7)
    (hr : s.rotation ≤ 3) (hin : Inside s.piece s.rotation s.xPos s.yPos) :
    ((∀ d ∈ footprint s.piece s.rotation, s.grid (s.yPos + d.1) (s.xPos + d.2) = 0) →
        removePiece (placePiece s) = s) ∧
      (Placed s.grid s.piece s.rotation s.xPos s.yPos → placePiece (removePiece s) = s) := by
  have _ := hin
  constructor
  · intro h0
    have hw : writeCells (cellsAt s.piece s.rotation s.xPos s.yPos) 0
        (writeCells (cellsAt s.piece s.rotation s.xPos s.yPos) s.piece s.grid) = s.grid := by
      apply writeCells_same
      rintro ⟨a, b⟩ hc
      obtain ⟨d, hd, h1, h2⟩ := (mem_cellsAt _ _ _ _ _ _).1 hc
      simp only [h1, h2]
      exact h0 d hd
    rw [placePiece_eq s hp hr,
      removePiece_eq
        { s with grid := writeCells (cellsAt s.piece s.rotation s.xPos s.yPos) s.piece s.grid }
        hp hr]
    simp only
    rw [hw]
  · intro h1
    have hw : writeCells (cellsAt s.piece s.rotation s.xPos s.yPos) s.piece
        (writeCells (cellsAt s.piece s.rotation s.xPos s.yPos) 0 s.grid) = s.grid := by
      apply writeCells_same
      rintro ⟨a, b⟩ hc
      obtain ⟨d, hd, h3, h4⟩ := (mem_cellsAt _ _ _ _ _ _).1 hc
      simp only [h3, h4]
      exact h1 d hd
    rw [removePiece_eq s hp hr,
      placePiece_eq
        { s with grid := writeCells (cellsAt s.piece s.rotation s.xPos s.yPos) 0 s.grid }
        hp hr]
    simp only
    rw [hw]

/-- Witness of C7 on `tMidState` (its second half applies: the piece is placed). -/
theorem placePiece_removePiece_roundtrip_witness :
    ((∀ d ∈ footprint 7 0, tMidState.grid (5 + d.1) (4 + d.2) = 0) →
        removePiece (placePiece tMidState) = tMidState) ∧
      (Placed tMidState.grid 7 0 4 5 → placePiece (removePiece tMidState) = tMidState) :=
  placePiece_removePiece_roundtrip tMidState (by decide) (by decide) (by decide)

theorem checkGameOver_cases (s : State) (hp : 1 ≤ s.piece ∧ s.piece ≤ 7)
    (hx : s.xPos = 4) (hy : s.yPos = 0) (hr : s.rotation = 0) :
    ((∃ c ∈ cellsAt s.piece s.rotation s.xPos s.yPos, s.grid c.1 c.2 ≠ 0) →
        checkGameOver s = { s with gameAlive := false }) ∧
      ((¬ ∃ c ∈ cellsAt s.piece s.rotation s.xPos s.yPos, s.grid c.1 c.2 ≠ 0) →
        checkGameOver s = s) ∧
      (checkGameOver s).grid = s.grid := by
  obtain ⟨h1, h2⟩ := hp
  generalize hP : s.piece = p at *
  unfold checkGameOver
  interval_cases p <;>
    simp only [hP, hr, hx, hy, cellsAt, footprint, nz, List.map_cons, List.map_nil,
      List.mem_cons, List.mem_singleton, List.not_mem_nil, or_false, exists_eq_or_imp,
      exists_eq_left, Bool.or_eq_true, bne_iff_ne, ne_eq, Nat.zero_add, Nat.add_zero,
      Nat.reduceAdd, not_or, not_not] <;>
    refine ⟨fun h => ?_, fun h => ?_, ?_⟩ <;>
    split <;>
    first
      | rfl
      | (exfalso; tauto)

/-- C9. For every identity 1..7 and every grid, in the spawn state (`xPos = 4`,
`yPos = 0`, `rotation = 0`) `checkGameOver` stores false in `gameAlive` when one of
the four cells that `placePiece` writes for that identity is non-zero, and otherwise
changes nothing; it never changes the grid. -/
theorem checkGameOver_spec (s : State) (hp : 1 ≤ s.piece ∧ s.piece ≤ 7)
    (hx : s.xPos = 4) (hy : s.yPos = 0) (hr : s.rotation = 0) :
    ((∃ c ∈ cellsAt s.piece s.rotation s.xPos s.yPos, s.grid c.1 c.2 ≠ 0) →
        checkGameOver s = { s with gameAlive := false }) ∧
      ((¬ ∃ c ∈ cellsAt s.piece s.rotation s.xPos s.yPos, s.grid c.1 c.2 ≠ 0) →
        checkGameOver s = s) ∧
      (checkGameOver s).grid = s.grid :=
  checkGameOver_cases s hp hx hy hr

/-- Witness of C9 on `spawnBlockedState`. -/
theorem checkGameOver_spec_witness :
    ((∃ c ∈ cellsAt 2 0 4 0, spawnBlockedState.grid c.1 c.2 ≠ 0) →
        checkGameOver spawnBlockedState = { spawnBlockedState with gameAlive := false }) ∧
      ((¬ ∃ c ∈ cellsAt 2 0 4 0, spawnBlockedState.grid c.1 c.2 ≠ 0) →
        checkGameOver spawnBlockedState = spawnBlockedState) ∧
      (checkGameOver spawnBlockedState).grid = spawnBlockedState.grid :=
  checkGameOver_spec spawnBlockedState (by decide) rfl rfl rfl

/-! ## Line-clear pass (C8) -/

theorem scan_fold (i : Nat) (l : List Nat) (s : State) :
    (l.foldl (fun s j => if s.grid i j == 0 then { s with fullLine := false } else s) s).grid
        = s.grid ∧
      (l.foldl (fun s j => if s.grid i j == 0 then { s with fullLine := false } else s)
        s).fullLine = (s.fullLine && l.all fun j => s.grid i j != 0) := by
  induction l generalizing s with
  | nil => simp
  | cons j l ih =>
    simp only [List.foldl_cons, List.all_cons]
    by_cases h : s.grid i j = 0
    · have h' : (s.grid i j == 0) = true := by simp [h]
      rw [if_pos h']
      obtain ⟨ih1, ih2⟩ := ih { s with fullLine := false }
      refine ⟨ih1, ?_⟩
      rw [ih2]
      simp [h]
    · have h' : ¬ (s.grid i j == 0) = true := by simp [h]
      rw [if_neg h']
      obtain ⟨ih1, ih2⟩ := ih s
      refine ⟨ih1, ?_⟩
      have h2 : (s.grid i j != 0) = true := by simpa using h
      rw [ih2, h2, Bool.true_and]

theorem scanRow_spec (i : Nat) (s : State) :
    (scanRow i s).grid = s.grid ∧
      (scanRow i s).fullLine = (s.fullLine && isFull (rowOf s.grid i)) := by
  obtain ⟨h1, h2⟩ := scan_fold i (List.range 10) s
  refine ⟨h1, ?_⟩
  unfold scanRow
  rw [h2]
  simp [isFull, rowOf, List.all_map]
  rfl

theorem copy_fold (a b : Nat) (hab : b ≠ a ∨ a = 0) (n : Nat) (s : State) :
    ((List.range n).foldl
        (fun s j =>
          if a == 0 then { s with grid := wr a j 0 s.grid }
          else { s with grid := wr a j (s.grid b j) s.grid })
        s).grid
      = fun r c => if r = a ∧ c < n then (if a = 0 then 0 else s.grid b c) else s.grid r c := by
  induction n with
  | zero =>
    funext r c
    simp
  | succ n ih =>
    rw [List.range_succ, List.foldl_append]
    simp only [List.foldl_cons, List.foldl_nil]
    by_cases ha : a = 0
    · have h' : (a == 0) = true := by simp [ha]
      rw [if_pos h']
      simp only [ih]
      funext r c
      simp only [wr, ha, if_true]
      by_cases h1 : r = 0 ∧ c = n
      · rw [if_pos h1, if_pos ⟨h1.1, by omega⟩]
      · rw [if_neg h1]
        by_cases h2 : r = 0 ∧ c < n
        · rw [if_pos h2, if_pos ⟨h2.1, by omega⟩]
        · rw [if_neg h2, if_neg (by omega)]
    · have h' : ¬ (a == 0) = true := by simp [ha]
      rw [if_neg h']
      simp only [ih]
      funext r c
      have hb : ¬ (b = a ∧ n < n) := by omega
      have _ := hab
      simp only [wr, ha, if_false, hb]
      by_cases h1 : r = a ∧ c = n
      · rw [if_pos h1, if_pos ⟨h1.1, by omega⟩, h1.2]
      · rw [if_neg h1]
        by_cases h2 : r = a ∧ c < n
        · rw [if_pos h2, if_pos ⟨h2.1, by omega⟩]
        · rw [if_neg h2, if_neg (by omega)]

theorem shift_fold (i m : Nat) (hm : m ≤ i + 1) (s : State) :
    ((List.range m).foldl
        (fun s k =>
          (List.range 10).foldl
            (fun s j =>
              if i - k == 0 then { s with grid := wr (i - k) j 0 s.grid }
              else { s with grid := wr (i - k) j (s.grid (i - (1 + k)) j) s.grid })
            s)
        s).grid
      = fun r c =>
          if i + 1 ≤ r + m ∧ r ≤ i ∧ c < 10 then (if r = 0 then 0 else s.grid (r - 1) c)
          else s.grid r c := by
  induction m with
  | zero =>
    funext r c
    simp only [List.range_zero, List.foldl_nil]
    rw [if_neg (by omega)]
  | succ m ih =>
    have hrs : List.range (m + 1) = List.range m ++ [m] := by rw [List.range_succ]
    rw [hrs, List.foldl_append]
    simp only [List.foldl_cons, List.foldl_nil]
    rw [copy_fold (i - m) (i - (1 + m)) (by omega) 10, ih (by omega)]
    funext r c
    simp only
    split_ifs <;> first | rfl | (exfalso; omega) | (congr 1; omega)

theorem shiftRows_grid (i : Nat) (s : State) : (shiftRows i s).grid = shiftG i s.grid := by
  unfold shiftRows
  rw [shift_fold i (i + 1) (Nat.le_refl _)]
  funext r c
  unfold shiftG
  by_cases h : r ≤ i ∧ c < 10
  · rw [if_pos h, if_pos ⟨by omega, h⟩]
  · rw [if_neg h, if_neg (by omega)]

theorem setLevelColor_grid (s : State) : (setLevelColor s).grid = s.grid := by
  unfold setLevelColor
  split <;> rfl

theorem clearRow_full (s : State) (i : Nat) :
    (scanRow i { s with fullLine := true }).fullLine = isFull (rowOf s.grid i) := by
  rw [(scanRow_spec i { s with fullLine := true }).2]
  simp

theorem countLine_grid (s : State) : (countLine s).grid = s.grid := rfl

theorem decadeShift_grid (s : State) : (decadeShift s).grid = s.grid := by
  unfold decadeShift
  split <;> rfl

theorem levelUp_grid (s : State) : (levelUp s).grid = s.grid := by
  unfold levelUp
  split
  · rw [setLevelColor_grid]
  · rfl

theorem clearRow_grid (s : State) (i : Nat) : (clearRow s i).grid = clearRowG s.grid i := by
  have hg := (scanRow_spec i { s with fullLine := true }).1
  have hf := clearRow_full s i
  unfold clearRow clearRowG
  simp only
  by_cases hfull : isFull (rowOf s.grid i) = true
  · rw [if_pos (by rw [hf]; exact hfull), if_pos hfull, levelUp_grid, decadeShift_grid,
      countLine_grid, shiftRows_grid, hg]
  · rw [if_neg (by rw [hf]; exact hfull), if_neg hfull]
    exact hg

theorem lineClear_fold_grid (l : List Nat) (s : State) :
    (l.foldl clearRow s).grid = l.foldl clearRowG s.grid := by
  induction l generalizing s with
  | nil => rfl
  | cons i l ih =>
    simp only [List.foldl_cons]
    rw [ih, clearRow_grid]

theorem lineClear_grid (s : State) :
    (lineClear s).grid = (List.range 14).foldl clearRowG s.grid :=
  lineClear_fold_grid _ s

theorem compactRows_snoc_full (rows : List (List Nat)) (x : List Nat) (hx : isFull x = true) :
    compactRows (rows ++ [x]) = List.replicate 10 0 :: compactRows rows := by
  have hle : (rows.filter fun row => !isFull row).length ≤ rows.length :=
    List.length_filter_le _ _
  unfold compactRows
  simp only [List.filter_append, List.filter_cons, hx, Bool.not_true, Bool.false_eq_true,
    if_false, List.filter_nil, List.append_nil, List.length_append, List.length_cons,
    List.length_nil]
  rw [show rows.length + (0 + 1) - (rows.filter fun row => !isFull row).length
      = (rows.length - (rows.filter fun row => !isFull row).length) + 1 by omega]
  rw [List.replicate_succ]
  rfl

theorem compactRows_snoc_notFull (rows : List (List Nat)) (x : List Nat)
    (hx : isFull x = false) :
    compactRows (rows ++ [x]) = compactRows rows ++ [x] := by
  unfold compactRows
  simp only [List.filter_append, List.filter_cons, hx, Bool.not_false, if_true,
    List.filter_nil, List.length_append, List.length_cons, List.length_nil,
    List.append_assoc]
  rw [show rows.length + (0 + 1) - ((rows.filter fun row => !isFull row).length + (0 + 1))
      = rows.length - (rows.filter fun row => !isFull row).length by omega]

theorem rowOf_congr (g h : Grid) (i j : Nat) (hij : ∀ c, g i c = h j c) :
    rowOf g i = rowOf h j := by
  unfold rowOf
  exact List.map_congr_left fun c _ => hij c

theorem rows_shiftG (n : Nat) (h : Grid) :
    (List.range (n + 1)).map (rowOf (shiftG n h))
      = List.replicate 10 0 :: (List.range n).map (rowOf h) := by
  rw [List.range_succ_eq_map, List.map_cons, List.map_map]
  congr 1
  · unfold rowOf
    rw [List.eq_replicate_iff]
    refine ⟨by simp, ?_⟩
    intro b hb
    obtain ⟨c, hc, rfl⟩ := List.mem_map.1 hb
    have hc' : c < 10 := List.mem_range.1 hc
    unfold shiftG
    rw [if_pos ⟨Nat.zero_le n, hc'⟩, if_pos rfl]
  · apply List.map_congr_left
    intro r hr
    have hr' : r < n := List.mem_range.1 hr
    simp only [Function.comp]
    unfold rowOf
    apply List.map_congr_left
    intro c hc
    have hc' : c < 10 := List.mem_range.1 hc
    unfold shiftG
    rw [if_pos ⟨by omega, hc'⟩, if_neg (by omega)]
    rfl

theorem clear_fold_rows (g : Grid) (n : Nat) :
    (List.range n).map (rowOf ((List.range n).foldl clearRowG g))
        = compactRows ((List.range n).map (rowOf g)) ∧
      ∀ r c, n ≤ r → ((List.range n).foldl clearRowG g) r c = g r c := by
  induction n with
  | zero =>
    refine ⟨?_, fun r c _ => rfl⟩
    simp [compactRows]
  | succ n ih =>
    obtain ⟨ih1, ih2⟩ := ih
    have hrs : List.range (n + 1) = List.range n ++ [n] := by rw [List.range_succ]
    have hrow : rowOf ((List.range n).foldl clearRowG g) n = rowOf g n :=
      rowOf_congr _ _ _ _ fun c => ih2 n c (Nat.le_refl n)
    have hfold : (List.range (n + 1)).foldl clearRowG g
        = clearRowG ((List.range n).foldl clearRowG g) n := by
      rw [hrs, List.foldl_append]
      rfl
    rw [hfold]
    generalize (List.range n).foldl clearRowG g = h at *
    by_cases hfull : isFull (rowOf g n) = true
    · have hc : clearRowG h n = shiftG n h := by
        unfold clearRowG
        rw [hrow, if_pos hfull]
      rw [hc]
      constructor
      · rw [rows_shiftG, ih1]
        rw [hrs, List.map_append, List.map_cons, List.map_nil,
          compactRows_snoc_full _ _ hfull]
      · intro r c hr
        unfold shiftG
        rw [if_neg (by omega)]
        exact ih2 r c (by omega)
    · have hc : clearRowG h n = h := by
        unfold clearRowG
        rw [hrow, if_neg hfull]
      have hfull' : isFull (rowOf g n) = false := by simpa using hfull
      rw [hc]
      constructor
      · rw [hrs, List.map_append, List.map_append, List.map_cons, List.map_nil,
          List.map_cons, List.map_nil, compactRows_snoc_notFull _ _ hfull', ih1, hrow]
      · intro r c hr
        exact ih2 r c (by omega)

theorem lineClear_row_unchanged (s : State) (n : Nat) :
    rowOf ((List.range n).foldl clearRow s).grid n = rowOf s.grid n := by
  rw [lineClear_fold_grid]
  exact rowOf_congr _ _ _ _ fun c => (clear_fold_rows s.grid n).2 n c (Nat.le_refl n)

theorem count_fold (s : State) (n : Nat) :
    (List.range n).foldl
        (fun (a : State × Nat) i =>
          (clearRow a.1 i,
            if (scanRow i { a.1 with fullLine := true }).fullLine then a.2 + 1 else a.2))
        (s, 0)
      = ((List.range n).foldl clearRow s,
          (((List.range n).map (rowOf s.grid)).filter isFull).length) := by
  induction n with
  | zero => rfl
  | succ n ih =>
    have hrs : List.range (n + 1) = List.range n ++ [n] := by rw [List.range_succ]
    rw [hrs, List.foldl_append, List.foldl_append, ih]
    simp only [List.foldl_cons, List.foldl_nil, List.map_append, List.map_cons, List.map_nil,
      List.filter_append, List.length_append]
    rw [clearRow_full, lineClear_row_unchanged]
    by_cases hfull : isFull (rowOf s.grid n) = true
    · simp [hfull]
    · simp [hfull]

theorem filter_notFull_self (rows : List (List Nat)) (h : ∀ y ∈ rows, isFull y = false) :
    (rows.filter fun row => !isFull row) = rows := by
  rw [List.filter_eq_self]
  intro y hy
  simp [h y hy]

theorem compactRows_one_full (A B : List (List Nat)) (x : List Nat) (hx : isFull x = true)
    (hA : ∀ y ∈ A, isFull y = false) (hB : ∀ y ∈ B, isFull y = false) :
    compactRows (A ++ x :: B) = List.replicate 10 0 :: (A ++ B) := by
  unfold compactRows
  simp only [List.filter_append, List.filter_cons, hx, Bool.not_true, Bool.false_eq_true,
    if_false, filter_notFull_self A hA, filter_notFull_self B hB, List.length_append,
    List.length_cons]
  rw [show A.length + (B.length + 1) - (A.length + B.length) = 1 by omega]
  rfl

theorem compactRows_two_full (A B : List (List Nat)) (x m y : List Nat)
    (hx : isFull x = true) (hy : isFull y = true) (hm : isFull m = false)
    (hA : ∀ w ∈ A, isFull w = false) (hB : ∀ w ∈ B, isFull w = false) :
    compactRows (A ++ x :: m :: y :: B)
      = List.replicate 10 0 :: List.replicate 10 0 :: (A ++ m :: B) := by
  unfold compactRows
  simp only [List.filter_append, List.filter_cons, hx, hy, hm, Bool.not_true, Bool.not_false,
    Bool.false_eq_true, if_false, if_true, filter_notFull_self A hA,
    filter_notFull_self B hB, List.length_append, List.length_cons]
  rw [show A.length + (B.length + 1 + 1 + 1) - (A.length + (B.length + 1)) = 2 by omega]
  rfl

/-- C8. For every grid the line-clear pass of `step` produces the rows of the input
with every full row deleted, the remaining rows kept in order at the bottom and zero
rows filled in at the top, and the number of rows it clears is the number of full rows
of the input. In particular a single full row moves the rows above it down by one
under a zero row and leaves the rows below unchanged, and two full rows `i` and
`i+2` are both removed. -/
theorem lineClear_spec (s : State) :
    rowsOf (lineClear s).grid = compactRows (rowsOf s.grid) ∧
      lineClearCount s = ((rowsOf s.grid).filter isFull).length ∧
      (∀ A x B, rowsOf s.grid = A ++ x :: B → isFull x = true →
        (∀ y ∈ A, isFull y = false) → (∀ y ∈ B, isFull y = false) →
        rowsOf (lineClear s).grid = List.replicate 10 0 :: (A ++ B)) ∧
      (∀ A x m y B, rowsOf s.grid = A ++ x :: m :: y :: B → isFull x = true →
        isFull y = true → isFull m = false →
        (∀ w ∈ A, isFull w = false) → (∀ w ∈ B, isFull w = false) →
        rowsOf (lineClear s).grid
          = List.replicate 10 0 :: List.replicate 10 0 :: (A ++ m :: B)) := by
  have hmain : rowsOf (lineClear s).grid = compactRows (rowsOf s.grid) := by
    unfold rowsOf
    rw [lineClear_grid]
    exact (clear_fold_rows s.grid 14).1
  refine ⟨hmain, ?_, ?_, ?_⟩
  · unfold lineClearCount rowsOf
    rw [count_fold]
  · intro A x B hrows hx hA hB
    rw [hmain, hrows]
    exact compactRows_one_full A B x hx hA hB
  · intro A x m y B hrows hx hy hm hA hB
    rw [hmain, hrows]
    exact compactRows_two_full A B x m y hx hy hm hA hB

/-- Example of C8: the pass on the grid of `lockFullRowState` deletes row 13. -/
theorem lineClear_example :
    rowsOf (lineClear lockFullRowState).grid
      = [[0, 0, 0, 0, 0, 0, 0, 0, 0, 0],
         [0, 0, 0, 0, 0, 0, 0, 0, 0, 0],
         [0, 0, 0, 0, 0, 0, 0, 0, 0, 0],
         [0, 0, 0, 0, 0, 0, 0, 0, 0, 0],
         [0, 0, 0, 0, 0, 0, 0, 0, 0, 0],
         [0, 0, 0, 0, 0, 0, 0, 0, 0, 0],
         [0, 0, 0, 0, 0, 0, 0, 0, 0, 0],
         [0, 0, 0, 0, 0, 0, 0, 0, 0, 0],
         [0, 0, 0, 0, 0, 0, 0, 0, 0, 0],
         [0, 0, 0, 0, 0, 0, 0, 0, 0, 0],
         [0, 0, 0, 0, 0, 0, 0, 0, 0, 0],
         [0, 0, 0, 0, 0, 0, 0, 0, 0, 0],
         [0, 0, 0, 0, 0, 0, 0, 0, 0, 0],
         [1, 1, 0, 0, 0, 0, 0, 0, 0, 0]] ∧
      lineClearCount lockFullRowState = 1 := by
  set_option maxRecDepth 100000 in decide

/-! ## Frame of the line-clear pass -/

theorem foldl_frame {α β : Type} (F : State → β) (f : State → α → State)
    (h : ∀ s a, F (f s a) = F s) (l : List α) (s : State) : F (l.foldl f s) = F s := by
  induction l generalizing s with
  | nil => rfl
  | cons a l ih =>
    simp only [List.foldl_cons]
    rw [ih, h]

theorem scanRow_ctl (i : Nat) (s : State) : ctl (scanRow i s) = ctl s := by
  unfold scanRow
  apply foldl_frame
  intro s j
  split <;> rfl

theorem shiftRows_ctl (i : Nat) (s : State) : ctl (shiftRows i s) = ctl s := by
  unfold shiftRows
  apply foldl_frame
  intro s k
  apply foldl_frame
  intro s j
  split <;> rfl

theorem setLevelColor_ctl (s : State) : ctl (setLevelColor s) = ctl s := by
  unfold setLevelColor
  split <;> rfl

theorem decadeShift_ctl (s : State) : ctl (decadeShift s) = ctl s := by
  unfold decadeShift
  split <;> rfl

theorem levelUp_ctl (s : State) : ctl (levelUp s) = ctl s := by
  unfold levelUp
  split
  · rw [setLevelColor_ctl]
    rfl
  · rfl

theorem clearRow_ctl (s : State) (i : Nat) : ctl (clearRow s i) = ctl s := by
  have h1 : ctl (scanRow i { s with fullLine := true }) = ctl s := scanRow_ctl i _
  unfold clearRow
  simp only
  split
  · rw [levelUp_ctl, decadeShift_ctl]
    show ctl (shiftRows i _) = _
    rw [shiftRows_ctl, h1]
  · exact h1

theorem lineClear_ctl (s : State) : ctl (lineClear s) = ctl s := by
  unfold lineClear
  exact foldl_frame ctl clearRow clearRow_ctl _ s

/-! ## Closed forms of the stages of a tick -/

theorem checkCollisions_eq (s : State) :
    checkCollisions s = setFlags s (checkCollisions s).canLeft (checkCollisions s).canRight
      (checkCollisions s).canRotate (checkCollisions s).canDown := by
  unfold checkCollisions
  simp only
  split <;> (try split) <;> rfl

theorem shiftLeft_eq (s : State) (hp : 1 ≤ s.piece ∧ s.piece ≤ 7) (hr : s.rotation ≤ 3) :
    shiftLeft s =
      { s with
        xPos := dec s.xPos, leftKey := false,
        grid := moveGrid s.piece (cellsAt s.piece s.rotation s.xPos s.yPos)
          (cellsAt s.piece s.rotation (dec s.xPos) s.yPos) s.grid } := by
  unfold shiftLeft
  rw [removePiece_eq s hp hr]
  simp only
  rw [placePiece_eq
    { s with xPos := dec s.xPos,
             grid := writeCells (cellsAt s.piece s.rotation s.xPos s.yPos) 0 s.grid } hp hr]
  rfl

theorem shiftRight_eq (s : State) (hp : 1 ≤ s.piece ∧ s.piece ≤ 7) (hr : s.rotation ≤ 3) :
    shiftRight s =
      { s with
        xPos := inc s.xPos, rightKey := false,
        grid := moveGrid s.piece (cellsAt s.piece s.rotation s.xPos s.yPos)
          (cellsAt s.piece s.rotation (inc s.xPos) s.yPos) s.grid } := by
  unfold shiftRight
  rw [removePiece_eq s hp hr]
  simp only
  rw [placePiece_eq
    { s with xPos := inc s.xPos,
             grid := writeCells (cellsAt s.piece s.rotation s.xPos s.yPos) 0 s.grid } hp hr]
  rfl

theorem nextRotation_le (r : Nat) : nextRotation r ≤ 3 := by
  unfold nextRotation
  split <;> omega

theorem rotate_eq (s : State) (hp : 1 ≤ s.piece ∧ s.piece ≤ 7) (hr : s.rotation ≤ 3) :
    rotate s =
      { s with
        rotation := nextRotation s.rotation, rotateKey := false,
        grid := moveGrid s.piece (cellsAt s.piece s.rotation s.xPos s.yPos)
          (cellsAt s.piece (nextRotation s.rotation) s.xPos s.yPos) s.grid } := by
  unfold rotate
  rw [removePiece_eq s hp hr]
  simp only
  rw [placePiece_eq
    { s with rotation := nextRotation s.rotation,
             grid := writeCells (cellsAt s.piece s.rotation s.xPos s.yPos) 0 s.grid } hp
    (nextRotation_le s.rotation)]
  rfl

theorem dropOne_eq (s : State) (hp : 1 ≤ s.piece ∧ s.piece ≤ 7) (hr : s.rotation ≤ 3) :
    dropOne s =
      { s with
        yPos := inc s.yPos, leftKey := false, rightKey := false, rotateKey := false,
        keyPress := inc s.keyPress, dropCounter := 0,
        grid := moveGrid s.piece (cellsAt s.piece s.rotation s.xPos s.yPos)
          (cellsAt s.piece s.rotation s.xPos (inc s.yPos)) s.grid } := by
  unfold dropOne
  rw [removePiece_eq s hp hr]
  simp only
  rw [placePiece_eq
    { s with yPos := inc s.yPos,
             grid := writeCells (cellsAt s.piece s.rotation s.xPos s.yPos) 0 s.grid } hp hr]
  rfl

theorem joystickStage_geo (adc : Nat) (s : State) :
    (joystickStage adc s).piece = s.piece ∧ (joystickStage adc s).rotation = s.rotation ∧
      (joystickStage adc s).xPos = s.xPos ∧ (joystickStage adc s).yPos = s.yPos ∧
      (joystickStage adc s).grid = s.grid ∧ (joystickStage adc s).gameAlive = s.gameAlive := by
  unfold joystickStage
  simp only
  split_ifs <;> exact ⟨rfl, rfl, rfl, rfl, rfl, rfl⟩

theorem lockStage_not_locked (s : State) (h : lockApplied s = false) :
    ∃ gt, lockStage (checkCollisions s) = { checkCollisions s with graceTime := gt } := by
  unfold lockApplied at h
  unfold lockStage
  have hg : (checkCollisions s).graceTime = s.graceTime := by
    rw [checkCollisions_eq s]
    rfl
  by_cases hd : (checkCollisions s).canDown = true
  · refine ⟨s.graceTime, ?_⟩
    rw [if_neg (by simp [hd]), ← hg]
  · have hd' : (checkCollisions s).canDown = false := by simpa using hd
    rw [hd'] at h
    simp only [Bool.not_false, Bool.true_and, decide_eq_false_iff_not] at h
    refine ⟨inc s.graceTime, ?_⟩
    rw [if_pos (by simp [hd'])]
    simp only [hg]
    rw [if_neg h]

theorem dropStage_geo (v : State) (hp : 1 ≤ v.piece ∧ v.piece ≤ 7) (hr : v.rotation ≤ 3) :
    (dropStage v).piece = v.piece ∧ (dropStage v).rotation = v.rotation ∧
      (dropStage v).xPos = v.xPos ∧
      (dropStage v).yPos =
        (if (decide (v.dropCounter > dropThreshold v.level) && v.canDown) = true
          then inc v.yPos else v.yPos) ∧
      (dropStage v).grid =
        (if (decide (v.dropCounter > dropThreshold v.level) && v.canDown) = true then
          moveGrid v.piece (cellsAt v.piece v.rotation v.xPos v.yPos)
            (cellsAt v.piece v.rotation v.xPos (inc v.yPos)) v.grid
         else v.grid) := by
  unfold dropStage
  split
  · rw [dropOne_eq v hp hr]
    exact ⟨rfl, rfl, rfl, rfl, rfl⟩
  · exact ⟨rfl, rfl, rfl, rfl, rfl⟩

theorem moveStage_geo (u : State) (hp : 1 ≤ u.piece ∧ u.piece ≤ 7) (hr : u.rotation ≤ 3)
    (hal : u.pieceAlive = true) :
    (moveStage u).piece = u.piece ∧ (moveStage u).yPos = u.yPos ∧
      (moveStage u).dropCounter = u.dropCounter ∧ (moveStage u).level = u.level ∧
      (moveStage u).canDown = u.canDown ∧
      (moveStage u).rotation =
        (if (u.leftKey && u.canLeft) = true then u.rotation
         else if (u.rightKey && u.canRight) = true then u.rotation
         else if (u.rotateKey && u.canRotate) = true then nextRotation u.rotation
         else u.rotation) ∧
      (moveStage u).xPos =
        (if (u.leftKey && u.canLeft) = true then dec u.xPos
         else if (u.rightKey && u.canRight) = true then inc u.xPos
         else u.xPos) ∧
      (moveStage u).grid =
        (if (u.leftKey && u.canLeft) = true then
          moveGrid u.piece (cellsAt u.piece u.rotation u.xPos u.yPos)
            (cellsAt u.piece u.rotation (dec u.xPos) u.yPos) u.grid
         else if (u.rightKey && u.canRight) = true then
          moveGrid u.piece (cellsAt u.piece u.rotation u.xPos u.yPos)
            (cellsAt u.piece u.rotation (inc u.xPos) u.yPos) u.grid
         else if (u.rotateKey && u.canRotate) = true then
          moveGrid u.piece (cellsAt u.piece u.rotation u.xPos u.yPos)
            (cellsAt u.piece (nextRotation u.rotation) u.xPos u.yPos) u.grid
         else u.grid) := by
  unfold moveStage
  rw [if_neg (by simp [hal])]
  split
  · rw [shiftLeft_eq u hp hr]
    exact ⟨rfl, rfl, rfl, rfl, rfl, rfl, rfl, rfl⟩
  · split
    · rw [shiftRight_eq u hp hr]
      exact ⟨rfl, rfl, rfl, rfl, rfl, rfl, rfl, rfl⟩
    · split
      · rw [rotate_eq u hp hr]
        refine ⟨rfl, rfl, rfl, rfl, rfl, rfl, ?_, rfl⟩
        rfl
      · refine ⟨rfl, rfl, rfl, rfl, rfl, rfl, ?_, rfl⟩
        rfl

theorem checkCollisions_fields (s : State) :
    (checkCollisions s).piece = s.piece ∧ (checkCollisions s).rotation = s.rotation ∧
      (checkCollisions s).xPos = s.xPos ∧ (checkCollisions s).yPos = s.yPos ∧
      (checkCollisions s).grid = s.grid ∧ (checkCollisions s).pieceAlive = s.pieceAlive ∧
      (checkCollisions s).leftKey = s.leftKey ∧ (checkCollisions s).rightKey = s.rightKey ∧
      (checkCollisions s).rotateKey = s.rotateKey ∧
      (checkCollisions s).dropCounter = s.dropCounter ∧
      (checkCollisions s).level = s.level ∧ (checkCollisions s).keyPress = s.keyPress ∧
      (checkCollisions s).gameAlive = s.gameAlive ∧
      (checkCollisions s).graceTime = s.graceTime := by
  rw [checkCollisions_eq s]
  exact ⟨rfl, rfl, rfl, rfl, rfl, rfl, rfl, rfl, rfl, rfl, rfl, rfl, rfl, rfl⟩

theorem tick_geo (adc : Nat) (s : State) (hp : 1 ≤ s.piece ∧ s.piece ≤ 7)
    (hr : s.rotation ≤ 3) (halive : s.pieceAlive = true) (hlock : lockApplied s = false) :
    (tick adc s).piece = s.piece ∧
      (tick adc s).rotation = (moveTarget s).1 ∧
      (tick adc s).xPos = (moveTarget s).2.1 ∧
      (tick adc s).yPos = (if dropApplied s = true then inc s.yPos else s.yPos) ∧
      (tick adc s).grid =
        (if dropApplied s = true then
          moveGrid s.piece
            (cellsAt s.piece (moveTarget s).1 (moveTarget s).2.1 s.yPos)
            (cellsAt s.piece (moveTarget s).1 (moveTarget s).2.1 (inc s.yPos))
            (if (leftApplied s || rightApplied s || rotateApplied s) = true then
              moveGrid s.piece (cellsAt s.piece s.rotation s.xPos s.yPos)
                (cellsAt s.piece (moveTarget s).1 (moveTarget s).2.1 s.yPos) s.grid
             else s.grid)
         else
          (if (leftApplied s || rightApplied s || rotateApplied s) = true then
            moveGrid s.piece (cellsAt s.piece s.rotation s.xPos s.yPos)
              (cellsAt s.piece (moveTarget s).1 (moveTarget s).2.1 s.yPos) s.grid
           else s.grid)) := by
  obtain ⟨gt, hpre⟩ := lockStage_not_locked s hlock
  obtain ⟨c1, c2, c3, c4, c5, c6, c7, c8, c9, c10, c11, -, -, -⟩ := checkCollisions_fields s
  generalize hu : ({ checkCollisions s with graceTime := gt } : State) = u at hpre
  have u1 : u.piece = s.piece := by rw [← hu]; exact c1
  have u2 : u.rotation = s.rotation := by rw [← hu]; exact c2
  have u3 : u.xPos = s.xPos := by rw [← hu]; exact c3
  have u4 : u.yPos = s.yPos := by rw [← hu]; exact c4
  have u5 : u.grid = s.grid := by rw [← hu]; exact c5
  have u6 : u.pieceAlive = true := by rw [← hu]; exact c6.trans halive
  have u7 : u.leftKey = s.leftKey := by rw [← hu]; exact c7
  have u8 : u.rightKey = s.rightKey := by rw [← hu]; exact c8
  have u9 : u.rotateKey = s.rotateKey := by rw [← hu]; exact c9
  have u10 : u.dropCounter = s.dropCounter := by rw [← hu]; exact c10
  have u11 : u.level = s.level := by rw [← hu]; exact c11
  have f1 : u.canLeft = (checkCollisions s).canLeft := by rw [← hu]
  have f2 : u.canRight = (checkCollisions s).canRight := by rw [← hu]
  have f3 : u.canRotate = (checkCollisions s).canRotate := by rw [← hu]
  have f4 : u.canDown = (checkCollisions s).canDown := by rw [← hu]
  have hpu : 1 ≤ u.piece ∧ u.piece ≤ 7 := by rw [u1]; exact hp
  have hru : u.rotation ≤ 3 := by rw [u2]; exact hr
  obtain ⟨m1, m2, m3, m4, m5, m6, m7, m8⟩ := moveStage_geo u hpu hru u6
  have hrv : (moveStage u).rotation ≤ 3 := by
    rw [m6]
    have := nextRotation_le u.rotation
    split_ifs <;> omega
  obtain ⟨d1, d2, d3, d4, d5⟩ := dropStage_geo (moveStage u) (by rw [m1]; exact hpu) hrv
  obtain ⟨j1, j2, j3, j4, j5, -⟩ := joystickStage_geo adc (dropStage (moveStage u))
  unfold tick
  rw [hpre, j1, j2, j3, j4, j5, d1, d2, d3, d4, d5, m1, m2, m3, m4, m5, m6, m7, m8,
    u1, u2, u3, u4, u5, u7, u8, u9, u10, u11, f1, f2, f3, f4]
  unfold moveTarget dropApplied rotateApplied rightApplied leftApplied
  by_cases hA : (s.leftKey && (checkCollisions s).canLeft) = true
  · simp [hA]
  · by_cases hB : (s.rightKey && (checkCollisions s).canRight) = true
    · simp [hA, hB]
    · by_cases hC : (s.rotateKey && (checkCollisions s).canRotate) = true
      · simp [hA, hB, hC]
      · simp [hA, hB, hC]

/-! ## Piece invariant over a tick (C5) -/

theorem move_invariant (g : Grid) (p r x y r' x' y' : Nat)
    (hfree : ∀ d ∈ footprint p r', Free g (cellsAt p r x y) (y' + d.1) (x' + d.2)) :
    Inside p r' x' y' ∧
      Placed (moveGrid p (cellsAt p r x y) (cellsAt p r' x' y') g) p r' x' y' ∧
      ∀ a b, (a, b) ∉ cellsAt p r x y → g a b ≠ 0 →
        moveGrid p (cellsAt p r x y) (cellsAt p r' x' y') g a b = g a b := by
  refine ⟨fun d hd => ⟨(hfree d hd).1, (hfree d hd).2.1⟩, ?_, ?_⟩
  · intro d hd
    have hm : (y' + d.1, x' + d.2) ∈ cellsAt p r' x' y' :=
      (mem_cellsAt _ _ _ _ _ _).2 ⟨d, hd, rfl, rfl⟩
    unfold moveGrid writeCells
    rw [if_pos hm]
  · intro a b hold hnz
    have hnew : (a, b) ∉ cellsAt p r' x' y' := by
      intro hm
      obtain ⟨d, hd, h1, h2⟩ := (mem_cellsAt _ _ _ _ _ _).1 hm
      obtain ⟨-, -, h3⟩ := hfree d hd
      rw [← h1, ← h2] at h3
      rcases h3 with h3 | h3
      · exact hnz h3
      · exact hold h3
    unfold moveGrid writeCells
    rw [if_neg hnew, if_neg hold]

theorem footprint_has_col0 (p r : Nat) (hp : 1 ≤ p ∧ p ≤ 7) (hr : r ≤ 3) :
    ∃ d ∈ footprint p r, d.2 = 0 := by
  obtain ⟨h1, h2⟩ := hp
  interval_cases p <;> interval_cases r <;> decide

theorem nextRotation_eq (r : Nat) (hr : r ≤ 3) : nextRotation r = (r + 1) % 4 := by
  unfold nextRotation
  split <;> omega

/-- For a placed vertical Z whose `canLeft` is true, the left-shifted footprint is free
as soon as the cell `grid[yPos][xPos]`, which the entry does not test, is empty. -/
theorem vertical_Z_left_free (s : State) (hp : s.piece = 3)
    (hr : s.rotation = 1 ∨ s.rotation = 3)
    (hin : Inside s.piece s.rotation s.xPos s.yPos)
    (hpl : Placed s.grid s.piece s.rotation s.xPos s.yPos)
    (hcl : (checkCollisions s).canLeft = true) (h0 : s.grid s.yPos s.xPos = 0) :
    ∀ d ∈ footprint s.piece s.rotation, 1 ≤ s.xPos + d.2 ∧
      Free s.grid (cellsAt s.piece s.rotation s.xPos s.yPos) (s.yPos + d.1)
        (s.xPos + d.2 - 1) := by
  generalize hP : s.piece = p at *
  generalize hR : s.rotation = r at *
  generalize hX : s.xPos = x at *
  subst hp
  unfold checkCollisions at hcl
  rcases x with _ | x'
  · rcases hr with rfl | rfl <;>
      simp only [hX, Inside, Placed, Free, cellsAt, hP, hR, footprint, setFlags,
      List.mem_cons, List.mem_singleton, List.map_cons, List.map_nil, forall_eq_or_imp,
      forall_eq, Prod.mk.injEq, nz, Bool.or_eq_true, beq_iff_eq, bne_iff_ne, ne_eq,
      decide_eq_true_eq, Nat.add_assoc, Nat.reduceAdd, Nat.add_zero, ite_eq_left_iff,
      ite_eq_right_iff, Bool.false_eq_true, imp_false, not_or, not_not, Bool.true_eq_false,
      Bool.ite_eq_true_distrib, if_false_left, if_true_left, if_false_right, if_true_right,
      List.not_mem_nil, or_false, and_true, true_and, true_or, or_true, and_false, false_and,
      false_or, Nat.reduceMod, Nat.reduceEqDiff, Nat.reduceLTLE, Nat.add_one_sub_one,
      Nat.reduceSub, Nat.add_sub_cancel, not_true_eq_false, not_false_eq_true, OfNat.ofNat_ne_zero,
      OfNat.zero_ne_ofNat, Nat.succ_ne_self, gt_iff_lt, Nat.zero_add, Nat.add_eq_zero, one_ne_zero,
      false_implies, implies_true, Nat.reduceBEq, Nat.reduceBNe, false_iff, iff_false,
      Nat.reduceLeDiff, Nat.not_succ_le_zero, not_and, iff_true, true_iff, ↓reduceIte,
      Nat.reduceLT, Nat.lt_irrefl, Nat.ofNat_pos] at hcl
  · have hd : x' < 65535 → dec (x' + 1) = x' := dec_succ x'
    rcases hr with rfl | rfl <;>
      simp only [hX, Inside, Placed, Free, cellsAt, hP, hR, footprint, setFlags,
      List.mem_cons, List.mem_singleton, List.map_cons, List.map_nil, forall_eq_or_imp,
      forall_eq, Prod.mk.injEq, nz, Bool.or_eq_true, beq_iff_eq, bne_iff_ne, ne_eq,
      decide_eq_true_eq, Nat.add_assoc, Nat.reduceAdd, Nat.add_zero, ite_eq_left_iff,
      ite_eq_right_iff, Bool.false_eq_true, imp_false, not_or, not_not, Bool.true_eq_false,
      Bool.ite_eq_true_distrib, if_false_left, if_true_left, if_false_right, if_true_right,
      List.not_mem_nil, or_false, and_true, true_and, true_or, or_true, and_false, false_and,
      false_or, Nat.reduceMod, Nat.reduceEqDiff, Nat.reduceLTLE, Nat.add_one_sub_one,
      Nat.reduceSub, Nat.add_sub_cancel, not_true_eq_false, not_false_eq_true, OfNat.ofNat_ne_zero,
      OfNat.zero_ne_ofNat, Nat.succ_ne_self, gt_iff_lt, Nat.zero_add, Nat.add_eq_zero, one_ne_zero,
      false_implies, implies_true, Nat.reduceBEq, Nat.reduceBNe, false_iff, iff_false,
      Nat.reduceLeDiff, Nat.not_succ_le_zero, not_and, iff_true, true_iff, ↓reduceIte,
      Nat.reduceLT, Nat.lt_irrefl, Nat.ofNat_pos] at hin hpl hcl h0 ⊢ <;>
      (rw [hd (by omega)] at hcl; omega)

/-- For a placed vertical Z whose `canRight` is true, the right-shifted footprint is
free as soon as the cell `grid[yPos+2][xPos+1]`, which the entry does not test, is
empty. -/
theorem vertical_Z_right_free (s : State) (hp : s.piece = 3)
    (hr : s.rotation = 1 ∨ s.rotation = 3)
    (hin : Inside s.piece s.rotation s.xPos s.yPos)
    (hpl : Placed s.grid s.piece s.rotation s.xPos s.yPos)
    (hcr : (checkCollisions s).canRight = true)
    (h0 : s.grid (s.yPos + 2) (s.xPos + 1) = 0) :
    ∀ d ∈ footprint s.piece s.rotation,
      Free s.grid (cellsAt s.piece s.rotation s.xPos s.yPos) (s.yPos + d.1)
        (s.xPos + d.2 + 1) := by
  generalize hP : s.piece = p at *
  generalize hR : s.rotation = r at *
  subst hp
  unfold checkCollisions at hcr
  rcases hr with rfl | rfl <;>
    simp only [Inside, Placed, Free, cellsAt, hP, hR, footprint, setFlags,
      List.mem_cons, List.mem_singleton, List.map_cons, List.map_nil, forall_eq_or_imp,
      forall_eq, Prod.mk.injEq, nz, Bool.or_eq_true, beq_iff_eq, bne_iff_ne, ne_eq,
      decide_eq_true_eq, Nat.add_assoc, Nat.reduceAdd, Nat.add_zero, ite_eq_left_iff,
      ite_eq_right_iff, Bool.false_eq_true, imp_false, not_or, not_not, Bool.true_eq_false,
      Bool.ite_eq_true_distrib, if_false_left, if_true_left, if_false_right, if_true_right,
      List.not_mem_nil, or_false, and_true, true_and, true_or, or_true, and_false, false_and,
      false_or, Nat.reduceMod, Nat.reduceEqDiff, Nat.reduceLTLE, Nat.add_one_sub_one,
      Nat.reduceSub, Nat.add_sub_cancel, not_true_eq_false, not_false_eq_true, OfNat.ofNat_ne_zero,
      OfNat.zero_ne_ofNat, Nat.succ_ne_self, gt_iff_lt, Nat.zero_add, Nat.add_eq_zero, one_ne_zero,
      false_implies, implies_true, Nat.reduceBEq, Nat.reduceBNe, false_iff, iff_false,
      Nat.reduceLeDiff, Nat.not_succ_le_zero, not_and, iff_true, true_iff, ↓reduceIte,
      Nat.reduceLT, Nat.lt_irrefl, Nat.ofNat_pos] at hin hpl hcr h0 ⊢ <;>
    omega

/-- C5, counterexample. In `lockFullRowState` the live O piece lies inside the grid and
covers no settled cell, and cell (13, 5) is a settled cell; the tick locks the piece and
the line-clear pass deletes row 13, so that cell no longer holds its previous value. -/
theorem tick_lock_changes_settled_cell :
    lockFullRowState.pieceAlive = true ∧ Inside 1 0 0 12 ∧
      Placed lockFullRowState.grid 1 0 0 12 ∧
      lockFullRowState.grid 13 5 ≠ 0 ∧ (13, 5) ∉ cellsAt 1 0 0 12 ∧
      (tick 500 lockFullRowState).grid 13 5 ≠ lockFullRowState.grid 13 5 := by
  set_option maxRecDepth 100000 in decide

/-- On ticks that do not lock the piece, the moves that `checkCollisions` lets through
without their target being free break the piece invariant: the drop on a `canDown`
computed before a left move overwrites the settled cell (12, 3); the left and the right
move of a vertical Z overwrite the settled cells (10, 1) and (13, 5); the rotation of a
vertical Z at column 8 leaves the piece with a cell in column 10. -/
theorem tick_illegal_move_breaks_invariant :
    (lockApplied staleDownState = false ∧ Inside 1 0 4 10 ∧
        Placed staleDownState.grid 1 0 4 10 ∧
        staleDownState.grid 12 3 ≠ 0 ∧ (12, 3) ∉ cellsAt 1 0 4 10 ∧
        (tick 500 staleDownState).grid 12 3 ≠ staleDownState.grid 12 3) ∧
      (lockApplied zLeftMoveState = false ∧ Inside 3 1 1 10 ∧
        Placed zLeftMoveState.grid 3 1 1 10 ∧
        zLeftMoveState.grid 10 1 ≠ 0 ∧ (10, 1) ∉ cellsAt 3 1 1 10 ∧
        (tick 500 zLeftMoveState).grid 10 1 ≠ zLeftMoveState.grid 10 1) ∧
      (lockApplied zRightMoveState = false ∧ Inside 3 1 4 11 ∧
        Placed zRightMoveState.grid 3 1 4 11 ∧
        zRightMoveState.grid 13 5 ≠ 0 ∧ (13, 5) ∉ cellsAt 3 1 4 11 ∧
        (tick 500 zRightMoveState).grid 13 5 ≠ zRightMoveState.grid 13 5) ∧
      (lockApplied zEdgeRotateState = false ∧ Inside 3 1 8 5 ∧
        Placed zEdgeRotateState.grid 3 1 8 5 ∧
        ¬ Inside (tick 500 zEdgeRotateState).piece (tick 500 zEdgeRotateState).rotation
          (tick 500 zEdgeRotateState).xPos (tick 500 zEdgeRotateState).yPos) := by
  set_option maxRecDepth 100000 in
  refine ⟨⟨by decide, by decide, by decide, by decide, by decide, by decide⟩,
    ⟨by decide, by decide, by decide, by decide, by decide, by decide⟩,
    ⟨by decide, by decide, by decide, by decide, by decide, by decide⟩,
    ⟨by decide, by decide, by decide, by decide⟩⟩

/-- Two successive moves of the piece, each onto a free footprint, keep it placed inside
the grid and leave the settled cells as they were. -/
theorem move_twice_invariant (g : Grid) (p r x y r1 x1 y1 y2 : Nat)
    (h1 : ∀ d ∈ footprint p r1, Free g (cellsAt p r x y) (y1 + d.1) (x1 + d.2))
    (h2 : ∀ d ∈ footprint p r1,
      Free (moveGrid p (cellsAt p r x y) (cellsAt p r1 x1 y1) g) (cellsAt p r1 x1 y1)
        (y2 + d.1) (x1 + d.2)) :
    Inside p r1 x1 y2 ∧
      Placed (moveGrid p (cellsAt p r1 x1 y1) (cellsAt p r1 x1 y2)
        (moveGrid p (cellsAt p r x y) (cellsAt p r1 x1 y1) g)) p r1 x1 y2 ∧
      ∀ a b, (a, b) ∉ cellsAt p r x y → g a b ≠ 0 →
        moveGrid p (cellsAt p r1 x1 y1) (cellsAt p r1 x1 y2)
          (moveGrid p (cellsAt p r x y) (cellsAt p r1 x1 y1) g) a b = g a b := by
  obtain ⟨-, -, f1⟩ := move_invariant g p r x y r1 x1 y1 h1
  obtain ⟨i2, p2, f2⟩ :=
    move_invariant (moveGrid p (cellsAt p r x y) (cellsAt p r1 x1 y1) g) p r1 x1 y1 r1 x1 y2 h2
  refine ⟨i2, p2, ?_⟩
  intro a b hold hnz
  have e1 := f1 a b hold hnz
  have hn1 : (a, b) ∉ cellsAt p r1 x1 y1 := by
    intro hm
    obtain ⟨d, hd, ha, hb⟩ := (mem_cellsAt _ _ _ _ _ _).1 hm
    obtain ⟨-, -, h3⟩ := h1 d hd
    rw [← ha, ← hb] at h3
    rcases h3 with h3 | h3
    · exact hnz h3
    · exact hold h3
  rw [f2 a b hn1 (by rw [e1]; exact hnz), e1]

/-- C5, amended. Starting from a state with a live piece placed inside the grid, a tick
that does not lock the piece ends in a state where the piece is again placed inside
the grid and every settled cell (non-zero, outside the old footprint) holds its
previous value, provided the move the tick applies is a legal one in the cases where
`checkCollisions` does not establish it: the cell that the vertical Z entry leaves
untested is empty when that piece is moved left or right; an applied rotation has its
next footprint within rows 0..13 and is not that of a vertical Z or S at column 8; and
when a move and the forced drop are applied in the same tick, the moved piece can
descend (its footprint one row down is free in the grid after the move). -/
theorem tick_keeps_piece_invariant (adc : Nat) (s : State)
    (hp : 1 ≤ s.piece ∧ s.piece ≤ 7) (hr : s.rotation ≤ 3) (halive : s.pieceAlive = true)
    (hin : Inside s.piece s.rotation s.xPos s.yPos)
    (hpl : Placed s.grid s.piece s.rotation s.xPos s.yPos)
    (hlock : lockApplied s = false)
    (hz : s.piece = 3 → s.rotation % 2 = 1 →
      (leftApplied s = true → s.grid s.yPos s.xPos = 0) ∧
        (rightApplied s = true → s.grid (s.yPos + 2) (s.xPos + 1) = 0))
    (hrot : rotateApplied s = true →
      (∀ d ∈ footprint s.piece ((s.rotation + 1) % 4), s.yPos + d.1 < 14) ∧
        ¬((s.piece = 3 ∨ s.piece = 4) ∧ s.rotation % 2 = 1 ∧ s.xPos = 8))
    (hdrop : (leftApplied s || rightApplied s || rotateApplied s) = true →
      dropApplied s = true →
      ∀ d ∈ footprint s.piece (moveTarget s).1,
        Free
          (moveGrid s.piece (cellsAt s.piece s.rotation s.xPos s.yPos)
            (cellsAt s.piece (moveTarget s).1 (moveTarget s).2.1 s.yPos) s.grid)
          (cellsAt s.piece (moveTarget s).1 (moveTarget s).2.1 s.yPos)
          (s.yPos + d.1 + 1) ((moveTarget s).2.1 + d.2)) :
    Inside (tick adc s).piece (tick adc s).rotation (tick adc s).xPos (tick adc s).yPos ∧
      Placed (tick adc s).grid (tick adc s).piece (tick adc s).rotation (tick adc s).xPos
        (tick adc s).yPos ∧
      ∀ a b, (a, b) ∉ cellsAt s.piece s.rotation s.xPos s.yPos → s.grid a b ≠ 0 →
        (tick adc s).grid a b = s.grid a b := by
  obtain ⟨t1, t2, t3, t4, t5⟩ := tick_geo adc s hp hr halive hlock
  rw [t1, t2, t3, t4, t5]
  have hx10 : s.xPos < 10 := by
    obtain ⟨d, hd, -⟩ := footprint_has_col0 s.piece s.rotation hp hr
    have := (hin d hd).2
    omega
  have hy14 : s.yPos < 14 := by
    obtain ⟨d, hd, -⟩ := footprint_has_col0 s.piece s.rotation hp hr
    have := (hin d hd).1
    omega
  have hincy : inc s.yPos = s.yPos + 1 := by
    unfold inc
    omega
  have hodd : s.piece = 3 ∧ s.rotation % 2 = 1 → s.rotation = 1 ∨ s.rotation = 3 := by
    intro h
    omega
  -- the footprint after the move is free, and so is the footprint after a drop that
  -- follows the move
  have finish : ∀ r1 x1,
      moveTarget s = (r1, x1, s.yPos) →
      (leftApplied s || rightApplied s || rotateApplied s) = true →
      (∀ d ∈ footprint s.piece r1,
        Free s.grid (cellsAt s.piece s.rotation s.xPos s.yPos) (s.yPos + d.1) (x1 + d.2)) →
      Inside s.piece (moveTarget s).1 (moveTarget s).2.1
          (if dropApplied s = true then inc s.yPos else s.yPos) ∧
        Placed
          (if dropApplied s = true then
            moveGrid s.piece
              (cellsAt s.piece (moveTarget s).1 (moveTarget s).2.1 s.yPos)
              (cellsAt s.piece (moveTarget s).1 (moveTarget s).2.1 (inc s.yPos))
              (if (leftApplied s || rightApplied s || rotateApplied s) = true then
                moveGrid s.piece (cellsAt s.piece s.rotation s.xPos s.yPos)
                  (cellsAt s.piece (moveTarget s).1 (moveTarget s).2.1 s.yPos) s.grid
               else s.grid)
           else
            (if (leftApplied s || rightApplied s || rotateApplied s) = true then
              moveGrid s.piece (cellsAt s.piece s.rotation s.xPos s.yPos)
                (cellsAt s.piece (moveTarget s).1 (moveTarget s).2.1 s.yPos) s.grid
             else s.grid))
          s.piece (moveTarget s).1 (moveTarget s).2.1
          (if dropApplied s = true then inc s.yPos else s.yPos) ∧
        ∀ a b, (a, b) ∉ cellsAt s.piece s.rotation s.xPos s.yPos → s.grid a b ≠ 0 →
          (if dropApplied s = true then
            moveGrid s.piece
              (cellsAt s.piece (moveTarget s).1 (moveTarget s).2.1 s.yPos)
              (cellsAt s.piece (moveTarget s).1 (moveTarget s).2.1 (inc s.yPos))
              (if (leftApplied s || rightApplied s || rotateApplied s) = true then
                moveGrid s.piece (cellsAt s.piece s.rotation s.xPos s.yPos)
                  (cellsAt s.piece (moveTarget s).1 (moveTarget s).2.1 s.yPos) s.grid
               else s.grid)
           else
            (if (leftApplied s || rightApplied s || rotateApplied s) = true then
              moveGrid s.piece (cellsAt s.piece s.rotation s.xPos s.yPos)
                (cellsAt s.piece (moveTarget s).1 (moveTarget s).2.1 s.yPos) s.grid
             else s.grid)) a b = s.grid a b := by
    intro r1 x1 hmt hmoved hfree
    have hdrop2 := hdrop hmoved
    rw [hmt] at hdrop2 ⊢
    simp only at hdrop2 ⊢
    rw [if_pos hmoved]
    by_cases hD : dropApplied s = true
    · rw [if_pos hD, if_pos hD, hincy]
      apply move_twice_invariant
      · exact hfree
      · intro d hd
        have := hdrop2 hD d hd
        rw [show s.yPos + 1 + d.1 = s.yPos + d.1 + 1 by omega]
        exact this
    · rw [if_neg hD, if_neg hD]
      exact move_invariant _ _ _ _ _ _ _ _ hfree
  by_cases hL : leftApplied s = true
  · have hcl : (checkCollisions s).canLeft = true := by
      unfold leftApplied at hL
      simp only [Bool.and_eq_true] at hL
      exact hL.2
    have hfree : ∀ d ∈ footprint s.piece s.rotation, 1 ≤ s.xPos + d.2 ∧
        Free s.grid (cellsAt s.piece s.rotation s.xPos s.yPos) (s.yPos + d.1)
          (s.xPos + d.2 - 1) := by
      by_cases hzz : s.piece = 3 ∧ s.rotation % 2 = 1
      · exact vertical_Z_left_free s hzz.1 (hodd hzz) hin hpl hcl
          ((hz hzz.1 hzz.2).1 hL)
      · exact (canLeft_iff s hp hr hzz hin hpl).1 hcl
    have hx1 : 1 ≤ s.xPos := by
      obtain ⟨d, hd, h0⟩ := footprint_has_col0 s.piece s.rotation hp hr
      have := (hfree d hd).1
      omega
    have hdec : dec s.xPos = s.xPos - 1 := by
      unfold dec
      omega
    apply finish s.rotation (dec s.xPos)
    · simp only [moveTarget, hL, if_true]
    · simp only [hL, Bool.true_or]
    · intro d hd
      have := (hfree d hd).2
      rw [hdec, show s.xPos - 1 + d.2 = s.xPos + d.2 - 1 by omega]
      exact this
  · by_cases hR : rightApplied s = true
    · have hcr : (checkCollisions s).canRight = true := by
        unfold rightApplied at hR
        simp only [Bool.and_eq_true] at hR
        exact hR.2.2
      have hfree : ∀ d ∈ footprint s.piece s.rotation,
          Free s.grid (cellsAt s.piece s.rotation s.xPos s.yPos) (s.yPos + d.1)
            (s.xPos + d.2 + 1) := by
        by_cases hzz : s.piece = 3 ∧ s.rotation % 2 = 1
        · exact vertical_Z_right_free s hzz.1 (hodd hzz) hin hpl hcr
            ((hz hzz.1 hzz.2).2 hR)
        · exact (canRight_iff s hp hr hzz hin hpl).1 hcr
      have hinc : inc s.xPos = s.xPos + 1 := by
        unfold inc
        omega
      apply finish s.rotation (inc s.xPos)
      · simp only [moveTarget, hL, hR, if_true, if_false, Bool.false_eq_true]
      · simp only [hR, Bool.true_or, Bool.or_true]
      · intro d hd
        have := hfree d hd
        rw [hinc, show s.xPos + 1 + d.2 = s.xPos + d.2 + 1 by omega]
        exact this
    · by_cases hO : rotateApplied s = true
      · have hcr : (checkCollisions s).canRotate = true := by
          unfold rotateApplied at hO
          simp only [Bool.and_eq_true] at hO
          exact hO.2.2
        obtain ⟨hrow, hzs⟩ := hrot hO
        have hfree := (canRotate_iff s hp hr hrow hzs hin hpl).1 hcr
        apply finish (nextRotation s.rotation) s.xPos
        · simp only [moveTarget, hL, hR, hO, if_true, if_false, Bool.false_eq_true]
        · simp only [hO, Bool.or_true]
        · rw [nextRotation_eq s.rotation hr]
          exact hfree
      · by_cases hD : dropApplied s = true
        · have hcd : (checkCollisions s).canDown = true := by
            unfold dropApplied at hD
            simp only [Bool.and_eq_true] at hD
            exact hD.2
          have hfree := (canDown_iff s hp hr hin hpl).1 hcd
          simp only [moveTarget, hL, hR, hO, hD, if_true, if_false, Bool.or_self,
            Bool.false_eq_true]
          rw [hincy]
          apply move_invariant
          intro d hd
          have := hfree d hd
          rw [show s.yPos + 1 + d.1 = s.yPos + d.1 + 1 by omega]
          exact this
        · simp only [moveTarget, hL, hR, hO, hD, if_false, Bool.or_self, Bool.false_eq_true]
          exact ⟨hin, hpl, fun _ _ _ _ => trivial⟩

/-- Witness of the amended C5: `tLeftDropState`, whose tick applies the left move and
the forced drop. -/
theorem tick_keeps_piece_invariant_witness :
    leftApplied tLeftDropState = true ∧ dropApplied tLeftDropState = true ∧
      Inside (tick 500 tLeftDropState).piece (tick 500 tLeftDropState).rotation
        (tick 500 tLeftDropState).xPos (tick 500 tLeftDropState).yPos ∧
      Placed (tick 500 tLeftDropState).grid (tick 500 tLeftDropState).piece
        (tick 500 tLeftDropState).rotation (tick 500 tLeftDropState).xPos
        (tick 500 tLeftDropState).yPos ∧
      ∀ a b, (a, b) ∉ cellsAt tLeftDropState.piece tLeftDropState.rotation
          tLeftDropState.xPos tLeftDropState.yPos → tLeftDropState.grid a b ≠ 0 →
        (tick 500 tLeftDropState).grid a b = tLeftDropState.grid a b :=
  ⟨by decide, by decide,
    tick_keeps_piece_invariant 500 tLeftDropState (by decide) (by decide) (by decide)
      (by decide) (by decide) (by decide) (by decide) (by decide)
      (by set_option maxRecDepth 100000 in decide)⟩

/-! ## Game over at spawn (C10) -/

theorem stepLoop_dead (fuel : Nat) (adc : Nat → Nat) (t : State) (h : t.gameAlive = false) :
    stepLoop fuel adc t = some t := by
  cases fuel with
  | zero =>
    unfold stepLoop
    rw [if_neg (by simp [h])]
  | succ n =>
    unfold stepLoop
    rw [if_neg (by simp [h])]

theorem ctl_fields (a b : State) (h : ctl a = ctl b) :
    a.pieceAlive = b.pieceAlive ∧ a.canDown = b.canDown ∧ a.keyPress = b.keyPress ∧
      a.gameAlive = b.gameAlive ∧ a.dropCounter = b.dropCounter ∧ a.piece = b.piece ∧
      a.rotation = b.rotation ∧ a.xPos = b.xPos ∧ a.yPos = b.yPos ∧
      a.leftKey = b.leftKey ∧ a.rightKey = b.rightKey ∧ a.rotateKey = b.rotateKey :=
  ⟨congrArg Ctl.pieceAlive h, congrArg Ctl.canDown h, congrArg Ctl.keyPress h,
    congrArg Ctl.gameAlive h, congrArg Ctl.dropCounter h, congrArg Ctl.piece h,
    congrArg Ctl.rotation h, congrArg Ctl.xPos h, congrArg Ctl.yPos h,
    congrArg Ctl.leftKey h, congrArg Ctl.rightKey h, congrArg Ctl.rotateKey h⟩

theorem lock_ctl (u : State) :
    (lock u).pieceAlive = false ∧ (lock u).canDown = u.canDown ∧
      (lock u).keyPress = u.keyPress := by
  obtain ⟨h1, h2, h3, -⟩ :=
    ctl_fields _ _ (lineClear_ctl { u with pieceAlive := false })
  unfold lock
  simp only at h1 h2 h3 ⊢
  exact ⟨h1, h2, h3⟩

theorem lockStage_locked (s : State) (h : lockApplied s = true) :
    (lockStage (checkCollisions s)).pieceAlive = false ∧
      (lockStage (checkCollisions s)).canDown = false ∧
      (lockStage (checkCollisions s)).keyPress = s.keyPress := by
  obtain ⟨-, -, -, -, -, -, -, -, -, -, -, ck, -, cg⟩ := checkCollisions_fields s
  unfold lockApplied at h
  simp only [Bool.and_eq_true, Bool.not_eq_true', decide_eq_true_eq] at h
  obtain ⟨hd, hg⟩ := h
  unfold lockStage
  rw [if_pos (by simp [hd])]
  simp only [cg]
  rw [if_pos hg]
  obtain ⟨l1, l2, l3⟩ := lock_ctl { checkCollisions s with graceTime := inc s.graceTime }
  exact ⟨l1, l2.trans hd, l3.trans ck⟩

theorem spawn_gameOver (u : State)
    (hover : ∃ c ∈ cellsAt (u.keyPress % 7 + 1) 0 4 0, u.grid c.1 c.2 ≠ 0) :
    spawn u =
      { spawnSetup u with
        gameAlive := false, pieceAlive := true,
        grid := writeCells (cellsAt (u.keyPress % 7 + 1) 0 4 0) (u.keyPress % 7 + 1) u.grid } := by
  have hp : 1 ≤ (spawnSetup u).piece ∧ (spawnSetup u).piece ≤ 7 := by
    show 1 ≤ u.keyPress % 7 + 1 ∧ u.keyPress % 7 + 1 ≤ 7
    omega
  unfold spawn
  rw [(checkGameOver_cases (spawnSetup u) hp rfl rfl rfl).1 hover,
    placePiece_eq { spawnSetup u with gameAlive := false } hp (Nat.zero_le 3)]
  rfl

/-- C10, counterexample. In `topOutState` the tick locks the O piece and the spawn of
the vertical I detects game over; cell (3, 4) is 0 immediately before the spawn and
holds 2 when the loop exits, because `placePiece` runs after `checkGameOver`. -/
theorem gameOver_spawn_changes_grid :
    topOutState.gameAlive = true ∧
      (checkGameOver (spawnSetup (lockStage (checkCollisions topOutState)))).gameAlive = false ∧
      (lockStage (checkCollisions topOutState)).grid 3 4 = 0 ∧
      (stepLoop 1 (fun _ => 500) topOutState).map (fun t => (t.gameAlive, t.grid 3 4))
        = some (false, 2) := by
  refine ⟨rfl, ?_, ?_, ?_⟩
  · set_option maxRecDepth 100000 in decide
  · set_option maxRecDepth 100000 in decide
  · set_option maxRecDepth 100000 in decide

/-- C10, amended. When a tick locks the piece and the spawn that follows finds one of
its four cells occupied, the step loop exits at the end of that tick with `gameAlive`
false, and the grid at that moment is the grid immediately before the spawn with the
spawned identifier stored in the four spawn cells (`placePiece` still runs after
`checkGameOver`); no other cell is changed. -/
theorem gameOver_spawn_grid (fuel : Nat) (adc : Nat → Nat) (s : State)
    (hga : s.gameAlive = true) (hlock : lockApplied s = true)
    (hover : ∃ c ∈ cellsAt (s.keyPress % 7 + 1) 0 4 0,
      (lockStage (checkCollisions s)).grid c.1 c.2 ≠ 0) :
    ∃ t, stepLoop (fuel + 1) adc s = some t ∧ t.gameAlive = false ∧
      ∀ a b, t.grid a b =
        if (a, b) ∈ cellsAt (s.keyPress % 7 + 1) 0 4 0 then s.keyPress % 7 + 1
        else (lockStage (checkCollisions s)).grid a b := by
  obtain ⟨p1, p2, p3⟩ := lockStage_locked s hlock
  generalize hu : lockStage (checkCollisions s) = u at *
  rw [← p3] at hover ⊢
  have hsp := spawn_gameOver u hover
  have hmv : moveStage u = spawn u := by
    unfold moveStage
    rw [if_pos (by simp [p1])]
  have hdr : dropStage (spawn u) = spawn u := by
    unfold dropStage
    rw [if_neg]
    rw [hsp]
    show ¬ (decide _ && u.canDown) = true
    simp [p2]
  obtain ⟨-, -, -, -, j5, j6⟩ := joystickStage_geo (adc 0) (spawn u)
  have hdead : (joystickStage (adc 0) (spawn u)).gameAlive = false := by
    rw [j6, hsp]
  refine ⟨joystickStage (adc 0) (spawn u), ?_, hdead, ?_⟩
  · unfold stepLoop
    rw [if_pos hga]
    unfold tick
    rw [hu, hmv, hdr]
    exact stepLoop_dead _ _ _ hdead
  · intro a b
    rw [j5, hsp]
    rfl

/-- Witness of the amended C10 on `topOutState`. -/
theorem gameOver_spawn_grid_witness :
    ∃ t, stepLoop (0 + 1) (fun _ => 500) topOutState = some t ∧ t.gameAlive = false ∧
      ∀ a b, t.grid a b =
        if (a, b) ∈ cellsAt (topOutState.keyPress % 7 + 1) 0 4 0
          then topOutState.keyPress % 7 + 1
        else (lockStage (checkCollisions topOutState)).grid a b :=
  gameOver_spawn_grid 0 (fun _ => 500) topOutState rfl
    (by set_option maxRecDepth 100000 in decide)
    (by set_option maxRecDepth 100000 in decide)

/-! ## Progression (C11, C12, C13, C17) -/

theorem setLevelColor_fields (s : State) :
    (setLevelColor s).level = s.level ∧ (setLevelColor s).linesCleared = s.linesCleared ∧
      (setLevelColor s).scoreRow = s.scoreRow ∧
      (setLevelColor s).scoreColumn = s.scoreColumn := by
  unfold setLevelColor
  split <;> exact ⟨rfl, rfl, rfl, rfl⟩

theorem levelUp_fields (u : State) :
    (levelUp u).linesCleared =
        (if u.linesCleared = (u.level * 10) % 65536 then 0 else u.linesCleared) ∧
      (levelUp u).level =
        (if u.linesCleared = (u.level * 10) % 65536 then inc u.level else u.level) ∧
      (levelUp u).scoreRow = u.scoreRow ∧ (levelUp u).scoreColumn = u.scoreColumn := by
  unfold levelUp
  by_cases h : u.linesCleared = u.level * 10 % 65536
  · rw [if_pos (by simp [h]), if_pos h, if_pos h]
    obtain ⟨h1, h2, h3, h4⟩ :=
      setLevelColor_fields { u with level := inc u.level, linesCleared := 0 }
    exact ⟨h2, h1, h3, h4⟩
  · rw [if_neg (by simpa using h), if_neg h, if_neg h]
    exact ⟨rfl, rfl, rfl, rfl⟩

theorem decadeShift_fields (u : State) :
    (decadeShift u).linesCleared = u.linesCleared ∧ (decadeShift u).level = u.level ∧
      (decadeShift u).scoreColumn =
        (if u.linesCleared % 10 = 0 then (u.scoreColumn + 2) % 65536 else u.scoreColumn) ∧
      (decadeShift u).scoreRow = (if u.linesCleared % 10 = 0 then 0 else u.scoreRow) := by
  unfold decadeShift
  by_cases h : u.linesCleared % 10 = 0
  · rw [if_pos (by simp [h]), if_pos h, if_pos h]
    exact ⟨rfl, rfl, rfl, rfl⟩
  · rw [if_neg (by simpa using h), if_neg h, if_neg h]
    exact ⟨rfl, rfl, rfl, rfl⟩

theorem progress_level (s : State) :
    (progress s).linesCleared =
        (if inc s.linesCleared = (s.level * 10) % 65536 then 0 else inc s.linesCleared) ∧
      (progress s).level =
        (if inc s.linesCleared = (s.level * 10) % 65536 then inc s.level else s.level) := by
  obtain ⟨d1, d2, -, -⟩ := decadeShift_fields (countLine s)
  obtain ⟨l1, l2, -, -⟩ := levelUp_fields (decadeShift (countLine s))
  unfold progress
  rw [l1, l2, d1, d2]
  exact ⟨rfl, rfl⟩

theorem progress_score (s : State) :
    (progress s).scoreColumn =
        (if inc s.linesCleared % 10 = 0 then (s.scoreColumn + 2) % 65536
          else s.scoreColumn) ∧
      (progress s).scoreRow =
        (if inc s.linesCleared % 10 = 0 then 0 else (s.scoreRow + 2) % 65536) := by
  obtain ⟨-, -, d3, d4⟩ := decadeShift_fields (countLine s)
  obtain ⟨-, -, l3, l4⟩ := levelUp_fields (decadeShift (countLine s))
  unfold progress
  rw [l3, l4, d3, d4]
  exact ⟨rfl, rfl⟩

/-- C11. Processing one cleared row increments `linesCleared` by one and then, if and
only if the new value equals `level * 10`, increments `level` by one and resets
`linesCleared` to 0; otherwise `level` is unchanged. All operations are those of the
16-bit unsigned type; they are the plain ones for `level` up to 6553 and
`linesCleared` below 65535. -/
theorem progress_level_spec (s : State) :
    ((progress s).linesCleared =
        (if inc s.linesCleared = (s.level * 10) % 65536 then 0 else inc s.linesCleared)) ∧
      ((progress s).level =
        (if inc s.linesCleared = (s.level * 10) % 65536 then inc s.level else s.level)) ∧
      (1 ≤ s.level → s.level ≤ 6553 → s.linesCleared < 65535 →
        (s.linesCleared + 1 = s.level * 10 →
          (progress s).level = s.level + 1 ∧ (progress s).linesCleared = 0) ∧
        (s.linesCleared + 1 ≠ s.level * 10 →
          (progress s).level = s.level ∧
            (progress s).linesCleared = s.linesCleared + 1)) := by
  obtain ⟨h1, h2⟩ := progress_level s
  refine ⟨h1, h2, ?_⟩
  intro hl1 hl2 hlc
  have e1 : inc s.linesCleared = s.linesCleared + 1 := by unfold inc; omega
  have e2 : s.level * 10 % 65536 = s.level * 10 := by omega
  have e3 : inc s.level = s.level + 1 := by unfold inc; omega
  rw [h1, h2, e1, e2, e3]
  constructor
  · intro h
    rw [if_pos h, if_pos h]
    exact ⟨rfl, rfl⟩
  · intro h
    rw [if_neg h, if_neg h]
    exact ⟨rfl, rfl⟩

/-- Witness of the range part of C11 at level 2, `linesCleared` 19: the 20th row of
level 2 raises the level. -/
theorem progress_level_spec_witness :
    (progress (progressState 2 19)).level = 3 ∧
      (progress (progressState 2 19)).linesCleared = 0 :=
  ((progress_level_spec (progressState 2 19)).2.2 (by decide) (by decide) (by decide)).1
    (by decide)

/-- C12. Processing one cleared row: if the incremented in-level counter is a multiple
of 10, `scoreColumn` increases by 2 and `scoreRow` is reset to 0; otherwise `scoreRow`
increases by 2 and `scoreColumn` is unchanged (16-bit unsigned operations, the plain
ones below the wrap). From a fresh game the first cleared row leaves `scoreRow = 2`,
and the 20th cleared row shifts the column (2 to 4) and resets `scoreRow` (18 to 0). -/
theorem progress_score_spec (s : State) :
    (inc s.linesCleared % 10 = 0 →
        (progress s).scoreColumn = (s.scoreColumn + 2) % 65536 ∧
          (progress s).scoreRow = 0) ∧
      (inc s.linesCleared % 10 ≠ 0 →
        (progress s).scoreRow = (s.scoreRow + 2) % 65536 ∧
          (progress s).scoreColumn = s.scoreColumn) ∧
      (s.linesCleared < 65535 → inc s.linesCleared = s.linesCleared + 1) ∧
      (s.scoreColumn < 65534 → (s.scoreColumn + 2) % 65536 = s.scoreColumn + 2) ∧
      (s.scoreRow < 65534 → (s.scoreRow + 2) % 65536 = s.scoreRow + 2) ∧
      (progress initState).scoreRow = 2 ∧ (progress initState).scoreColumn = 0 ∧
      (progress^[19] initState).scoreRow = 18 ∧
      (progress^[19] initState).scoreColumn = 2 ∧
      (progress^[20] initState).scoreRow = 0 ∧
      (progress^[20] initState).scoreColumn = 4 := by
  obtain ⟨h1, h2⟩ := progress_score s
  refine ⟨?_, ?_, ?_, ?_, ?_, ?_, ?_, ?_, ?_, ?_, ?_⟩
  · intro h
    rw [h1, h2, if_pos h, if_pos h]
    exact ⟨rfl, rfl⟩
  · intro h
    rw [h1, h2, if_neg h, if_neg h]
    exact ⟨rfl, rfl⟩
  · intro h
    unfold inc
    omega
  · intro h
    omega
  · intro h
    omega
  all_goals (set_option maxRecDepth 100000 in decide)

/-- C13 (code defect). `setLevelColor` pairs the levels 1..5 with 8..12 and assigns
seven pairwise distinct colours to the levels 1..7, but it has no case for a level above
12: at level 13 the colour stays what it was (0x8CFF after level 12), not the colour
0xAC3F of level 6. -/
theorem setLevelColor_no_case_13 :
    (∀ L, 1 ≤ L → L ≤ 5 →
        (setLevelColor { initState with level := L }).levelColor
          = (setLevelColor { initState with level := L + 7 }).levelColor) ∧
      ((List.range 7).map fun k =>
        (setLevelColor { initState with level := k + 1 }).levelColor).Nodup ∧
      (setLevelColor { initState with level := 12 }).levelColor = 0x8CFF ∧
      (setLevelColor { initState with level := 6 }).levelColor = 0xAC3F ∧
      (∀ c, (setLevelColor { initState with level := 13, levelColor := c }).levelColor = c) ∧
      (setLevelColor { initState with level := 13, levelColor := 0x8CFF }).levelColor
        ≠ (setLevelColor { initState with level := 6, levelColor := 0x8CFF }).levelColor := by
  refine ⟨?_, by decide, by decide, by decide, fun c => rfl, by decide⟩
  intro L h1 h2
  interval_cases L <;> rfl

/-- C17, counterexample. In 16-bit arithmetic the threshold of level 22 is 65050, above
the threshold 680 of level 21. -/
theorem dropThreshold_wraps_at_22 :
    dropThreshold 21 = 680 ∧ dropThreshold (21 + 1) = 65050 ∧
      ¬ dropThreshold (21 + 1) < dropThreshold 21 := by
  decide

/-- C17, amended. For every level L in 1..20 the drop threshold of level L+1 is strictly
below that of level L. -/
theorem dropThreshold_decreasing (L : Nat) (h1 : 1 ≤ L) (h20 : L ≤ 20) :
    dropThreshold (L + 1) < dropThreshold L := by
  interval_cases L <;> decide

/-- Witness of the amended C17 at level 3. -/
theorem dropThreshold_decreasing_witness : dropThreshold (3 + 1) < dropThreshold 3 :=
  dropThreshold_decreasing 3 (by decide) (by decide)

/-! ## Stages of a tick (C14, C15, C16, C18) -/

theorem placePiece_ctl (s : State) : ctl (placePiece s) = ctl s := by
  unfold placePiece
  simp only
  split <;> (try split) <;> rfl

theorem removePiece_ctl (s : State) : ctl (removePiece s) = ctl s := by
  unfold removePiece
  simp only
  split <;> (try split) <;> rfl

theorem checkGameOver_fields (s : State) :
    (checkGameOver s).piece = s.piece ∧ (checkGameOver s).rotation = s.rotation ∧
      (checkGameOver s).xPos = s.xPos ∧ (checkGameOver s).yPos = s.yPos ∧
      (checkGameOver s).leftKey = s.leftKey ∧ (checkGameOver s).rightKey = s.rightKey ∧
      (checkGameOver s).rotateKey = s.rotateKey ∧ (checkGameOver s).grid = s.grid := by
  unfold checkGameOver
  simp only
  split <;> (try split) <;> exact ⟨rfl, rfl, rfl, rfl, rfl, rfl, rfl, rfl⟩

/-- C14. When the move stage starts with `pieceAlive = false`, the piece is spawned with
`xPos = 4`, `yPos = 0`, `rotation = 0` and `piece = (keyPress mod 7) + 1`, which lies
in 1..7; `pieceAlive` becomes true and the three intent flags keep their values. -/
theorem moveStage_spawn_spec (s : State) (h : s.pieceAlive = false) :
    (moveStage s).xPos = 4 ∧ (moveStage s).yPos = 0 ∧ (moveStage s).rotation = 0 ∧
      (moveStage s).piece = s.keyPress % 7 + 1 ∧
      1 ≤ (moveStage s).piece ∧ (moveStage s).piece ≤ 7 ∧
      (moveStage s).pieceAlive = true ∧
      (moveStage s).leftKey = s.leftKey ∧ (moveStage s).rightKey = s.rightKey ∧
      (moveStage s).rotateKey = s.rotateKey := by
  obtain ⟨g1, g2, g3, g4, g5, g6, g7, -⟩ := checkGameOver_fields (spawnSetup s)
  obtain ⟨-, -, -, -, -, p1, p2, p3, p4, p5, p6, p7⟩ :=
    ctl_fields _ _ (placePiece_ctl (checkGameOver (spawnSetup s)))
  have hm : moveStage s = spawn s := by
    unfold moveStage
    rw [if_pos (by simp [h])]
  have hx : (moveStage s).xPos = 4 := by
    rw [hm]
    show (placePiece (checkGameOver (spawnSetup s))).xPos = 4
    rw [p3, g3]
    rfl
  have hy : (moveStage s).yPos = 0 := by
    rw [hm]
    show (placePiece (checkGameOver (spawnSetup s))).yPos = 0
    rw [p4, g4]
    rfl
  have hr : (moveStage s).rotation = 0 := by
    rw [hm]
    show (placePiece (checkGameOver (spawnSetup s))).rotation = 0
    rw [p2, g2]
    rfl
  have hp : (moveStage s).piece = s.keyPress % 7 + 1 := by
    rw [hm]
    show (placePiece (checkGameOver (spawnSetup s))).piece = _
    rw [p1, g1]
    rfl
  have hl : (moveStage s).leftKey = s.leftKey := by
    rw [hm]
    show (placePiece (checkGameOver (spawnSetup s))).leftKey = _
    rw [p5, g5]
    rfl
  have hrk : (moveStage s).rightKey = s.rightKey := by
    rw [hm]
    show (placePiece (checkGameOver (spawnSetup s))).rightKey = _
    rw [p6, g6]
    rfl
  have hro : (moveStage s).rotateKey = s.rotateKey := by
    rw [hm]
    show (placePiece (checkGameOver (spawnSetup s))).rotateKey = _
    rw [p7, g7]
    rfl
  refine ⟨hx, hy, hr, hp, ?_, ?_, ?_, hl, hrk, hro⟩
  · rw [hp]
    omega
  · rw [hp]
    omega
  · rw [hm]
    rfl

/-- Witness of C14 on the initial state, whose `pieceAlive` is false. -/
theorem moveStage_spawn_spec_witness :
    (moveStage initState).xPos = 4 ∧ (moveStage initState).yPos = 0 ∧
      (moveStage initState).rotation = 0 ∧
      (moveStage initState).piece = initState.keyPress % 7 + 1 ∧
      1 ≤ (moveStage initState).piece ∧ (moveStage initState).piece ≤ 7 ∧
      (moveStage initState).pieceAlive = true ∧
      (moveStage initState).leftKey = initState.leftKey ∧
      (moveStage initState).rightKey = initState.rightKey ∧
      (moveStage initState).rotateKey = initState.rotateKey :=
  moveStage_spawn_spec initState rfl

theorem shiftLeft_fields (u : State) :
    (shiftLeft u).piece = u.piece ∧ (shiftLeft u).rotation = u.rotation ∧
      (shiftLeft u).xPos = dec u.xPos ∧ (shiftLeft u).yPos = u.yPos ∧
      (shiftLeft u).leftKey = false ∧ (shiftLeft u).rightKey = u.rightKey ∧
      (shiftLeft u).rotateKey = u.rotateKey := by
  obtain ⟨-, -, -, -, -, r1, r2, r3, r4, -, r6, r7⟩ := ctl_fields _ _ (removePiece_ctl u)
  obtain ⟨-, -, -, -, -, p1, p2, p3, p4, -, p6, p7⟩ :=
    ctl_fields _ _ (placePiece_ctl { removePiece u with xPos := dec (removePiece u).xPos })
  unfold shiftLeft
  refine ⟨?_, ?_, ?_, ?_, rfl, ?_, ?_⟩
  · exact p1.trans r1
  · exact p2.trans r2
  · exact p3.trans (congrArg dec r3)
  · exact p4.trans r4
  · exact p6.trans r6
  · exact p7.trans r7

theorem shiftRight_fields (u : State) :
    (shiftRight u).piece = u.piece ∧ (shiftRight u).rotation = u.rotation ∧
      (shiftRight u).xPos = inc u.xPos ∧ (shiftRight u).yPos = u.yPos ∧
      (shiftRight u).leftKey = u.leftKey ∧ (shiftRight u).rightKey = false ∧
      (shiftRight u).rotateKey = u.rotateKey := by
  obtain ⟨-, -, -, -, -, r1, r2, r3, r4, r5, -, r7⟩ := ctl_fields _ _ (removePiece_ctl u)
  obtain ⟨-, -, -, -, -, p1, p2, p3, p4, p5, -, p7⟩ :=
    ctl_fields _ _ (placePiece_ctl { removePiece u with xPos := inc (removePiece u).xPos })
  unfold shiftRight
  refine ⟨?_, ?_, ?_, ?_, ?_, rfl, ?_⟩
  · exact p1.trans r1
  · exact p2.trans r2
  · exact p3.trans (congrArg inc r3)
  · exact p4.trans r4
  · exact p5.trans r5
  · exact p7.trans r7

theorem rotate_fields (u : State) :
    (rotate u).piece = u.piece ∧ (rotate u).rotation = nextRotation u.rotation ∧
      (rotate u).xPos = u.xPos ∧ (rotate u).yPos = u.yPos ∧
      (rotate u).leftKey = u.leftKey ∧ (rotate u).rightKey = u.rightKey ∧
      (rotate u).rotateKey = false := by
  obtain ⟨-, -, -, -, -, r1, r2, r3, r4, r5, r6, -⟩ := ctl_fields _ _ (removePiece_ctl u)
  obtain ⟨-, -, -, -, -, p1, p2, p3, p4, p5, p6, -⟩ :=
    ctl_fields _ _
      (placePiece_ctl { removePiece u with rotation := nextRotation (removePiece u).rotation })
  unfold rotate
  refine ⟨?_, ?_, ?_, ?_, ?_, ?_, rfl⟩
  · exact p1.trans r1
  · exact p2.trans (congrArg nextRotation r2)
  · exact p3.trans r3
  · exact p4.trans r4
  · exact p5.trans r5
  · exact p6.trans r6

theorem canLeft_xPos_pos (s : State) (h : (checkCollisions s).canLeft = true) :
    s.xPos ≠ 0 := by
  intro hx
  have hf : (checkCollisions s).canLeft = false := by
    unfold checkCollisions
    simp only [hx, beq_self_eq_true, if_true, setFlags]
    split <;> (try split) <;> simp
  rw [hf] at h
  exact Bool.false_ne_true h

/-- C15. With a live piece the move stage applies at most one intent, the first in the
order left, right, rotate whose flag and legality flag are both true: left decrements
`xPos`, right increments `xPos`, rotate sets `rotation` to `(rotation + 1) mod 4`; the
applied intent's flag is cleared and the two others keep their values; with no intent
both set and legal the state is unchanged. Decrement and increment are those of the
16-bit unsigned type (`xPos - 1` for `xPos ≥ 1`, which holds whenever `canLeft` comes
from `checkCollisions`; `xPos + 1` below 65535). -/
theorem moveStage_intent_spec (u : State) (hal : u.pieceAlive = true)
    (hr : u.rotation ≤ 3) :
    ((u.leftKey && u.canLeft) = true →
        (moveStage u).xPos = dec u.xPos ∧ (moveStage u).yPos = u.yPos ∧
          (moveStage u).rotation = u.rotation ∧ (moveStage u).piece = u.piece ∧
          (moveStage u).leftKey = false ∧ (moveStage u).rightKey = u.rightKey ∧
          (moveStage u).rotateKey = u.rotateKey) ∧
      ((u.leftKey && u.canLeft) = false → (u.rightKey && u.canRight) = true →
        (moveStage u).xPos = inc u.xPos ∧ (moveStage u).yPos = u.yPos ∧
          (moveStage u).rotation = u.rotation ∧ (moveStage u).piece = u.piece ∧
          (moveStage u).leftKey = u.leftKey ∧ (moveStage u).rightKey = false ∧
          (moveStage u).rotateKey = u.rotateKey) ∧
      ((u.leftKey && u.canLeft) = false → (u.rightKey && u.canRight) = false →
        (u.rotateKey && u.canRotate) = true →
        (moveStage u).rotation = (u.rotation + 1) % 4 ∧ (moveStage u).xPos = u.xPos ∧
          (moveStage u).yPos = u.yPos ∧ (moveStage u).piece = u.piece ∧
          (moveStage u).leftKey = u.leftKey ∧ (moveStage u).rightKey = u.rightKey ∧
          (moveStage u).rotateKey = false) ∧
      ((u.leftKey && u.canLeft) = false → (u.rightKey && u.canRight) = false →
        (u.rotateKey && u.canRotate) = false → moveStage u = u) ∧
      (1 ≤ u.xPos → u.xPos < 65536 → dec u.xPos = u.xPos - 1) ∧
      (u.xPos < 65535 → inc u.xPos = u.xPos + 1) ∧
      (∀ s, (checkCollisions s).canLeft = true → 1 ≤ s.xPos) := by
  have hna : ¬ (!u.pieceAlive) = true := by simp [hal]
  refine ⟨?_, ?_, ?_, ?_, ?_, ?_, ?_⟩
  · intro hL
    obtain ⟨f1, f2, f3, f4, f5, f6, f7⟩ := shiftLeft_fields u
    unfold moveStage
    rw [if_neg hna, if_pos hL]
    exact ⟨f3, f4, f2, f1, f5, f6, f7⟩
  · intro hL hR
    obtain ⟨f1, f2, f3, f4, f5, f6, f7⟩ := shiftRight_fields u
    unfold moveStage
    rw [if_neg hna, if_neg (by simp [hL]), if_pos hR]
    exact ⟨f3, f4, f2, f1, f5, f6, f7⟩
  · intro hL hR hO
    obtain ⟨f1, f2, f3, f4, f5, f6, f7⟩ := rotate_fields u
    unfold moveStage
    rw [if_neg hna, if_neg (by simp [hL]), if_neg (by simp [hR]), if_pos hO]
    exact ⟨f2.trans (nextRotation_eq u.rotation hr), f3, f4, f1, f5, f6, f7⟩
  · intro hL hR hO
    unfold moveStage
    rw [if_neg hna, if_neg (by simp [hL]), if_neg (by simp [hR]), if_neg (by simp [hO])]
  · intro h1 h2
    unfold dec
    omega
  · intro h
    unfold inc
    omega
  · intro s h
    have := canLeft_xPos_pos s h
    omega

/-- Witness of C15 on `tLeftState`, whose left intent is pending. -/
theorem moveStage_intent_spec_witness :
    (moveStage (checkCollisions tLeftState)).xPos = 3 ∧
      (moveStage (checkCollisions tLeftState)).leftKey = false :=
  ⟨((moveStage_intent_spec (checkCollisions tLeftState) (by decide) (by decide)).1
      (by decide)).1,
    ((moveStage_intent_spec (checkCollisions tLeftState) (by decide) (by decide)).1
      (by decide)).2.2.2.2.1⟩

/-! ## Lock rule (C16) and forced descent (C18) -/

theorem lineClear_rows (s : State) :
    rowsOf (lineClear s).grid = compactRows (rowsOf s.grid) := by
  unfold rowsOf
  rw [lineClear_grid]
  exact (clear_fold_rows s.grid 14).1

theorem lock_rows (u : State) : rowsOf (lock u).grid = compactRows (rowsOf u.grid) := by
  unfold lock
  simp only
  rw [lineClear_rows]

/-- C16. On a tick where `checkCollisions` reports `canDown = false`, `graceTime` is
incremented, and the piece is locked (`pieceAlive` false, line-clear pass run on the
grid, `graceTime` 0) exactly when the incremented `graceTime` exceeds 9000; on a tick
where `canDown` is true nothing is changed by the lock stage. The increment is that of
the 16-bit unsigned type, `graceTime + 1` below 65535. -/
theorem lockStage_spec (s : State) :
    ((checkCollisions s).canDown = false → inc s.graceTime > 9000 →
        lockStage (checkCollisions s)
            = lock { checkCollisions s with graceTime := inc s.graceTime } ∧
          (lockStage (checkCollisions s)).pieceAlive = false ∧
          (lockStage (checkCollisions s)).graceTime = 0 ∧
          rowsOf (lockStage (checkCollisions s)).grid = compactRows (rowsOf s.grid)) ∧
      ((checkCollisions s).canDown = false → inc s.graceTime ≤ 9000 →
        lockStage (checkCollisions s)
            = { checkCollisions s with graceTime := inc s.graceTime } ∧
          (lockStage (checkCollisions s)).pieceAlive = s.pieceAlive ∧
          (lockStage (checkCollisions s)).graceTime = inc s.graceTime ∧
          (lockStage (checkCollisions s)).grid = s.grid) ∧
      ((checkCollisions s).canDown = true →
        lockStage (checkCollisions s) = checkCollisions s ∧
          (lockStage (checkCollisions s)).pieceAlive = s.pieceAlive ∧
          (lockStage (checkCollisions s)).graceTime = s.graceTime ∧
          (lockStage (checkCollisions s)).grid = s.grid) ∧
      (s.graceTime < 65535 → inc s.graceTime = s.graceTime + 1) := by
  obtain ⟨-, -, -, -, cgrid, calive, -, -, -, -, -, -, -, cg⟩ := checkCollisions_fields s
  refine ⟨?_, ?_, ?_, ?_⟩
  · intro hd hg
    have he : lockStage (checkCollisions s)
        = lock { checkCollisions s with graceTime := inc s.graceTime } := by
      unfold lockStage
      rw [if_pos (by simp [hd])]
      simp only [cg]
      rw [if_pos hg]
    obtain ⟨l1, -, -⟩ := lock_ctl { checkCollisions s with graceTime := inc s.graceTime }
    refine ⟨he, ?_, ?_, ?_⟩
    · rw [he]
      exact l1
    · rw [he]
      rfl
    · rw [he, lock_rows]
      show compactRows (rowsOf (checkCollisions s).grid) = _
      rw [cgrid]
  · intro hd hg
    have he : lockStage (checkCollisions s)
        = { checkCollisions s with graceTime := inc s.graceTime } := by
      unfold lockStage
      rw [if_pos (by simp [hd])]
      simp only [cg]
      rw [if_neg (by omega)]
    refine ⟨he, ?_, ?_, ?_⟩
    · rw [he]
      exact calive
    · rw [he]
    · rw [he]
      exact cgrid
  · intro hd
    have he : lockStage (checkCollisions s) = checkCollisions s := by
      unfold lockStage
      rw [if_neg (by simp [hd])]
    refine ⟨he, ?_, ?_, ?_⟩
    · rw [he]
      exact calive
    · rw [he]
      exact cg
    · rw [he]
      exact cgrid
  · intro h
    unfold inc
    omega

/-- C18. For a piece whose footprint lies inside the grid: at the drop check, if
`dropCounter > 24000 - (level-1)*1166` and `canDown` is true, then `yPos` is incremented
by exactly 1, `xPos`, `rotation` and `piece` are unchanged, the old footprint is zeroed
and the new one written (stated where the footprint one row down lies inside the grid),
`keyPress` is incremented and `dropCounter` is 0 when the accumulation of the tick
starts; otherwise the drop stage changes nothing. The increment of `keyPress` is that
of the 16-bit unsigned type. -/
theorem dropStage_spec (v : State) (hp : 1 ≤ v.piece ∧ v.piece ≤ 7)
    (hr : v.rotation ≤ 3) (hin : Inside v.piece v.rotation v.xPos v.yPos) :
    ((v.dropCounter > dropThreshold v.level ∧ v.canDown = true) →
        (dropStage v).yPos = v.yPos + 1 ∧ (dropStage v).xPos = v.xPos ∧
          (dropStage v).rotation = v.rotation ∧ (dropStage v).piece = v.piece ∧
          (Inside v.piece v.rotation v.xPos (v.yPos + 1) →
            ∀ a b, (dropStage v).grid a b =
              if (a, b) ∈ cellsAt v.piece v.rotation v.xPos (v.yPos + 1) then v.piece
              else if (a, b) ∈ cellsAt v.piece v.rotation v.xPos v.yPos then 0
              else v.grid a b) ∧
          (dropStage v).keyPress = inc v.keyPress ∧ (dropStage v).dropCounter = 0) ∧
      (¬(v.dropCounter > dropThreshold v.level ∧ v.canDown = true) →
        dropStage v = v) ∧
      (v.keyPress < 65535 → inc v.keyPress = v.keyPress + 1) := by
  have hy : v.yPos < 14 := by
    obtain ⟨d, hd, -⟩ := footprint_has_col0 v.piece v.rotation hp hr
    have := (hin d hd).1
    omega
  have hinc : inc v.yPos = v.yPos + 1 := by
    unfold inc
    omega
  refine ⟨?_, ?_, ?_⟩
  · intro h
    have hc : (decide (v.dropCounter > dropThreshold v.level) && v.canDown) = true := by
      simp [h.1, h.2]
    unfold dropStage
    rw [if_pos hc, dropOne_eq v hp hr, hinc]
    exact ⟨rfl, rfl, rfl, rfl, fun _ _ _ => rfl, rfl, rfl⟩
  · intro h
    have hc : ¬ (decide (v.dropCounter > dropThreshold v.level) && v.canDown) = true := by
      simpa using h
    unfold dropStage
    rw [if_neg hc]
  · intro h
    unfold inc
    omega

/-- Witness of C18 on `tDropState` after `checkCollisions`: the T piece moves from row 5
to row 6. -/
theorem dropStage_spec_witness :
    (dropStage (checkCollisions tDropState)).yPos = 5 + 1 ∧
      (dropStage (checkCollisions tDropState)).dropCounter = 0 ∧
      Inside 7 0 4 (5 + 1) :=
  ⟨((dropStage_spec (checkCollisions tDropState) (by decide) (by decide) (by decide)).1
      (by decide)).1,
    ((dropStage_spec (checkCollisions tDropState) (by decide) (by decide) (by decide)).1
      (by decide)).2.2.2.2.2.2,
    by decide⟩

/-! ## Restart reset (C20) and grid value invariant (C19) -/

theorem zero_inner (i n : Nat) (s : State) :
    ((List.range n).foldl (fun s j => { s with grid := wr i j 0 s.grid }) s).grid
      = fun a b => if a = i ∧ b < n then 0 else s.grid a b := by
  induction n with
  | zero =>
    funext a b
    simp
  | succ n ih =>
    have hrs : List.range (n + 1) = List.range n ++ [n] := by rw [List.range_succ]
    rw [hrs, List.foldl_append]
    simp only [List.foldl_cons, List.foldl_nil, ih]
    funext a b
    unfold wr
    by_cases h1 : a = i ∧ b = n
    · rw [if_pos h1, if_pos ⟨h1.1, by omega⟩]
    · rw [if_neg h1]
      beta_reduce
      by_cases h2 : a = i ∧ b < n
      · rw [if_pos h2, if_pos ⟨h2.1, by omega⟩]
      · rw [if_neg h2, if_neg (by omega)]

theorem zero_outer (m : Nat) (s : State) :
    ((List.range m).foldl
        (fun s i => (List.range 10).foldl (fun s j => { s with grid := wr i j 0 s.grid }) s)
        s).grid
      = fun a b => if a < m ∧ b < 10 then 0 else s.grid a b := by
  induction m with
  | zero =>
    funext a b
    simp
  | succ m ih =>
    have hrs : List.range (m + 1) = List.range m ++ [m] := by rw [List.range_succ]
    rw [hrs, List.foldl_append]
    simp only [List.foldl_cons, List.foldl_nil]
    rw [zero_inner, ih]
    funext a b
    simp only
    by_cases h1 : a = m ∧ b < 10
    · rw [if_pos h1, if_pos ⟨by omega, h1.2⟩]
    · rw [if_neg h1]
      by_cases h2 : a < m ∧ b < 10
      · rw [if_pos h2, if_pos ⟨by omega, h2.2⟩]
      · rw [if_neg h2, if_neg (by omega)]

theorem zeroGrid_grid (s : State) :
    (zeroGrid s).grid = fun a b => if a < 14 ∧ b < 10 then 0 else s.grid a b := by
  unfold zeroGrid
  exact zero_outer 14 s

theorem zeroGrid_frame (s : State) :
    ({ zeroGrid s with grid := fun _ _ => 0 } : State) = { s with grid := fun _ _ => 0 } := by
  unfold zeroGrid
  apply foldl_frame (fun t : State => ({ t with grid := fun _ _ => 0 } : State))
  intro s i
  apply foldl_frame (fun t : State => ({ t with grid := fun _ _ => 0 } : State))
  intro s j
  rfl

theorem restartReset_fields (s : State) :
    (restartReset s).level = 1 ∧ (restartReset s).linesCleared = 0 ∧
      (restartReset s).scoreRow = 0 ∧ (restartReset s).scoreColumn = 0 ∧
      (restartReset s).levelColor = 0xAEBB ∧ (restartReset s).dropCounter = 0 ∧
      (restartReset s).keyPress = 1 ∧ (restartReset s).pieceAlive = false ∧
      (restartReset s).gameAlive = true ∧ (restartReset s).leftKey = false ∧
      (restartReset s).rightKey = false ∧ (restartReset s).rotateKey = false ∧
      (restartReset s).start = true := by
  have hz := zeroGrid_frame
    { s with
      level := 1, linesCleared := 0, scoreVerticlePosition := 0, dropCounter := 0,
      keyPress := 1, levelColor := 0xAEBB, scoreColumn := 0, scoreRow := 0,
      pieceAlive := false, leftKey := false, rightKey := false, rotateKey := false,
      fullLine := false, canRotate := true, canRight := true, canLeft := true,
      canDown := true, gameAlive := true, start := true }
  unfold restartReset
  exact ⟨congrArg State.level hz, congrArg State.linesCleared hz,
    congrArg State.scoreRow hz, congrArg State.scoreColumn hz,
    congrArg State.levelColor hz, congrArg State.dropCounter hz,
    congrArg State.keyPress hz, congrArg State.pieceAlive hz,
    congrArg State.gameAlive hz, congrArg State.leftKey hz, congrArg State.rightKey hz,
    congrArg State.rotateKey hz, congrArg State.start hz⟩

/-- C20. When the pressure `z` read after game over exceeds 100, the reset leaves every
one of the 140 grid cells 0 and restores `level = 1`, `linesCleared = 0`,
`scoreRow = 0`, `scoreColumn = 0`, `levelColor = 0xAEBB`, `dropCounter = 0`,
`keyPress = 1`, `pieceAlive = false`, `gameAlive = true` and the three intent flags
false, whatever the state in which the game ended; when `z ≤ 100` the statement changes
no variable (the iteration only stores the sample in `z`). -/
theorem restartIf_spec (s : State) :
    (s.z > 100 →
        (∀ a b, a < 14 → b < 10 → (restartIf s).grid a b = 0) ∧
          (restartIf s).level = 1 ∧ (restartIf s).linesCleared = 0 ∧
          (restartIf s).scoreRow = 0 ∧ (restartIf s).scoreColumn = 0 ∧
          (restartIf s).levelColor = 0xAEBB ∧ (restartIf s).dropCounter = 0 ∧
          (restartIf s).keyPress = 1 ∧ (restartIf s).pieceAlive = false ∧
          (restartIf s).gameAlive = true ∧ (restartIf s).leftKey = false ∧
          (restartIf s).rightKey = false ∧ (restartIf s).rotateKey = false) ∧
      (s.z ≤ 100 → restartIf s = s) ∧
      (∀ z0 z1, (readTS z0 z1 s).z ≤ 100 →
        restartBody z0 z1 s = { s with z := (1023 + 65536 - z0 % 65536 + z1) % 65536 }) := by
  refine ⟨?_, ?_, ?_⟩
  · intro h
    obtain ⟨f1, f2, f3, f4, f5, f6, f7, f8, f9, f10, f11, f12, -⟩ := restartReset_fields s
    have he : restartIf s = restartReset s := by
      unfold restartIf
      rw [if_pos h]
    rw [he]
    refine ⟨?_, f1, f2, f3, f4, f5, f6, f7, f8, f9, f10, f11, f12⟩
    intro a b ha hb
    unfold restartReset
    rw [zeroGrid_grid]
    beta_reduce
    rw [if_pos ⟨ha, hb⟩]
  · intro h
    unfold restartIf
    rw [if_neg (by omega)]
  · intro z0 z1 h
    unfold restartBody restartIf
    rw [if_neg (by omega)]
    rfl

theorem placePiece_cell (s : State) (a b : Nat) :
    (placePiece s).grid a b = s.grid a b ∨ (placePiece s).grid a b = s.piece := by
  unfold placePiece
  simp only
  split <;> (try split) <;> simp only [wr] <;> (try split_ifs) <;> simp

theorem removePiece_cell (s : State) (a b : Nat) :
    (removePiece s).grid a b = s.grid a b ∨ (removePiece s).grid a b = 0 := by
  unfold removePiece
  simp only
  split <;> (try split) <;> simp only [wr] <;> (try split_ifs) <;> simp

theorem shiftG_range (i : Nat) (g : Grid) (h : CellsInRange g) :
    CellsInRange (shiftG i g) := by
  intro a b ha hb
  unfold shiftG
  split_ifs
  · exact Nat.zero_le 7
  · exact h (a - 1) b (by omega) hb
  · exact h a b ha hb

theorem clearRowG_range (g : Grid) (i : Nat) (h : CellsInRange g) :
    CellsInRange (clearRowG g i) := by
  unfold clearRowG
  split
  · exact shiftG_range i g h
  · exact h

theorem clear_fold_range (l : List Nat) (g : Grid) (h : CellsInRange g) :
    CellsInRange (l.foldl clearRowG g) := by
  induction l generalizing g with
  | nil => exact h
  | cons i l ih =>
    simp only [List.foldl_cons]
    exact ih _ (clearRowG_range g i h)

/-- C19. If every cell of the grid is in 0..7 and `piece` is in 1..7, then every cell of
the grid is still in 0..7 after `placePiece`, after `removePiece`, after the line-clear
pass and after the restart reset. -/
theorem cells_in_range_preserved (s : State) (hg : CellsInRange s.grid)
    (hp : 1 ≤ s.piece ∧ s.piece ≤ 7) :
    CellsInRange (placePiece s).grid ∧ CellsInRange (removePiece s).grid ∧
      CellsInRange (lineClear s).grid ∧ CellsInRange (restartReset s).grid := by
  refine ⟨?_, ?_, ?_, ?_⟩
  · intro a b ha hb
    rcases placePiece_cell s a b with h | h
    · rw [h]
      exact hg a b ha hb
    · rw [h]
      exact hp.2
  · intro a b ha hb
    rcases removePiece_cell s a b with h | h
    · rw [h]
      exact hg a b ha hb
    · rw [h]
      exact Nat.zero_le 7
  · rw [lineClear_grid]
    exact clear_fold_range _ _ hg
  · intro a b ha hb
    unfold restartReset
    rw [zeroGrid_grid]
    beta_reduce
    rw [if_pos ⟨ha, hb⟩]
    exact Nat.zero_le 7

theorem gridOf_range (rows : List (List Nat)) (h : ∀ row ∈ rows, ∀ v ∈ row, v ≤ 7) :
    CellsInRange (gridOf rows) := by
  intro a b _ _
  unfold gridOf
  rw [List.getD_eq_getElem?_getD, List.getD_eq_getElem?_getD]
  cases hr : rows[a]? with
  | none => simp
  | some row =>
    cases hv : row[b]? with
    | none => simp [hv]
    | some v =>
      simp only [Option.getD_some, hv]
      exact h row (List.getElem?_mem hr) v (List.getElem?_mem hv)

/-- Witness of C19 on `tMidState`. -/
theorem cells_in_range_preserved_witness :
    CellsInRange (placePiece tMidState).grid ∧ CellsInRange (removePiece tMidState).grid ∧
      CellsInRange (lineClear tMidState).grid ∧
      CellsInRange (restartReset tMidState).grid :=
  cells_in_range_preserved tMidState (gridOf_range _ (by decide)) (by decide)

/-! ## Grid elements read by `checkCollisions` -/

theorem ite_false_else (c b : Bool) : (if c = true then false else b) = (!c && b) := by
  cases c <;> rfl

/-- The flags that `checkCollisions` stores are the negated values of the `||` chains
listed in `collisionChecks` (with the test `xPos == 0` in front of the first one). -/
theorem checkCollisions_chainValue (s : State) (hp : 1 ≤ s.piece ∧ s.piece ≤ 7)
    (hr : s.rotation ≤ 3) :
    (checkCollisions s).canLeft
        = (!chainValue s.grid ((collisionChecks s).getD 0 []) && !(s.xPos == 0)) ∧
      (checkCollisions s).canRight = !chainValue s.grid ((collisionChecks s).getD 1 []) ∧
      (checkCollisions s).canDown
        = !chainValue s.grid ((collisionChecks s).getLast?.getD []) := by
  obtain ⟨h1, h2⟩ := hp
  generalize hP : s.piece = p at *
  generalize hR : s.rotation = r at *
  unfold checkCollisions collisionChecks
  interval_cases p <;> interval_cases r <;>
    simp only [hP, hR, setFlags, chainValue, List.getD_cons_zero, List.getD_cons_succ,
      List.getLast?, List.getLast, Option.getD_some, Bool.or_false, Bool.or_assoc,
      ite_false_else, Bool.and_true, and_self]

/-- The `canDown` conditions test the row bound first: for a piece whose footprint lies
inside the grid, every grid element they evaluate lies inside the array. -/
theorem canDown_reads_inside (s : State) (hp : 1 ≤ s.piece ∧ s.piece ≤ 7)
    (hr : s.rotation ≤ 3) (hin : Inside s.piece s.rotation s.xPos s.yPos) :
    ∀ rc ∈ chainReads s.grid ((collisionChecks s).getLast?.getD []),
      rc.1 < 14 ∧ rc.2 < 10 := by
  obtain ⟨h1, h2⟩ := hp
  generalize hP : s.piece = p at *
  generalize hR : s.rotation = r at *
  unfold collisionChecks
  interval_cases p <;> interval_cases r <;>
    simp only [hP, hR, List.getLast?, List.getLast, Option.getD_some, chainReads,
      Inside, Placed, Free, cellsAt, hP, hR, footprint, setFlags,
      List.mem_cons, List.mem_singleton, List.map_cons, List.map_nil, forall_eq_or_imp,
      forall_eq, Prod.mk.injEq, nz, Bool.or_eq_true, beq_iff_eq, bne_iff_ne, ne_eq,
      decide_eq_true_eq, Nat.add_assoc, Nat.reduceAdd, Nat.add_zero, ite_eq_left_iff,
      ite_eq_right_iff, Bool.false_eq_true, imp_false, not_or, not_not, Bool.true_eq_false,
      Bool.ite_eq_true_distrib, if_false_left, if_true_left, if_false_right, if_true_right,
      List.not_mem_nil, or_false, and_true, true_and, true_or, or_true, and_false, false_and,
      false_or, Nat.reduceMod, Nat.reduceEqDiff, Nat.reduceLTLE, Nat.add_one_sub_one,
      Nat.reduceSub, Nat.add_sub_cancel, not_true_eq_false, not_false_eq_true, OfNat.ofNat_ne_zero,
      OfNat.zero_ne_ofNat, Nat.succ_ne_self, gt_iff_lt, Nat.zero_add, Nat.add_eq_zero, one_ne_zero,
      false_implies, implies_true, Nat.reduceBEq, Nat.reduceBNe, false_iff, iff_false,
      Nat.reduceLeDiff, Nat.not_succ_le_zero, not_and, iff_true, true_iff, ↓reduceIte,
      Nat.reduceLT, Nat.lt_irrefl, Nat.ofNat_pos] at hin ⊢ <;>
    rintro ⟨a, b⟩ hab <;>
    split_ifs at hab <;>
    simp only [List.mem_cons, List.mem_singleton, List.not_mem_nil, Prod.mk.injEq, or_false,
      List.mem_ite_nil_right, false_or] at hab <;>
    omega

/-- C21 (evaluated on the code): `checkCollisions` reads grid elements whose index lies
outside the array. For an O piece at column 0 it evaluates `grid[5][xPos - 1]` with
`xPos - 1 = 65535`; for an O piece at its right-most legal column 8 it evaluates
`grid[5][10]` before the test `xPos == 8`; for a horizontal I on the floor (row 13) the
rotation check evaluates `grid[14][3]`. -/
theorem checkCollisions_reads_outside_grid :
    (Inside 1 0 0 5 ∧ (5, 65535) ∈ checkCollisionsReads oLeftEdgeState) ∧
      (Inside 1 0 8 5 ∧ (5, 10) ∈ checkCollisionsReads oRightEdgeState) ∧
      (Inside 2 1 3 13 ∧ (14, 3) ∈ checkCollisionsReads iFloorState) := by
  refine ⟨⟨by decide, by decide⟩, ⟨by decide, by decide⟩, ⟨by decide, by decide⟩⟩

/-! ## Translations stay inside the grid -/

/-- C26: for a piece with identity 1..7 and orientation 0..3 whose footprint lies
inside the grid, and for every grid content: if `checkCollisions` reports `canLeft`
(respectively `canRight`, `canDown`) as true, then the footprint shifted one cell left
(respectively right, down) lies inside the 14x10 grid; the horizontal I (identity 2,
orientation 1 or 3) has `canRight = false` at `xPos = 6`. -/
theorem checkCollisions_translations_inside (s : State) (hp : 1 ≤ s.piece ∧ s.piece ≤ 7)
    (hr : s.rotation ≤ 3) (hin : Inside s.piece s.rotation s.xPos s.yPos) :
    ((checkCollisions s).canLeft = true →
        1 ≤ s.xPos ∧ dec s.xPos = s.xPos - 1 ∧
          Inside s.piece s.rotation (s.xPos - 1) s.yPos) ∧
      ((checkCollisions s).canRight = true →
        Inside s.piece s.rotation (s.xPos + 1) s.yPos) ∧
      ((checkCollisions s).canDown = true →
        Inside s.piece s.rotation s.xPos (s.yPos + 1)) ∧
      (s.piece = 2 → s.rotation = 1 ∨ s.rotation = 3 → s.xPos = 6 →
        (checkCollisions s).canRight = false) := by
  refine ⟨?_, ?_⟩
  · intro h
    have hx : s.xPos ≠ 0 := canLeft_xPos_pos s h
    obtain ⟨d, hd, hd0⟩ := footprint_has_col0 s.piece s.rotation hp hr
    have hlt := (hin d hd).2
    refine ⟨by omega, by unfold dec; omega, ?_⟩
    intro e he
    have := hin e he
    omega
  · obtain ⟨h1, h2⟩ := hp
    generalize hP : s.piece = p at *
    generalize hR : s.rotation = r at *
    unfold checkCollisions
    interval_cases p <;> interval_cases r <;>
      simp only [Inside, Placed, Free, cellsAt, hP, hR, footprint, setFlags,
      List.mem_cons, List.mem_singleton, List.map_cons, List.map_nil, forall_eq_or_imp,
      forall_eq, Prod.mk.injEq, nz, Bool.or_eq_true, beq_iff_eq, bne_iff_ne, ne_eq,
      decide_eq_true_eq, Nat.add_assoc, Nat.reduceAdd, Nat.add_zero, ite_eq_left_iff,
      ite_eq_right_iff, Bool.false_eq_true, imp_false, not_or, not_not, Bool.true_eq_false,
      Bool.ite_eq_true_distrib, if_false_left, if_true_left, if_false_right, if_true_right,
      List.not_mem_nil, or_false, and_true, true_and, true_or, or_true, and_false, false_and,
      false_or, Nat.reduceMod, Nat.reduceEqDiff, Nat.reduceLTLE, Nat.add_one_sub_one,
      Nat.reduceSub, Nat.add_sub_cancel, not_true_eq_false, not_false_eq_true, OfNat.ofNat_ne_zero,
      OfNat.zero_ne_ofNat, Nat.succ_ne_self, gt_iff_lt, Nat.zero_add, Nat.add_eq_zero, one_ne_zero,
      false_implies, implies_true, Nat.reduceBEq, Nat.reduceBNe, false_iff, iff_false,
      Nat.reduceLeDiff, Nat.not_succ_le_zero, not_and, iff_true, true_iff, ↓reduceIte,
      Nat.reduceLT, Nat.lt_irrefl, Nat.ofNat_pos] at hin ⊢ <;>
      omega

theorem checkCollisions_translations_inside_witness :
    ((checkCollisions tMidState).canLeft = true →
        1 ≤ 4 ∧ dec 4 = 4 - 1 ∧ Inside 7 0 (4 - 1) 5) ∧
      ((checkCollisions tMidState).canRight = true → Inside 7 0 (4 + 1) 5) ∧
      ((checkCollisions tMidState).canDown = true → Inside 7 0 4 (5 + 1)) ∧
      ((7 : Nat) = 2 → (0 : Nat) = 1 ∨ (0 : Nat) = 3 → (4 : Nat) = 6 →
        (checkCollisions tMidState).canRight = false) :=
  checkCollisions_translations_inside tMidState (by decide) (by decide) (by decide)

/-! ## Level as a function of the rows cleared -/

theorem levelStart_eq (k : Nat) : levelStart k = 5 * k * (k + 1) := by
  induction k with
  | zero => rfl
  | succ k ih =>
    unfold levelStart
    rw [ih]
    ring

theorem progress_iterate (n : Nat) :
    ∀ k, k ≤ 6552 → levelStart k ≤ n → n < levelStart (k + 1) →
      (progress^[n] initState).level = k + 1 ∧
        (progress^[n] initState).linesCleared = n - levelStart k := by
  induction n with
  | zero =>
    intro k _ h1 _
    have hk : k = 0 := by
      rcases k with _ | k
      · rfl
      · unfold levelStart at h1
        omega
    subst hk
    exact ⟨rfl, rfl⟩
  | succ n ih =>
    intro k hk h1 h2
    rw [Function.iterate_succ_apply']
    obtain ⟨p1, p2⟩ := progress_level (progress^[n] initState)
    have hs : levelStart (k + 1) = levelStart k + 10 * (k + 1) := rfl
    by_cases hn : levelStart k ≤ n
    · obtain ⟨e1, e2⟩ := ih k hk hn (by omega)
      rw [p1, p2, e1, e2]
      have hinc : inc (n - levelStart k) = n - levelStart k + 1 := by
        unfold inc
        omega
      have hmod : (k + 1) * 10 % 65536 = (k + 1) * 10 := by omega
      rw [hinc, hmod, if_neg (by omega), if_neg (by omega)]
      exact ⟨rfl, by omega⟩
    · rcases k with _ | k
      · exact absurd (Nat.zero_le n) hn
      · have hs2 : levelStart (k + 1) = levelStart k + 10 * (k + 1) := rfl
        obtain ⟨e1, e2⟩ := ih k (by omega) (by omega) (by omega)
        rw [p1, p2, e1, e2]
        have hinc : inc (n - levelStart k) = n - levelStart k + 1 := by
          unfold inc
          omega
        have hmod : (k + 1) * 10 % 65536 = (k + 1) * 10 := by omega
        rw [hinc, hmod, if_pos (by omega), if_pos (by omega)]
        refine ⟨?_, by omega⟩
        unfold inc
        omega

/-- C24 as stated fails: after 20 cleared rows from a fresh game the level is 2, not
`1 + 20 / 10 = 3`; level 2 lasts 20 rows. -/
theorem level_after_20_rows :
    (progress^[20] initState).level = 2 ∧
      ¬ (progress^[20] initState).level = 1 + 20 / 10 := by
  have h := progress_iterate 20 1 (by decide) (by decide) (by decide)
  rw [h.1]
  decide

/-- C24, amended. From a fresh game the level increments, and the in-level counter
resets to 0, each time the in-level counter reaches `level * 10`: after `n` cleared
rows the level is `k + 1` for the `k` with `5k(k+1) ≤ n < 5(k+1)(k+2)`, and the in-level
counter is `n - 5k(k+1)` (as long as `level * 10` fits the 16-bit type, `k ≤ 6552`). -/
theorem level_after_rows (n k : Nat) (hk : k ≤ 6552) (h1 : 5 * k * (k + 1) ≤ n)
    (h2 : n < 5 * (k + 1) * (k + 2)) :
    (progress^[n] initState).level = k + 1 ∧
      (progress^[n] initState).linesCleared = n - 5 * k * (k + 1) := by
  have e1 := levelStart_eq k
  have e2 := levelStart_eq (k + 1)
  have h := progress_iterate n k hk (by rw [e1]; exact h1) (by rw [e2]; exact h2)
  rw [e1] at h
  exact h

theorem level_after_rows_witness :
    (progress^[30] initState).level = 2 + 1 ∧
      (progress^[30] initState).linesCleared = 30 - 5 * 2 * (2 + 1) :=
  level_after_rows 30 2 (by decide) (by decide) (by decide)

/-! ## No full row after the line-clear pass -/

theorem isFull_zeroRow : isFull (List.replicate 10 0) = false := by decide

theorem compactRows_notFull (rows : List (List Nat)) :
    ∀ row ∈ compactRows rows, isFull row = false := by
  intro row h
  unfold compactRows at h
  simp only [List.mem_append, List.mem_replicate, List.mem_filter, Bool.not_eq_true',
    ne_eq] at h
  rcases h with ⟨-, rfl⟩ | ⟨-, h⟩
  · exact isFull_zeroRow
  · exact h

theorem compactRows_adjacent_full (A B : List (List Nat)) (x y : List Nat)
    (hx : isFull x = true) (hy : isFull y = true)
    (hA : ∀ w ∈ A, isFull w = false) (hB : ∀ w ∈ B, isFull w = false) :
    compactRows (A ++ x :: y :: B)
      = List.replicate 10 0 :: List.replicate 10 0 :: (A ++ B) := by
  unfold compactRows
  simp only [List.filter_append, List.filter_cons, hx, hy, Bool.not_true,
    Bool.false_eq_true, if_false, filter_notFull_self A hA,
    filter_notFull_self B hB, List.length_append, List.length_cons]
  rw [show A.length + (B.length + 1 + 1) - (A.length + B.length) = 2 by omega]
  rfl

/-- C27. After one line-clear pass no row of the grid is full: every row `i < 14` of
the result contains a zero. When the input has two adjacent full rows (and no other
full row), both are removed in the one pass: the result is two zero rows on top of the
remaining rows in their order. -/
theorem lineClear_no_full_row (s : State) :
    (∀ i, i < 14 → isFull (rowOf (lineClear s).grid i) = false) ∧
      (∀ i, i < 14 → ∃ j, j < 10 ∧ (lineClear s).grid i j = 0) ∧
      (∀ A x y B, rowsOf s.grid = A ++ x :: y :: B → isFull x = true → isFull y = true →
        (∀ w ∈ A, isFull w = false) → (∀ w ∈ B, isFull w = false) →
        rowsOf (lineClear s).grid
          = List.replicate 10 0 :: List.replicate 10 0 :: (A ++ B)) := by
  have hrows := lineClear_rows s
  have hnf : ∀ i, i < 14 → isFull (rowOf (lineClear s).grid i) = false := by
    intro i hi
    apply compactRows_notFull (rowsOf s.grid)
    rw [← hrows]
    unfold rowsOf
    exact List.mem_map.mpr ⟨i, List.mem_range.mpr hi, rfl⟩
  refine ⟨hnf, ?_, ?_⟩
  · intro i hi
    have h := hnf i hi
    unfold isFull rowOf at h
    rw [List.all_eq_false] at h
    obtain ⟨v, hv, hv0⟩ := h
    obtain ⟨j, hj, rfl⟩ := List.mem_map.mp hv
    refine ⟨j, List.mem_range.mp hj, ?_⟩
    simpa using hv0
  · intro A x y B hsplit hx hy hA hB
    rw [hrows, hsplit]
    exact compactRows_adjacent_full A B x y hx hy hA hB

/-! ## Soft-drop bands -/

theorem joystickStage_dropCounter (adc : Nat) (s : State) :
    (joystickStage adc s).dropCounter = (s.dropCounter + bandIncrement adc) % 65536 := by
  unfold joystickStage bandIncrement inc
  simp only
  split_ifs <;> simp only <;> omega

/-- C28. For every joystick sample, one tick adds to `dropCounter` (in the 16-bit
unsigned arithmetic of the variable) 24001 if the sample is below 100, 501 if it is in
100..199, 101 if it is in 200..454 and 1 from 455 on; the sum is the plain sum when it
stays below 65536. The amount is non-increasing in the sample and takes exactly the
four values 24001, 501, 101 and 1. -/
theorem joystickStage_banding (adc : Nat) (s : State) :
    (joystickStage adc s).dropCounter = (s.dropCounter + bandIncrement adc) % 65536 ∧
      (tick adc s).dropCounter
        = ((dropStage (moveStage (lockStage (checkCollisions s)))).dropCounter
            + bandIncrement adc) % 65536 ∧
      (s.dropCounter + bandIncrement adc < 65536 →
        (joystickStage adc s).dropCounter = s.dropCounter + bandIncrement adc) ∧
      (adc < 100 → bandIncrement adc = 24001) ∧
      (100 ≤ adc → adc < 200 → bandIncrement adc = 501) ∧
      (200 ≤ adc → adc < 455 → bandIncrement adc = 101) ∧
      (455 ≤ adc → bandIncrement adc = 1) ∧
      (∀ a b, a ≤ b → bandIncrement b ≤ bandIncrement a) ∧
      (∀ v, (∃ a, bandIncrement a = v) ↔ v = 24001 ∨ v = 501 ∨ v = 101 ∨ v = 1) := by
  refine ⟨joystickStage_dropCounter adc s, ?_, ?_, ?_, ?_, ?_, ?_, ?_, ?_⟩
  · unfold tick
    exact joystickStage_dropCounter adc _
  · intro h
    rw [joystickStage_dropCounter, Nat.mod_eq_of_lt h]
  · intro h
    unfold bandIncrement
    rw [if_pos h]
  · intro h1 h2
    unfold bandIncrement
    rw [if_neg (by omega), if_pos h2]
  · intro h1 h2
    unfold bandIncrement
    rw [if_neg (by omega), if_neg (by omega), if_pos h2]
  · intro h1
    unfold bandIncrement
    rw [if_neg (by omega), if_neg (by omega), if_neg (by omega)]
  · intro a b hab
    unfold bandIncrement
    split_ifs <;> omega
  · intro v
    constructor
    · rintro ⟨a, rfl⟩
      unfold bandIncrement
      split_ifs <;> simp
    · rintro (rfl | rfl | rfl | rfl)
      · exact ⟨0, rfl⟩
      · exact ⟨100, rfl⟩
      · exact ⟨200, rfl⟩
      · exact ⟨455, rfl⟩

/-! ## Intent flags over a tick -/

theorem lock_keys (u : State) :
    (lock u).leftKey = u.leftKey ∧ (lock u).rightKey = u.rightKey ∧
      (lock u).rotateKey = u.rotateKey := by
  obtain ⟨-, -, -, -, -, -, -, -, -, h1, h2, h3⟩ :=
    ctl_fields _ _ (lineClear_ctl { u with pieceAlive := false })
  unfold lock
  simp only at h1 h2 h3 ⊢
  exact ⟨h1, h2, h3⟩

theorem lockStage_keys (u : State) :
    (lockStage u).leftKey = u.leftKey ∧ (lockStage u).rightKey = u.rightKey ∧
      (lockStage u).rotateKey = u.rotateKey := by
  unfold lockStage
  simp only
  split_ifs
  · exact lock_keys { u with graceTime := inc u.graceTime }
  · exact ⟨rfl, rfl, rfl⟩
  · exact ⟨rfl, rfl, rfl⟩

theorem spawn_keys (u : State) :
    (spawn u).leftKey = u.leftKey ∧ (spawn u).rightKey = u.rightKey ∧
      (spawn u).rotateKey = u.rotateKey := by
  obtain ⟨-, -, -, -, g5, g6, g7, -⟩ := checkGameOver_fields (spawnSetup u)
  obtain ⟨-, -, -, -, -, -, -, -, -, p5, p6, p7⟩ :=
    ctl_fields _ _ (placePiece_ctl (checkGameOver (spawnSetup u)))
  refine ⟨?_, ?_, ?_⟩
  · show (placePiece (checkGameOver (spawnSetup u))).leftKey = _
    rw [p5, g5]
    rfl
  · show (placePiece (checkGameOver (spawnSetup u))).rightKey = _
    rw [p6, g6]
    rfl
  · show (placePiece (checkGameOver (spawnSetup u))).rotateKey = _
    rw [p7, g7]
    rfl

theorem moveStage_keys (u : State) :
    (moveStage u).leftKey = (u.leftKey && !(u.pieceAlive && (u.leftKey && u.canLeft))) ∧
      (moveStage u).rightKey =
        (u.rightKey && !(u.pieceAlive && !(u.leftKey && u.canLeft) &&
          (u.rightKey && u.canRight))) ∧
      (moveStage u).rotateKey =
        (u.rotateKey && !(u.pieceAlive && !(u.leftKey && u.canLeft) &&
          !(u.rightKey && u.canRight) && (u.rotateKey && u.canRotate))) := by
  obtain ⟨s5, s6, s7⟩ := spawn_keys u
  obtain ⟨-, -, -, -, l5, l6, l7⟩ := shiftLeft_fields u
  obtain ⟨-, -, -, -, r5, r6, r7⟩ := shiftRight_fields u
  obtain ⟨-, -, -, -, t5, t6, t7⟩ := rotate_fields u
  unfold moveStage
  cases hal : u.pieceAlive
  · simp [s5, s6, s7]
  · cases hA : (u.leftKey && u.canLeft)
    · cases hB : (u.rightKey && u.canRight)
      · cases hC : (u.rotateKey && u.canRotate)
        · simp [hA, hB, hC]
        · simp only [Bool.and_eq_true] at hC
          simp [hA, hB, hC, t5, t6, t7]
      · simp only [Bool.and_eq_true] at hB
        simp [hA, hB, r5, r6, r7]
    · simp only [Bool.and_eq_true] at hA
      simp [hA, l5, l6, l7]

theorem dropOne_keys (v : State) :
    (dropOne v).leftKey = false ∧ (dropOne v).rightKey = false ∧
      (dropOne v).rotateKey = false := by
  unfold dropOne
  exact ⟨rfl, rfl, rfl⟩

theorem dropStage_keys (v : State) :
    (dropStage v).leftKey
        = (v.leftKey && !(decide (v.dropCounter > dropThreshold v.level) && v.canDown)) ∧
      (dropStage v).rightKey
        = (v.rightKey && !(decide (v.dropCounter > dropThreshold v.level) && v.canDown)) ∧
      (dropStage v).rotateKey
        = (v.rotateKey && !(decide (v.dropCounter > dropThreshold v.level) && v.canDown)) := by
  obtain ⟨d1, d2, d3⟩ := dropOne_keys v
  unfold dropStage
  cases hc : (decide (v.dropCounter > dropThreshold v.level) && v.canDown)
  · simp
  · simp [d1, d2, d3]

theorem joystickStage_keys (adc : Nat) (s : State) :
    (joystickStage adc s).leftKey = s.leftKey ∧
      (joystickStage adc s).rightKey = s.rightKey ∧
      (joystickStage adc s).rotateKey = s.rotateKey := by
  unfold joystickStage
  simp only
  split_ifs <;> exact ⟨rfl, rfl, rfl⟩

theorem atMove_keys (s : State) :
    (atMove s).leftKey = s.leftKey ∧ (atMove s).rightKey = s.rightKey ∧
      (atMove s).rotateKey = s.rotateKey := by
  obtain ⟨-, -, -, -, -, -, c7, c8, c9, -⟩ := checkCollisions_fields s
  obtain ⟨l1, l2, l3⟩ := lockStage_keys (checkCollisions s)
  unfold atMove
  exact ⟨l1.trans c7, l2.trans c8, l3.trans c9⟩

/-- C23 as stated fails: in the tick that starts in `oDropLeftState` the left intent is
pending, the left shift is not applied (the piece stays at column 0), and the flag is
false at the end of the tick, because the drop branch clears it. -/
theorem tick_drop_clears_unconsumed_intent :
    oDropLeftState.leftKey = true ∧ leftTaken oDropLeftState = false ∧
      (tick 500 oDropLeftState).xPos = oDropLeftState.xPos ∧
      (tick 500 oDropLeftState).leftKey = false := by
  set_option maxRecDepth 100000 in
  refine ⟨by decide, by decide, by decide, by decide⟩

/-- C23, amended. Over one tick each of `leftKey`, `rightKey`, `rotateKey` keeps its
value unless the corresponding branch (left shift, right shift, rotation) executes in
that tick or the drop branch executes in that tick; the drop branch clears all three
flags. -/
theorem tick_intent_flags (adc : Nat) (s : State) :
    (tick adc s).leftKey = (s.leftKey && !leftTaken s && !dropTaken s) ∧
      (tick adc s).rightKey = (s.rightKey && !rightTaken s && !dropTaken s) ∧
      (tick adc s).rotateKey = (s.rotateKey && !rotateTaken s && !dropTaken s) := by
  obtain ⟨a1, a2, a3⟩ := atMove_keys s
  obtain ⟨m1, m2, m3⟩ := moveStage_keys (atMove s)
  obtain ⟨d1, d2, d3⟩ := dropStage_keys (atDrop s)
  obtain ⟨j1, j2, j3⟩ := joystickStage_keys adc (dropStage (atDrop s))
  have ht : tick adc s = joystickStage adc (dropStage (atDrop s)) := rfl
  have hd : atDrop s = moveStage (atMove s) := rfl
  rw [ht, j1, j2, j3, d1, d2, d3]
  unfold dropTaken leftTaken rightTaken rotateTaken
  rw [hd, m1, m2, m3, a1, a2, a3]
  exact ⟨rfl, rfl, rfl⟩

/-! ## The drop check after a move in the same tick -/

/-- C25 (evaluated on the code): in the tick that starts in `staleDownState` the left
shift is applied (the O piece moves from column 4 to column 3, rows 10..11) and the
drop branch then executes on the value of `canDown` computed before the shift. The cell
(12, 3) below the shifted piece holds the settled identifier 6 and is not a cell of the
piece, so the shifted footprint moved one row down is not free; after the tick the cell
holds the identifier 1 of the live piece. -/
theorem tick_drops_on_stale_canDown :
    leftTaken staleDownState = true ∧ dropTaken staleDownState = true ∧
      (atDrop staleDownState).piece = 1 ∧ (atDrop staleDownState).rotation = 0 ∧
      (atDrop staleDownState).xPos = 3 ∧ (atDrop staleDownState).yPos = 10 ∧
      (atDrop staleDownState).grid 12 3 = 6 ∧ (12, 3) ∉ cellsAt 1 0 3 10 ∧
      (¬ ∀ d ∈ footprint 1 0,
          Free (atDrop staleDownState).grid (cellsAt 1 0 3 10) (10 + d.1 + 1) (3 + d.2)) ∧
      (checkCollisions (atDrop staleDownState)).canDown = false ∧
      (tick 500 staleDownState).yPos = 11 ∧ (tick 500 staleDownState).grid 12 3 = 1 := by
  set_option maxRecDepth 100000 in
  refine ⟨by decide, by decide, by decide, by decide, by decide, by decide, by decide,
    by decide, by decide, by decide, by decide, by decide⟩

/-! ## An O piece dropped straight down -/

theorem checkCollisions_canDown_congr (s t : State) (hp : s.piece = t.piece)
    (hr : s.rotation = t.rotation) (hx : s.xPos = t.xPos) (hy : s.yPos = t.yPos)
    (hg : s.grid = t.grid) : (checkCollisions s).canDown = (checkCollisions t).canDown := by
  unfold checkCollisions
  simp only [hp, hr, hx, hy, hg]
  split <;> (try split) <;> rfl

theorem isO_canDown (s : State) (y : Nat) (h : IsO s y) (hy : y ≤ 12) :
    (checkCollisions s).canDown = decide (y ≤ 11) := by
  obtain ⟨h1, h2, h3, h4, -, -, -, -, -, h10⟩ := h
  rw [checkCollisions_canDown_congr s (oAt y) h1 h2 h3 h4 h10]
  interval_cases y <;> decide

theorem oGrid_move (y : Nat) :
    moveGrid 1 (cellsAt 1 0 4 y) (cellsAt 1 0 4 (y + 1)) (oGrid y) = oGrid (y + 1) := by
  funext a b
  unfold moveGrid oGrid writeCells
  simp only
  split_ifs <;> rfl

theorem moveStage_idle (u : State) (hal : u.pieceAlive = true) (hl : u.leftKey = false)
    (hr : u.rightKey = false) (ht : u.rotateKey = false) : moveStage u = u := by
  unfold moveStage
  simp [hal, hl, hr, ht]

theorem joystickStage_frame (adc : Nat) (s : State) :
    (joystickStage adc s).pieceAlive = s.pieceAlive ∧
      (joystickStage adc s).level = s.level ∧
      (joystickStage adc s).keyPress = s.keyPress ∧
      (joystickStage adc s).graceTime = s.graceTime := by
  unfold joystickStage
  simp only
  split_ifs <;> exact ⟨rfl, rfl, rfl, rfl⟩

theorem dropThreshold_one : dropThreshold 1 = 24000 := by decide

theorem isO_tick (adc : Nat) (s : State) (y gt : Nat) (h : IsO s y) (hy : y ≤ 12)
    (hpre : lockStage (checkCollisions s) = { checkCollisions s with graceTime := gt }) :
    IsO (tick adc s) (if s.dropCounter > 24000 ∧ y ≤ 11 then y + 1 else y) ∧
      (tick adc s).keyPress
        = (if s.dropCounter > 24000 ∧ y ≤ 11 then inc s.keyPress else s.keyPress) ∧
      (tick adc s).dropCounter
        = ((if s.dropCounter > 24000 ∧ y ≤ 11 then 0 else s.dropCounter)
            + bandIncrement adc) % 65536 ∧
      (tick adc s).graceTime = gt := by
  have hcd := isO_canDown s y h hy
  obtain ⟨h1, h2, h3, h4, h5, h6, h7, h8, h9, h10⟩ := h
  obtain ⟨c1, c2, c3, c4, c5, c6, c7, c8, c9, c10, c11, c12, -, -⟩ :=
    checkCollisions_fields s
  generalize hu : ({ checkCollisions s with graceTime := gt } : State) = u at hpre
  have u1 : u.piece = 1 := by rw [← hu]; exact c1.trans h1
  have u2 : u.rotation = 0 := by rw [← hu]; exact c2.trans h2
  have u3 : u.xPos = 4 := by rw [← hu]; exact c3.trans h3
  have u4 : u.yPos = y := by rw [← hu]; exact c4.trans h4
  have u5 : u.grid = oGrid y := by rw [← hu]; exact c5.trans h10
  have u6 : u.pieceAlive = true := by rw [← hu]; exact c6.trans h5
  have u7 : u.leftKey = false := by rw [← hu]; exact c7.trans h6
  have u8 : u.rightKey = false := by rw [← hu]; exact c8.trans h7
  have u9 : u.rotateKey = false := by rw [← hu]; exact c9.trans h8
  have u10 : u.dropCounter = s.dropCounter := by rw [← hu]; exact c10
  have u11 : u.level = 1 := by rw [← hu]; exact c11.trans h9
  have u12 : u.keyPress = s.keyPress := by rw [← hu]; exact c12
  have u13 : u.canDown = decide (y ≤ 11) := by rw [← hu]; exact hcd
  have u14 : u.graceTime = gt := by rw [← hu]
  obtain ⟨j1, j2, j3, j4, j5, -⟩ := joystickStage_geo adc (dropStage u)
  obtain ⟨k1, k2, k3⟩ := joystickStage_keys adc (dropStage u)
  obtain ⟨f1, f2, f3, f4⟩ := joystickStage_frame adc (dropStage u)
  have jd := joystickStage_dropCounter adc (dropStage u)
  have ht : tick adc s = joystickStage adc (dropStage u) := by
    unfold tick
    rw [hpre, moveStage_idle u u6 u7 u8 u9]
  unfold IsO
  rw [ht, j1, j2, j3, j4, j5, k1, k2, k3, f1, f2, f3, f4, jd]
  by_cases hc : s.dropCounter > 24000 ∧ y ≤ 11
  · have hd : dropStage u = dropOne u := by
      unfold dropStage
      rw [if_pos (by simp [u10, u11, u13, dropThreshold_one, hc.1, hc.2])]
    have hinc : inc y = y + 1 := by
      unfold inc
      omega
    rw [hd, dropOne_eq u (by rw [u1]; decide) (by rw [u2]; decide), if_pos hc, if_pos hc,
      if_pos hc]
    simp only [u1, u2, u3, u4, u5, u6, u11, u12, u14, hinc, oGrid_move, Nat.zero_add,
      and_self]
  · have hd : dropStage u = u := by
      unfold dropStage
      rw [if_neg]
      rw [u10, u11, u13, dropThreshold_one]
      simpa using hc
    rw [hd, if_neg hc, if_neg hc, if_neg hc]
    exact ⟨⟨u1, u2, u3, u4, u6, u7, u8, u9, u11, u5⟩, u12, by rw [u10], u14⟩

theorem lockStage_pre (s : State) :
    ((checkCollisions s).canDown = true →
        lockStage (checkCollisions s)
          = { checkCollisions s with graceTime := s.graceTime }) ∧
      ((checkCollisions s).canDown = false → ¬ inc s.graceTime > 9000 →
        lockStage (checkCollisions s)
          = { checkCollisions s with graceTime := inc s.graceTime }) := by
  have hg : (checkCollisions s).graceTime = s.graceTime := by
    rw [checkCollisions_eq s]
    rfl
  constructor
  · intro hd
    unfold lockStage
    rw [if_neg (by simp [hd]), ← hg]
  · intro hd hn
    unfold lockStage
    rw [if_pos (by simp [hd])]
    simp only [hg]
    rw [if_neg hn]

theorem isO_spawn :
    IsO oSpawnState 0 ∧ oSpawnState.dropCounter = 0 ∧ oSpawnState.keyPress = 7 ∧
      oSpawnState.graceTime = 0 := by
  refine ⟨⟨by decide, by decide, by decide, by decide, by decide, by decide, by decide,
    by decide, by decide, ?_⟩, by decide, by decide, by decide⟩
  funext a b
  show (placePiece (checkGameOver (spawnSetup { initState with keyPress := 7 }))).grid a b
    = oGrid 0 a b
  rw [placePiece_eq _ (by decide) (by decide)]
  rfl

theorem isO_descend (adc : Nat) (s : State) (y : Nat) (h : IsO s y) (hy : y ≤ 11) :
    IsO (tick adc s) (if s.dropCounter > 24000 then y + 1 else y) ∧
      (tick adc s).keyPress
        = (if s.dropCounter > 24000 then inc s.keyPress else s.keyPress) ∧
      (tick adc s).dropCounter
        = ((if s.dropCounter > 24000 then 0 else s.dropCounter) + bandIncrement adc)
            % 65536 ∧
      (tick adc s).graceTime = s.graceTime := by
  have hcd := isO_canDown s y h (by omega)
  have hpre := (lockStage_pre s).1 (by rw [hcd]; simpa using hy)
  have ht := isO_tick adc s y s.graceTime h (by omega) hpre
  simp only [hy, and_true] at ht
  exact ht

theorem isO_rest (adc : Nat) (s : State) (h : IsO s 12) (hg : ¬ inc s.graceTime > 9000) :
    IsO (tick adc s) 12 ∧ (tick adc s).graceTime = inc s.graceTime := by
  have hcd := isO_canDown s 12 h (by omega)
  have hpre := (lockStage_pre s).2 (by rw [hcd]; decide) hg
  have ht := isO_tick adc s 12 (inc s.graceTime) h (by omega) hpre
  simp only [show ¬ (12 ≤ 11) by decide, and_false, if_false] at ht
  exact ⟨ht.1, ht.2.2.2⟩

theorem o_run_descents (n : Nat) (hn : n ≤ 12) :
    IsO ((tick 0)^[n + 1] oSpawnState) n ∧
      ((tick 0)^[n + 1] oSpawnState).dropCounter = 24001 ∧
      ((tick 0)^[n + 1] oSpawnState).keyPress = 7 + n ∧
      ((tick 0)^[n + 1] oSpawnState).graceTime = 0 := by
  induction n with
  | zero =>
    obtain ⟨s1, s2, s3, s4⟩ := isO_spawn
    obtain ⟨t1, t2, t3, t4⟩ := isO_descend 0 oSpawnState 0 s1 (by omega)
    rw [s2] at t1 t2 t3
    rw [if_neg (by decide)] at t1 t2 t3
    exact ⟨t1, t3, t2.trans s3, t4.trans s4⟩
  | succ n ih =>
    obtain ⟨i1, i2, i3, i4⟩ := ih (by omega)
    rw [Function.iterate_succ_apply']
    obtain ⟨t1, t2, t3, t4⟩ := isO_descend 0 ((tick 0)^[n + 1] oSpawnState) n i1 (by omega)
    rw [i2] at t1 t2 t3
    rw [if_pos (by decide)] at t1 t2 t3
    have hinc : inc (7 + n) = 7 + (n + 1) := by
      unfold inc
      omega
    exact ⟨t1, t3, by rw [t2, i3, hinc], t4.trans i4⟩

theorem o_run_rest (m : Nat) (hm : m ≤ 9000) :
    IsO ((tick 0)^[13 + m] oSpawnState) 12 ∧
      ((tick 0)^[13 + m] oSpawnState).graceTime = m := by
  induction m with
  | zero =>
    obtain ⟨i1, -, -, i4⟩ := o_run_descents 12 (by omega)
    exact ⟨i1, i4⟩
  | succ m ih =>
    obtain ⟨i1, i2⟩ := ih (by omega)
    rw [show 13 + (m + 1) = (13 + m) + 1 by omega, Function.iterate_succ_apply']
    have hinc : inc m = m + 1 := by
      unfold inc
      omega
    have h := isO_rest 0 ((tick 0)^[13 + m] oSpawnState) i1 (by rw [i2, hinc]; omega)
    rw [i2, hinc] at h
    exact h

theorem clearRowG_fold_id (g : Grid) (l : List Nat)
    (h : ∀ i ∈ l, isFull (rowOf g i) = false) : l.foldl clearRowG g = g := by
  induction l with
  | nil => rfl
  | cons i l ih =>
    have hi : clearRowG g i = g := by
      unfold clearRowG
      rw [if_neg (by simp [h i (List.mem_cons_self i l)])]
    rw [List.foldl_cons, hi]
    exact ih fun j hj => h j (List.mem_cons_of_mem i hj)

theorem oGrid_cells (y a b : Nat) :
    oGrid y a b = if (a = y ∨ a = y + 1) ∧ (b = 4 ∨ b = 5) then 1 else 0 := by
  unfold oGrid writeCells cellsAt footprint
  simp only [List.map_cons, List.map_nil, List.mem_cons, Prod.mk.injEq, List.mem_singleton,
    List.not_mem_nil, or_false, Nat.add_zero, Nat.reduceAdd]
  split_ifs with h1 h2 h2 <;> first | rfl | (exfalso; omega)

theorem oGrid_row_notFull (y i : Nat) : isFull (rowOf (oGrid y) i) = false := by
  unfold isFull rowOf
  rw [List.all_eq_false]
  refine ⟨oGrid y i 0, List.mem_map.mpr ⟨0, by decide, rfl⟩, ?_⟩
  rw [oGrid_cells, if_neg (by omega)]
  decide

theorem lock_grid_graceTime (u : State) :
    (lock u).graceTime = 0 ∧ (lock u).grid = (List.range 14).foldl clearRowG u.grid := by
  have h := lineClear_grid { u with pieceAlive := false }
  unfold lock
  simp only at h ⊢
  exact ⟨trivial, h⟩

theorem isO_lock (s : State) (h : IsO s 12) (hg : inc s.graceTime > 9000) :
    (lockStage (checkCollisions s)).pieceAlive = false ∧
      (lockStage (checkCollisions s)).graceTime = 0 ∧
      (lockStage (checkCollisions s)).grid = oGrid 12 := by
  have hcd := isO_canDown s 12 h (by omega)
  obtain ⟨-, -, -, -, c5, -, -, -, -, -, -, -, -, cg⟩ := checkCollisions_fields s
  have hl : lockStage (checkCollisions s)
      = lock { checkCollisions s with graceTime := inc s.graceTime } := by
    unfold lockStage
    rw [if_pos (by rw [hcd]; decide)]
    simp only [cg]
    rw [if_pos hg]
  generalize hu : ({ checkCollisions s with graceTime := inc s.graceTime } : State) = u at hl
  have u5 : u.grid = oGrid 12 := by rw [← hu]; exact c5.trans h.2.2.2.2.2.2.2.2.2
  obtain ⟨l1, -, -⟩ := lock_ctl u
  obtain ⟨l2, l3⟩ := lock_grid_graceTime u
  rw [hl, l2, l3, u5]
  exact ⟨l1, rfl, clearRowG_fold_id _ _ fun i _ => oGrid_row_notFull 12 i⟩

/-- C22. A fresh game in which the spawn produces an O piece (identity 1) has the piece
at column 4, row 0 of an empty grid. For such a piece with no left, right or rotate
intent, `canDown` is true at every row 0..11 and false at row 12; a tick whose drop
check passes moves it down by exactly one row (and increments `keyPress`), any other
tick leaves it in place. With the stick fully pulled the piece is at row `n` after
`n` descents, so after exactly 12 descents its cells are rows 12..13, columns 4..5; it
rests there while the grace counter runs, and when the incremented grace counter
exceeds 9000 the lock stage settles it: `pieceAlive` is false and the grid holds 1 in
exactly those four cells and 0 everywhere else. -/
theorem o_piece_drops_to_floor_and_locks :
    IsO oSpawnState 0 ∧
      (∀ s y, IsO s y → y ≤ 11 → (checkCollisions s).canDown = true) ∧
      (∀ s, IsO s 12 → (checkCollisions s).canDown = false) ∧
      (∀ adc s y, IsO s y → y ≤ 11 → s.dropCounter > 24000 →
        IsO (tick adc s) (y + 1) ∧ (tick adc s).keyPress = inc s.keyPress) ∧
      (∀ adc s y, IsO s y → y ≤ 11 → ¬ s.dropCounter > 24000 →
        IsO (tick adc s) y ∧ (tick adc s).keyPress = s.keyPress) ∧
      (∀ n, n ≤ 12 → IsO ((tick 0)^[n + 1] oSpawnState) n ∧
        ((tick 0)^[n + 1] oSpawnState).keyPress = oSpawnState.keyPress + n) ∧
      (∀ a b, oGrid 12 a b = if (a = 12 ∨ a = 13) ∧ (b = 4 ∨ b = 5) then 1 else 0) ∧
      (∀ m, m ≤ 9000 → IsO ((tick 0)^[13 + m] oSpawnState) 12 ∧
        ((tick 0)^[13 + m] oSpawnState).graceTime = m) ∧
      (∀ s, IsO s 12 → inc s.graceTime > 9000 →
        (lockStage (checkCollisions s)).pieceAlive = false ∧
          (lockStage (checkCollisions s)).grid = oGrid 12) := by
  refine ⟨isO_spawn.1, ?_, ?_, ?_, ?_, ?_, ?_, ?_, ?_⟩
  · intro s y h hy
    rw [isO_canDown s y h (by omega)]
    simpa using hy
  · intro s h
    rw [isO_canDown s 12 h (by omega)]
    decide
  · intro adc s y h hy hd
    have ht := isO_descend adc s y h hy
    rw [if_pos hd, if_pos hd] at ht
    exact ⟨ht.1, ht.2.1⟩
  · intro adc s y h hy hd
    have ht := isO_descend adc s y h hy
    rw [if_neg hd, if_neg hd] at ht
    exact ⟨ht.1, ht.2.1⟩
  · intro n hn
    obtain ⟨i1, -, i3, -⟩ := o_run_descents n hn
    exact ⟨i1, by rw [i3, isO_spawn.2.2.1]⟩
  · intro a b
    exact oGrid_cells 12 a b
  · intro m hm
    exact o_run_rest m hm
  · intro s h hg
    obtain ⟨l1, -, l3⟩ := isO_lock s h hg
    exact ⟨l1, l3⟩

/-! ## Display: `drawSquare`, `drawPiece`, `erasePiece` -/

theorem writeLCDData_hi (c : Nat) (hc : c < 65536) :
    writeLCDData (c >>> 8) = [LcdByte.data (c / 256)] := by
  unfold writeLCDData
  rw [Nat.shiftRight_eq_div_pow, Nat.mod_eq_of_lt (by omega)]

theorem writeLCDData_lo (c : Nat) : writeLCDData (c &&& 0xff) = [LcdByte.data (c % 256)] := by
  unfold writeLCDData
  rw [show (0xff : Nat) = 2 ^ 8 - 1 by decide, Nat.and_pow_two_sub_one_eq_mod c 8,
    show (2 : Nat) ^ 8 = 256 by decide, Nat.mod_mod]

theorem bulk_add_two (n c : Nat) :
    bulk (n + 2) c
      = [LcdByte.data (c / 256), LcdByte.data (c % 256), LcdByte.data (c / 256),
          LcdByte.data (c % 256)] ++ bulk n c := by
  unfold bulk
  rw [List.replicate_succ, List.replicate_succ]
  rfl

theorem fillLoop_bulk (n c : Nat) (hc : c < 65536) : fillLoop n c = bulk (2 * n) c := by
  induction n with
  | zero => rfl
  | succ n ih =>
    rw [show 2 * (n + 1) = 2 * n + 2 by omega, bulk_add_two, ← ih, fillLoop,
      writeLCDData_hi c hc, writeLCDData_lo c]
    rfl

theorem drawSquare_windows (x0 y pieceNumber : Nat) (hx : x0 + 19 < 256)
    (hy : y + 19 < 65536) :
    drawSquare x0 y pieceNumber
      = window x0 (x0 + 19) y (y + 19) ++ outerFill pieceNumber ++
          window (x0 + 2) (x0 + 17) (y + 2) (y + 17) ++ innerFill pieceNumber := by
  unfold drawSquare window writeLCDControl writeLCDData
  have e1 : x0 % 256 = x0 := Nat.mod_eq_of_lt (by omega)
  have e2 : (x0 + 19) % 256 = x0 + 19 := Nat.mod_eq_of_lt (by omega)
  have e3 : (x0 + 2) % 256 = x0 + 2 := Nat.mod_eq_of_lt (by omega)
  have e4 : (x0 + 17) % 256 = x0 + 17 := Nat.mod_eq_of_lt (by omega)
  have e5 : y / 256 % 256 = y / 256 := Nat.mod_eq_of_lt (by omega)
  have e6 : (y + 19) / 256 % 256 = (y + 19) / 256 := Nat.mod_eq_of_lt (by omega)
  have e7 : (y + 2) / 256 % 256 = (y + 2) / 256 := Nat.mod_eq_of_lt (by omega)
  have e8 : (y + 17) / 256 % 256 = (y + 17) / 256 := Nat.mod_eq_of_lt (by omega)
  simp only [e1, e2, e3, e4, e5, e6, e7, e8, Nat.mod_mod, List.append_assoc,
    List.cons_append, List.nil_append, Nat.reduceMod]

theorem getLast?_append_data (l : List LcdByte) (m c : Nat) (hm : 0 < m) :
    (l ++ bulk m c).getLast? = some (LcdByte.data (c % 256)) := by
  obtain ⟨k, rfl⟩ : ∃ k, m = k + 1 := ⟨m - 1, by omega⟩
  have hb : bulk (k + 1) c
      = (bulk k c ++ [LcdByte.data (c / 256)]) ++ [LcdByte.data (c % 256)] := by
    unfold bulk
    rw [List.replicate_succ', List.flatten_append]
    simp
  rw [hb, ← List.append_assoc, List.getLast?_concat]

/-- C29 as stated fails for identifier 0: `drawSquare` has no inner fill for it. After
the inset window it sends no pixel, so the last byte it sends is the memory-write
command `0x2C`, and its output is not the two windows each followed by a bulk write of
one or more pixels of 0x110F. -/
theorem drawSquare_zero_no_inner_fill :
    innerFill 0 = [] ∧
      (drawSquare 20 30 0).getLast? = some (LcdByte.command 0x2C) ∧
      ∀ n m, 0 < m →
        drawSquare 20 30 0
          ≠ window 20 39 30 49 ++ bulk n 0x110F ++ window 22 37 32 47 ++ bulk m 0x110F := by
  have h := drawSquare_windows 20 30 0 (by decide) (by decide)
  have hl : (drawSquare 20 30 0).getLast? = some (LcdByte.command 0x2C) := by
    have hi : innerFill 0 = [] := rfl
    rw [h, hi, List.append_nil, List.getLast?_append]
    rfl
  refine ⟨rfl, hl, ?_⟩
  intro n m hm heq
  rw [heq, getLast?_append_data _ m _ hm] at hl
  exact absurd hl (by decide)

/-- C29, amended. For every fill identifier 1..7, `drawSquare(x0, y, id)` sends the
window `x0..x0+19` by `y..y+19` (row bounds as high byte then low byte), a bulk write
of the identifier's outer colour, the inset window `x0+2..x0+17` by `y+2..y+17` and a
bulk write of the identifier's inner colour, every pixel most-significant byte first.
For identifier 0 it sends the outer window, a bulk write of the background tone 0x110F,
and the inset window followed by no pixel. The outer bulk write has 440 pixels and the
inner one 324. Arguments are those for which the column bounds fit one byte and the
row bounds two. -/
theorem drawSquare_spec (x0 y id : Nat) (hid : id ≤ 7) (hx : x0 + 19 < 256)
    (hy : y + 19 < 65536) :
    (1 ≤ id →
        drawSquare x0 y id
          = window x0 (x0 + 19) y (y + 19) ++ bulk 440 (outerColour id) ++
              window (x0 + 2) (x0 + 17) (y + 2) (y + 17) ++ bulk 324 (innerColour id)) ∧
      (id = 0 →
        drawSquare x0 y id
          = window x0 (x0 + 19) y (y + 19) ++ bulk 440 0x110F ++
              window (x0 + 2) (x0 + 17) (y + 2) (y + 17)) := by
  rw [drawSquare_windows x0 y id hx hy]
  constructor
  · intro h1
    interval_cases id <;>
      simp only [outerFill, innerFill, outerColour, innerColour] <;>
      rw [fillLoop_bulk _ _ (by decide), fillLoop_bulk _ _ (by decide)]
  · intro h0
    subst h0
    simp only [outerFill, innerFill]
    rw [fillLoop_bulk _ _ (by decide), List.append_nil]

theorem drawSquare_spec_witness :
    ((1 : Nat) ≤ 7 →
        drawSquare 100 130 7
          = window 100 (100 + 19) 130 (130 + 19) ++ bulk 440 (outerColour 7) ++
              window (100 + 2) (100 + 17) (130 + 2) (130 + 17) ++
              bulk 324 (innerColour 7)) ∧
      ((7 : Nat) = 0 →
        drawSquare 100 130 7
          = window 100 (100 + 19) 130 (130 + 19) ++ bulk 440 0x110F ++
              window (100 + 2) (100 + 17) (130 + 2) (130 + 17)) :=
  drawSquare_spec 100 130 7 (by decide) (by decide) (by decide)

/-- C30. For every identity 1..7 and orientation 0..3, `drawPiece(x, y)` calls
`drawSquare` exactly four times, at the pixel origins `(x + 20*dc, y + 20*dr)` of the
four offsets `(dr, dc)` of the footprint, with the piece's identifier as fill, and
`erasePiece(x, y)` calls it at the same four origins with fill 0; the footprint offsets
are the four cells that `placePiece` writes (stated for an anchor at which the
footprint lies inside the grid). -/
theorem drawPiece_erasePiece_footprint (x y : Nat) (s : State)
    (hp : 1 ≤ s.piece ∧ s.piece ≤ 7) (hr : s.rotation ≤ 3) :
    (drawPiece x y s).length = 4 ∧ (erasePiece x y s).length = 4 ∧
      (drawPiece x y s).Perm
        ((footprint s.piece s.rotation).map fun d => (x + 20 * d.2, y + 20 * d.1, s.piece)) ∧
      (erasePiece x y s).Perm
        ((footprint s.piece s.rotation).map fun d => (x + 20 * d.2, y + 20 * d.1, 0)) ∧
      (erasePiece x y s).map (fun c => (c.1, c.2.1))
        = (drawPiece x y s).map (fun c => (c.1, c.2.1)) ∧
      (Inside s.piece s.rotation s.xPos s.yPos →
        ∀ a b, (placePiece s).grid a b =
          if (a, b) ∈ (footprint s.piece s.rotation).map
              (fun d => (s.yPos + d.1, s.xPos + d.2))
            then s.piece else s.grid a b) := by
  have hpl := placePiece_eq s hp hr
  obtain ⟨h1, h2⟩ := hp
  refine ⟨?_, ?_, ?_, ?_, ?_, ?_⟩
  · unfold drawPiece
    generalize s.piece = p at *
    generalize s.rotation = r at *
    interval_cases p <;> interval_cases r <;> rfl
  · unfold erasePiece
    generalize s.piece = p at *
    generalize s.rotation = r at *
    interval_cases p <;> interval_cases r <;> rfl
  · unfold drawPiece
    generalize s.piece = p at *
    generalize s.rotation = r at *
    interval_cases p <;> interval_cases r <;>
      simp only [footprint, List.map_cons, List.map_nil, Nat.mul_zero, Nat.mul_one,
        Nat.add_zero, Nat.reduceMul] <;>
      first
        | exact List.Perm.refl _
        | exact (List.Perm.swap _ _ _).cons _
  · unfold erasePiece
    generalize s.piece = p at *
    generalize s.rotation = r at *
    interval_cases p <;> interval_cases r <;>
      simp only [footprint, List.map_cons, List.map_nil, Nat.mul_zero, Nat.mul_one,
        Nat.add_zero, Nat.reduceMul] <;>
      first
        | exact List.Perm.refl _
        | exact (List.Perm.swap _ _ _).cons _
  · unfold drawPiece erasePiece
    generalize s.piece = p at *
    generalize s.rotation = r at *
    interval_cases p <;> interval_cases r <;> rfl
  · intro _ a b
    rw [hpl]
    rfl

theorem drawPiece_erasePiece_footprint_witness :
    (drawPiece 100 130 tMidState).length = 4 ∧ (erasePiece 100 130 tMidState).length = 4 ∧
      (drawPiece 100 130 tMidState).Perm
        ((footprint 7 0).map fun d => (100 + 20 * d.2, 130 + 20 * d.1, 7)) ∧
      (erasePiece 100 130 tMidState).Perm
        ((footprint 7 0).map fun d => (100 + 20 * d.2, 130 + 20 * d.1, 0)) ∧
      (erasePiece 100 130 tMidState).map (fun c => (c.1, c.2.1))
        = (drawPiece 100 130 tMidState).map (fun c => (c.1, c.2.1)) ∧
      (Inside 7 0 4 5 →
        ∀ a b, (placePiece tMidState).grid a b =
          if (a, b) ∈ (footprint 7 0).map (fun d => (5 + d.1, 4 + d.2))
            then 7 else tMidState.grid a b) :=
  drawPiece_erasePiece_footprint 100 130 tMidState (by decide) (by decide)

/-! ## `drawGrid` -/

theorem drawGrid_fold (s : State) (n : Nat) :
    (List.range n).foldl
        (fun (acc : Nat × List (Nat × Nat × Nat)) i =>
          let dY := if i != 0 then acc.1 + 20 else acc.1
          (dY, acc.2 ++ (List.range 10).map fun j => (20 * j + 20, dY, s.grid i j)))
        (30, [])
      = (30 + 20 * (n - 1),
          (List.range n).flatMap
            (fun i => (List.range 10).map fun j => (20 + 20 * j, 30 + 20 * i, s.grid i j))) := by
  induction n with
  | zero => rfl
  | succ n ih =>
    rw [List.range_succ n, List.foldl_append, ih, List.flatMap_append]
    rcases n with _ | m
    · rfl
    · simp only [List.foldl_cons, List.foldl_nil, List.flatMap_cons, List.flatMap_nil,
        List.append_nil, Nat.add_sub_cancel, bne_iff_ne, ne_eq, Nat.succ_ne_zero,
        not_false_eq_true, if_true]
      have e1 : 30 + 20 * m + 20 = 30 + 20 * (m + 1) := by omega
      have e2 : ∀ j, 20 * j + 20 = 20 + 20 * j := fun j => by omega
      simp only [e1, e2]

/-- C31. The function `drawGrid` calls `drawSquare` exactly 140 times, once for every
cell, row by row: for row `i` and column `j` at the pixel origin `(20 + 20*j, 30 + 20*i)`
with fill `grid[i][j]`. This is the origin that `step` passes to `drawPiece` for a
piece anchored at `xPos = j`, `yPos = i`. -/
theorem drawGrid_calls (s : State) :
    drawGrid s
        = (List.range 14).flatMap
            (fun i => (List.range 10).map fun j => (20 + 20 * j, 30 + 20 * i, s.grid i j)) ∧
      (drawGrid s).length = 140 ∧
      (∀ i j, i < 14 → j < 10 →
        pieceOrigin { s with xPos := j, yPos := i } = (20 + 20 * j, 30 + 20 * i)) := by
  have h : drawGrid s
      = (List.range 14).flatMap
          (fun i => (List.range 10).map fun j => (20 + 20 * j, 30 + 20 * i, s.grid i j)) := by
    unfold drawGrid
    rw [drawGrid_fold s 14]
  refine ⟨h, ?_, ?_⟩
  · rw [h]
    simp [List.length_flatMap, Function.comp_def]
  · intro i j hi hj
    unfold pieceOrigin
    simp only
    rw [Nat.mod_eq_of_lt (by omega), Nat.mod_eq_of_lt (by omega)]

/-! ## Interrupt handlers -/

theorem Port_2_cases (p2in : Nat) (s : State) :
    (p2in &&& BTN_RGHT ≠ 0 →
        Port_2 p2in s = { s with rightKey := true, keyPress := (s.keyPress + 33) % 65536 }) ∧
      (p2in &&& BTN_RGHT = 0 → p2in &&& BTN_LFT ≠ 0 →
        Port_2 p2in s = { s with leftKey := true, keyPress := (s.keyPress + 29) % 65536 }) ∧
      (p2in &&& BTN_RGHT = 0 → p2in &&& BTN_LFT = 0 → Port_2 p2in s = s) := by
  unfold Port_2
  refine ⟨?_, ?_, ?_⟩
  · intro h
    rw [if_pos (by simpa using h)]
  · intro h1 h2
    rw [if_neg (by simpa using h1), if_pos (by simpa using h2)]
  · intro h1 h2
    rw [if_neg (by simpa using h1), if_neg (by simpa using h2)]

theorem Port_2_frame (p2in : Nat) (s : State) :
    (Port_2 p2in s).grid = s.grid ∧ (Port_2 p2in s).piece = s.piece ∧
      (Port_2 p2in s).rotation = s.rotation ∧ (Port_2 p2in s).xPos = s.xPos ∧
      (Port_2 p2in s).yPos = s.yPos ∧ (Port_2 p2in s).level = s.level ∧
      (Port_2 p2in s).linesCleared = s.linesCleared ∧
      (Port_2 p2in s).scoreRow = s.scoreRow ∧ (Port_2 p2in s).scoreColumn = s.scoreColumn ∧
      (Port_2 p2in s).dropCounter = s.dropCounter ∧
      (Port_2 p2in s).graceTime = s.graceTime ∧
      (Port_2 p2in s).pieceAlive = s.pieceAlive ∧
      (Port_2 p2in s).gameAlive = s.gameAlive ∧ (Port_2 p2in s).rotateKey = s.rotateKey := by
  unfold Port_2
  split_ifs <;> exact ⟨rfl, rfl, rfl, rfl, rfl, rfl, rfl, rfl, rfl, rfl, rfl, rfl, rfl, rfl⟩

/-- C32. The handler `Port_1` sets `rotateKey` and adds 18 to `keyPress`; `Port_2`
sets `rightKey` and adds 33 when the right line of `P2IN` is asserted, otherwise sets
`leftKey` and adds 29 when the left line is asserted, otherwise changes nothing. The
additions are those of the 16-bit unsigned `keyPress` (the plain sum below the wrap),
and the three resulting values of `keyPress` are pairwise distinct. Neither handler
changes the grid, the piece variables, level, lines counter, score position, drop
counter, grace counter, `pieceAlive` or `gameAlive`. -/
theorem interrupt_handlers_spec (p2in : Nat) (s : State) :
    ((Port_1 s).rotateKey = true ∧ (Port_1 s).keyPress = (s.keyPress + 18) % 65536 ∧
        (Port_1 s).leftKey = s.leftKey ∧ (Port_1 s).rightKey = s.rightKey) ∧
      (p2in &&& BTN_RGHT ≠ 0 →
        (Port_2 p2in s).rightKey = true ∧
          (Port_2 p2in s).keyPress = (s.keyPress + 33) % 65536 ∧
          (Port_2 p2in s).leftKey = s.leftKey) ∧
      (p2in &&& BTN_RGHT = 0 → p2in &&& BTN_LFT ≠ 0 →
        (Port_2 p2in s).leftKey = true ∧
          (Port_2 p2in s).keyPress = (s.keyPress + 29) % 65536 ∧
          (Port_2 p2in s).rightKey = s.rightKey) ∧
      (p2in &&& BTN_RGHT = 0 → p2in &&& BTN_LFT = 0 → Port_2 p2in s = s) ∧
      (s.keyPress + 33 < 65536 →
        (s.keyPress + 18) % 65536 = s.keyPress + 18 ∧
          (s.keyPress + 29) % 65536 = s.keyPress + 29 ∧
          (s.keyPress + 33) % 65536 = s.keyPress + 33) ∧
      ((s.keyPress + 18) % 65536 ≠ (s.keyPress + 33) % 65536 ∧
        (s.keyPress + 18) % 65536 ≠ (s.keyPress + 29) % 65536 ∧
        (s.keyPress + 33) % 65536 ≠ (s.keyPress + 29) % 65536) ∧
      ((Port_1 s).grid = s.grid ∧ (Port_1 s).piece = s.piece ∧
        (Port_1 s).rotation = s.rotation ∧ (Port_1 s).xPos = s.xPos ∧
        (Port_1 s).yPos = s.yPos ∧ (Port_1 s).level = s.level ∧
        (Port_1 s).linesCleared = s.linesCleared ∧ (Port_1 s).scoreRow = s.scoreRow ∧
        (Port_1 s).scoreColumn = s.scoreColumn ∧ (Port_1 s).dropCounter = s.dropCounter ∧
        (Port_1 s).graceTime = s.graceTime ∧ (Port_1 s).pieceAlive = s.pieceAlive ∧
        (Port_1 s).gameAlive = s.gameAlive) ∧
      ((Port_2 p2in s).grid = s.grid ∧ (Port_2 p2in s).piece = s.piece ∧
        (Port_2 p2in s).rotation = s.rotation ∧ (Port_2 p2in s).xPos = s.xPos ∧
        (Port_2 p2in s).yPos = s.yPos ∧ (Port_2 p2in s).level = s.level ∧
        (Port_2 p2in s).linesCleared = s.linesCleared ∧
        (Port_2 p2in s).scoreRow = s.scoreRow ∧
        (Port_2 p2in s).scoreColumn = s.scoreColumn ∧
        (Port_2 p2in s).dropCounter = s.dropCounter ∧
        (Port_2 p2in s).graceTime = s.graceTime ∧
        (Port_2 p2in s).pieceAlive = s.pieceAlive ∧
        (Port_2 p2in s).gameAlive = s.gameAlive ∧
        (Port_2 p2in s).rotateKey = s.rotateKey) := by
  obtain ⟨c1, c2, c3⟩ := Port_2_cases p2in s
  refine ⟨⟨rfl, rfl, rfl, rfl⟩, ?_, ?_, c3, ?_, ?_,
    ⟨rfl, rfl, rfl, rfl, rfl, rfl, rfl, rfl, rfl, rfl, rfl, rfl, rfl⟩, Port_2_frame p2in s⟩
  · intro h
    rw [c1 h]
    exact ⟨rfl, rfl, rfl⟩
  · intro h1 h2
    rw [c2 h1 h2]
    exact ⟨rfl, rfl, rfl⟩
  · intro h
    omega
  · omega

/-! ## Legal moves are never refused -/

/-- For a placed vertical Z the conditions of `canLeft` and `canRight` only test cells
of the shifted footprint that are not cells of the piece. -/
theorem vertical_Z_legal (s : State) (hp : s.piece = 3) (hr : s.rotation = 1 ∨ s.rotation = 3)
    (hin : Inside s.piece s.rotation s.xPos s.yPos)
    (hpl : Placed s.grid s.piece s.rotation s.xPos s.yPos) :
    ((∀ d ∈ footprint s.piece s.rotation, 1 ≤ s.xPos + d.2 ∧
        Free s.grid (cellsAt s.piece s.rotation s.xPos s.yPos) (s.yPos + d.1)
          (s.xPos + d.2 - 1)) → (checkCollisions s).canLeft = true) ∧
      ((∀ d ∈ footprint s.piece s.rotation,
        Free s.grid (cellsAt s.piece s.rotation s.xPos s.yPos) (s.yPos + d.1)
          (s.xPos + d.2 + 1)) → (checkCollisions s).canRight = true) := by
  generalize hP : s.piece = p at *
  generalize hR : s.rotation = r at *
  generalize hX : s.xPos = x at *
  subst hp
  unfold checkCollisions
  constructor
  · rcases x with _ | x'
    · rcases hr with rfl | rfl <;>
        simp only [hX, Inside, Placed, Free, cellsAt, hP, hR, footprint, setFlags,
      List.mem_cons, List.mem_singleton, List.map_cons, List.map_nil, forall_eq_or_imp,
      forall_eq, Prod.mk.injEq, nz, Bool.or_eq_true, beq_iff_eq, bne_iff_ne, ne_eq,
      decide_eq_true_eq, Nat.add_assoc, Nat.reduceAdd, Nat.add_zero, ite_eq_left_iff,
      ite_eq_right_iff, Bool.false_eq_true, imp_false, not_or, not_not, Bool.true_eq_false,
      Bool.ite_eq_true_distrib, if_false_left, if_true_left, if_false_right, if_true_right,
      List.not_mem_nil, or_false, and_true, true_and, true_or, or_true, and_false, false_and,
      false_or, Nat.reduceMod, Nat.reduceEqDiff, Nat.reduceLTLE, Nat.add_one_sub_one,
      Nat.reduceSub, Nat.add_sub_cancel, not_true_eq_false, not_false_eq_true, OfNat.ofNat_ne_zero,
      OfNat.zero_ne_ofNat, Nat.succ_ne_self, gt_iff_lt, Nat.zero_add, Nat.add_eq_zero, one_ne_zero,
      false_implies, implies_true, Nat.reduceBEq, Nat.reduceBNe, false_iff, iff_false,
      Nat.reduceLeDiff, Nat.not_succ_le_zero, not_and, iff_true, true_iff, ↓reduceIte,
      Nat.reduceLT, Nat.lt_irrefl, Nat.ofNat_pos]
    · have hd : x' < 65535 → dec (x' + 1) = x' := dec_succ x'
      rcases hr with rfl | rfl <;>
        simp only [hX, Inside, Placed, Free, cellsAt, hP, hR, footprint, setFlags,
      List.mem_cons, List.mem_singleton, List.map_cons, List.map_nil, forall_eq_or_imp,
      forall_eq, Prod.mk.injEq, nz, Bool.or_eq_true, beq_iff_eq, bne_iff_ne, ne_eq,
      decide_eq_true_eq, Nat.add_assoc, Nat.reduceAdd, Nat.add_zero, ite_eq_left_iff,
      ite_eq_right_iff, Bool.false_eq_true, imp_false, not_or, not_not, Bool.true_eq_false,
      Bool.ite_eq_true_distrib, if_false_left, if_true_left, if_false_right, if_true_right,
      List.not_mem_nil, or_false, and_true, true_and, true_or, or_true, and_false, false_and,
      false_or, Nat.reduceMod, Nat.reduceEqDiff, Nat.reduceLTLE, Nat.add_one_sub_one,
      Nat.reduceSub, Nat.add_sub_cancel, not_true_eq_false, not_false_eq_true, OfNat.ofNat_ne_zero,
      OfNat.zero_ne_ofNat, Nat.succ_ne_self, gt_iff_lt, Nat.zero_add, Nat.add_eq_zero, one_ne_zero,
      false_implies, implies_true, Nat.reduceBEq, Nat.reduceBNe, false_iff, iff_false,
      Nat.reduceLeDiff, Nat.not_succ_le_zero, not_and, iff_true, true_iff, ↓reduceIte,
      Nat.reduceLT, Nat.lt_irrefl, Nat.ofNat_pos] at hin hpl ⊢ <;>
        (rw [hd (by omega)]; omega)
  · rcases hr with rfl | rfl <;>
      simp only [hX, Inside, Placed, Free, cellsAt, hP, hR, footprint, setFlags,
      List.mem_cons, List.mem_singleton, List.map_cons, List.map_nil, forall_eq_or_imp,
      forall_eq, Prod.mk.injEq, nz, Bool.or_eq_true, beq_iff_eq, bne_iff_ne, ne_eq,
      decide_eq_true_eq, Nat.add_assoc, Nat.reduceAdd, Nat.add_zero, ite_eq_left_iff,
      ite_eq_right_iff, Bool.false_eq_true, imp_false, not_or, not_not, Bool.true_eq_false,
      Bool.ite_eq_true_distrib, if_false_left, if_true_left, if_false_right, if_true_right,
      List.not_mem_nil, or_false, and_true, true_and, true_or, or_true, and_false, false_and,
      false_or, Nat.reduceMod, Nat.reduceEqDiff, Nat.reduceLTLE, Nat.add_one_sub_one,
      Nat.reduceSub, Nat.add_sub_cancel, not_true_eq_false, not_false_eq_true, OfNat.ofNat_ne_zero,
      OfNat.zero_ne_ofNat, Nat.succ_ne_self, gt_iff_lt, Nat.zero_add, Nat.add_eq_zero, one_ne_zero,
      false_implies, implies_true, Nat.reduceBEq, Nat.reduceBNe, false_iff, iff_false,
      Nat.reduceLeDiff, Nat.not_succ_le_zero, not_and, iff_true, true_iff, ↓reduceIte,
      Nat.reduceLT, Nat.lt_irrefl, Nat.ofNat_pos] at hin hpl ⊢ <;>
      omega

/-- C33. For a placed piece with identity 1..7 and orientation 0..3 whose footprint lies
inside the grid: if every cell of the left-shifted (respectively right-shifted,
down-shifted, next-orientation) footprint is inside the grid and is zero or a cell of
the piece itself, then `checkCollisions` reports `canLeft` (respectively `canRight`,
`canDown`, `canRotate`) as true. -/
theorem checkCollisions_allows_legal (s : State) (hp : 1 ≤ s.piece ∧ s.piece ≤ 7)
    (hr : s.rotation ≤ 3) (hin : Inside s.piece s.rotation s.xPos s.yPos)
    (hpl : Placed s.grid s.piece s.rotation s.xPos s.yPos) :
    ((∀ d ∈ footprint s.piece s.rotation, 1 ≤ s.xPos + d.2 ∧
        Free s.grid (cellsAt s.piece s.rotation s.xPos s.yPos) (s.yPos + d.1)
          (s.xPos + d.2 - 1)) → (checkCollisions s).canLeft = true) ∧
      ((∀ d ∈ footprint s.piece s.rotation,
        Free s.grid (cellsAt s.piece s.rotation s.xPos s.yPos) (s.yPos + d.1)
          (s.xPos + d.2 + 1)) → (checkCollisions s).canRight = true) ∧
      ((∀ d ∈ footprint s.piece s.rotation,
        Free s.grid (cellsAt s.piece s.rotation s.xPos s.yPos) (s.yPos + d.1 + 1)
          (s.xPos + d.2)) → (checkCollisions s).canDown = true) ∧
      ((∀ d ∈ footprint s.piece ((s.rotation + 1) % 4),
        Free s.grid (cellsAt s.piece s.rotation s.xPos s.yPos) (s.yPos + d.1)
          (s.xPos + d.2)) → (checkCollisions s).canRotate = true) := by
  have hlr : ((∀ d ∈ footprint s.piece s.rotation, 1 ≤ s.xPos + d.2 ∧
        Free s.grid (cellsAt s.piece s.rotation s.xPos s.yPos) (s.yPos + d.1)
          (s.xPos + d.2 - 1)) → (checkCollisions s).canLeft = true) ∧
      ((∀ d ∈ footprint s.piece s.rotation,
        Free s.grid (cellsAt s.piece s.rotation s.xPos s.yPos) (s.yPos + d.1)
          (s.xPos + d.2 + 1)) → (checkCollisions s).canRight = true) := by
    by_cases hz : s.piece = 3 ∧ s.rotation % 2 = 1
    · exact vertical_Z_legal s hz.1 (by omega) hin hpl
    · exact ⟨(canLeft_iff s hp hr hz hin hpl).mpr, (canRight_iff s hp hr hz hin hpl).mpr⟩
  refine ⟨hlr.1, hlr.2, (canDown_iff s hp hr hin hpl).mpr, ?_⟩
  intro hfree
  have hrow : ∀ d ∈ footprint s.piece ((s.rotation + 1) % 4), s.yPos + d.1 < 14 :=
    fun d hd => (hfree d hd).1
  have hzs : ¬((s.piece = 3 ∨ s.piece = 4) ∧ s.rotation % 2 = 1 ∧ s.xPos = 8) := by
    rintro ⟨h34, hodd, hx8⟩
    have hmem : ∃ d ∈ footprint s.piece ((s.rotation + 1) % 4), d.2 = 2 := by
      obtain ⟨h1, h2⟩ := hp
      generalize s.piece = p at *
      generalize s.rotation = r at *
      rcases h34 with rfl | rfl <;> interval_cases r <;> first | omega | decide
    obtain ⟨d, hd, hd2⟩ := hmem
    have := (hfree d hd).2.1
    omega
  exact (canRotate_iff s hp hr hrow hzs hin hpl).mpr hfree

theorem checkCollisions_allows_legal_witness :
    ((∀ d ∈ footprint 7 0, 1 ≤ 4 + d.2 ∧
        Free tMidState.grid (cellsAt 7 0 4 5) (5 + d.1) (4 + d.2 - 1)) →
        (checkCollisions tMidState).canLeft = true) ∧
      ((∀ d ∈ footprint 7 0,
        Free tMidState.grid (cellsAt 7 0 4 5) (5 + d.1) (4 + d.2 + 1)) →
        (checkCollisions tMidState).canRight = true) ∧
      ((∀ d ∈ footprint 7 0,
        Free tMidState.grid (cellsAt 7 0 4 5) (5 + d.1 + 1) (4 + d.2)) →
        (checkCollisions tMidState).canDown = true) ∧
      ((∀ d ∈ footprint 7 ((0 + 1) % 4),
        Free tMidState.grid (cellsAt 7 0 4 5) (5 + d.1) (4 + d.2)) →
        (checkCollisions tMidState).canRotate = true) :=
  checkCollisions_allows_legal tMidState (by decide) (by decide) (by decide) (by decide)

/-! ## Orientation tables -/

/-- C34. For every identity 1..7 and orientation `r` in 0..3, the footprint of
orientation `(r + 1) mod 4` consists of the cells of the footprint of orientation `r`
turned by 90 degrees, (row, column) going to (column, -row) for every identity and
orientation, and moved so that the smallest row offset and the smallest column offset
are 0; four successive turns give the cells of the original footprint. -/
theorem footprint_rotation (p r : Nat) (hp : 1 ≤ p ∧ p ≤ 7) (hr : r ≤ 3) :
    (footprint p ((r + 1) % 4)).Perm (rot90 (footprint p r)) ∧
      (∃ d ∈ rot90 (footprint p r), d.1 = 0) ∧ (∃ d ∈ rot90 (footprint p r), d.2 = 0) ∧
      (rot90^[4] (footprint p r)).Perm (footprint p r) ∧
      nextRotation r = (r + 1) % 4 ∧ nextRotation^[4] r = r := by
  obtain ⟨h1, h2⟩ := hp
  interval_cases p <;> interval_cases r <;> decide

theorem footprint_rotation_witness :
    (footprint 5 ((3 + 1) % 4)).Perm (rot90 (footprint 5 3)) ∧
      (∃ d ∈ rot90 (footprint 5 3), d.1 = 0) ∧ (∃ d ∈ rot90 (footprint 5 3), d.2 = 0) ∧
      (rot90^[4] (footprint 5 3)).Perm (footprint 5 3) ∧
      nextRotation 3 = (3 + 1) % 4 ∧ nextRotation^[4] 3 = 3 :=
  footprint_rotation 5 3 (by decide) (by decide)

/-! ## Score position and progression invariants -/

theorem levelStart_mod (k : Nat) : levelStart k % 10 = 0 := by
  induction k with
  | zero => rfl
  | succ k ih =>
    have hs : levelStart (k + 1) = levelStart k + 10 * (k + 1) := rfl
    omega

theorem levelStart_large (k : Nat) (h : 256 ≤ k) : 328960 ≤ levelStart k := by
  rw [levelStart_eq]
  have h2 : 256 * 257 ≤ k * (k + 1) := Nat.mul_le_mul h (by omega)
  have h3 : 5 * k * (k + 1) = 5 * (k * (k + 1)) := by ring
  omega

theorem band_exists (n : Nat) : ∃ k, levelStart k ≤ n ∧ n < levelStart (k + 1) := by
  induction n with
  | zero => exact ⟨0, by decide, by decide⟩
  | succ n ih =>
    obtain ⟨k, h1, h2⟩ := ih
    have hs : levelStart (k + 1 + 1) = levelStart (k + 1) + 10 * (k + 1 + 1) := rfl
    by_cases h : n + 1 < levelStart (k + 1)
    · exact ⟨k, by omega, h⟩
    · exact ⟨k + 1, by omega, by omega⟩

theorem progress_band (n : Nat) (hn : n < 327680) :
    ∃ k, k ≤ 255 ∧ levelStart k ≤ n ∧ n < levelStart k + 10 * (k + 1) ∧
      (progress^[n] initState).level = k + 1 ∧
      (progress^[n] initState).linesCleared = n - levelStart k := by
  obtain ⟨k, h1, h2⟩ := band_exists n
  have hk : k ≤ 255 := by
    by_contra hc
    have := levelStart_large k (by omega)
    omega
  obtain ⟨e1, e2⟩ := progress_iterate n k (by omega) h1 h2
  exact ⟨k, hk, h1, h2, e1, e2⟩

theorem score_iterate (n : Nat) (hn : n < 327680) :
    (progress^[n] initState).scoreRow = 2 * (n % 10) ∧
      (progress^[n] initState).scoreColumn = 2 * (n / 10) := by
  induction n with
  | zero => exact ⟨rfl, rfl⟩
  | succ n ih =>
    obtain ⟨i1, i2⟩ := ih (by omega)
    obtain ⟨k, hk, hb, hb2, -, hl⟩ := progress_band n (by omega)
    obtain ⟨p1, p2⟩ := progress_score (progress^[n] initState)
    have hm := levelStart_mod k
    rw [Function.iterate_succ_apply', p1, p2, i1, i2, hl]
    have hinc : inc (n - levelStart k) = n - levelStart k + 1 := by
      unfold inc
      omega
    rw [hinc]
    by_cases h10 : (n + 1) % 10 = 0
    · rw [if_pos (by omega), if_pos (by omega)]
      omega
    · rw [if_neg (by omega), if_neg (by omega)]
      omega

/-- C35. In every state reached from the initial progression state by processing `n`
cleared rows, before the first 16-bit overflow (which is that of `scoreColumn`, at
`n = 327680`): `scoreRow = 2 * (linesCleared mod 10)` and
`scoreColumn = level * (level - 1) + 2 * (linesCleared / 10)`; in terms of `n` the two
values are `2 * (n mod 10)` and `2 * (n / 10)`. -/
theorem score_position_invariant (n : Nat) (hn : n < 327680) :
    (progress^[n] initState).scoreRow = 2 * ((progress^[n] initState).linesCleared % 10) ∧
      (progress^[n] initState).scoreColumn
        = (progress^[n] initState).level * ((progress^[n] initState).level - 1)
            + 2 * ((progress^[n] initState).linesCleared / 10) ∧
      (progress^[n] initState).scoreRow = 2 * (n % 10) ∧
      (progress^[n] initState).scoreColumn = 2 * (n / 10) := by
  obtain ⟨s1, s2⟩ := score_iterate n hn
  obtain ⟨k, hk, hb, hb2, h1, h2⟩ := progress_band n hn
  have hm := levelStart_mod k
  have he := levelStart_eq k
  obtain ⟨h, hh⟩ := Nat.even_mul_succ_self k
  have h3 : 5 * k * (k + 1) = 5 * (k * (k + 1)) := by ring
  have h4 : (k + 1) * (k + 1 - 1) = k * (k + 1) := by
    rw [Nat.add_sub_cancel, Nat.mul_comm]
  rw [s1, s2, h1, h2, h4]
  refine ⟨by omega, by omega, rfl, rfl⟩

theorem score_position_invariant_witness :
    (progress^[25] initState).scoreRow = 2 * ((progress^[25] initState).linesCleared % 10) ∧
      (progress^[25] initState).scoreColumn
        = (progress^[25] initState).level * ((progress^[25] initState).level - 1)
            + 2 * ((progress^[25] initState).linesCleared / 10) ∧
      (progress^[25] initState).scoreRow = 2 * (25 % 10) ∧
      (progress^[25] initState).scoreColumn = 2 * (25 / 10) :=
  score_position_invariant 25 (by decide)

/-- C40 as stated fails: after 1100 cleared rows (level 15) `scoreColumn` is 220, and
the coordinate `218 - scoreColumn` that `drawScore` computes in 16-bit unsigned
arithmetic has wrapped to 65534. -/
theorem scoreColumn_after_1100_rows :
    (progress^[1100] initState).scoreColumn = 220 ∧
      ¬ (progress^[1100] initState).scoreColumn ≤ 218 ∧
      (progress^[1100] initState).level = 15 ∧
      ((drawScore (progress^[1100] initState)).map fun c => c.1) = [65534, 65534, 65535, 65535] := by
  obtain ⟨-, s2⟩ := score_iterate 1100 (by decide)
  obtain ⟨e1, -⟩ := progress_iterate 1100 14 (by decide) (by decide) (by decide)
  unfold drawScore
  simp only [s2, e1, List.map_cons, List.map_nil]
  decide

/-- C40, amended. In every progression state reached from a fresh game by processing
`n` cleared rows (before the first 16-bit overflow, `n < 327680`), `scoreRow ≤ 18`, and
the row coordinates `23 - scoreRow` and `24 - scoreRow` of `drawScore` do not wrap;
`scoreColumn ≤ 218` and the column coordinates `218 - scoreColumn` and
`219 - scoreColumn` do not wrap exactly while fewer than 1100 rows have been cleared. -/
theorem score_marker_on_screen (n : Nat) (hn : n < 327680) :
    (progress^[n] initState).scoreRow ≤ 18 ∧
      sub16 23 (progress^[n] initState).scoreRow = 23 - (progress^[n] initState).scoreRow ∧
      sub16 24 (progress^[n] initState).scoreRow = 24 - (progress^[n] initState).scoreRow ∧
      ((progress^[n] initState).scoreColumn ≤ 218 ↔ n < 1100) ∧
      (n < 1100 →
        sub16 218 (progress^[n] initState).scoreColumn
            = 218 - (progress^[n] initState).scoreColumn ∧
          sub16 219 (progress^[n] initState).scoreColumn
            = 219 - (progress^[n] initState).scoreColumn) := by
  obtain ⟨s1, s2⟩ := score_iterate n hn
  rw [s1, s2]
  unfold sub16
  refine ⟨by omega, by omega, by omega, by omega, ?_⟩
  intro h
  constructor <;> omega

theorem score_marker_on_screen_witness :
    (progress^[25] initState).scoreRow ≤ 18 ∧
      sub16 23 (progress^[25] initState).scoreRow
        = 23 - (progress^[25] initState).scoreRow ∧
      sub16 24 (progress^[25] initState).scoreRow
        = 24 - (progress^[25] initState).scoreRow ∧
      ((progress^[25] initState).scoreColumn ≤ 218 ↔ 25 < 1100) ∧
      (25 < 1100 →
        sub16 218 (progress^[25] initState).scoreColumn
            = 218 - (progress^[25] initState).scoreColumn ∧
          sub16 219 (progress^[25] initState).scoreColumn
            = 219 - (progress^[25] initState).scoreColumn) :=
  score_marker_on_screen 25 (by decide)

/-! ## Progression invariant -/

theorem levelSpan_bounds (L : Nat) (h : 1 ≤ L) :
    1 ≤ levelSpan L ∧ levelSpan L ≤ 65536 ∧ levelSpan L ≤ L * 10 ∧
      levelSpan L % 65536 = (L * 10) % 65536 := by
  unfold levelSpan
  split_ifs with h0 <;> omega

theorem progress_step_inv (t : State) (h1 : 1 ≤ t.level) (h2 : t.level ≤ 65535)
    (h3 : t.linesCleared < levelSpan t.level) (hne : (progress t).level ≠ 0) :
    1 ≤ (progress t).level ∧ (progress t).level ≤ 65535 ∧
      (progress t).linesCleared < levelSpan (progress t).level ∧
      t.level ≤ (progress t).level := by
  obtain ⟨p1, p2⟩ := progress_level t
  obtain ⟨b1, b2, -, b4⟩ := levelSpan_bounds t.level h1
  rw [p2] at hne
  rw [p1, p2]
  by_cases hup : inc t.linesCleared = (t.level * 10) % 65536
  · rw [if_pos hup] at hne
    rw [if_pos hup, if_pos hup]
    have hL2 : t.level + 1 < 65536 := by
      unfold inc at hne
      omega
    have hL : inc t.level = t.level + 1 := by
      unfold inc
      omega
    have b := (levelSpan_bounds (inc t.level) (by omega)).1
    omega
  · rw [if_neg hup, if_neg hup]
    refine ⟨h1, h2, ?_, Nat.le_refl _⟩
    unfold inc at hup ⊢
    omega

theorem progress_inv (n : Nat) (hne : ∀ m, m ≤ n → (progress^[m] initState).level ≠ 0) :
    1 ≤ (progress^[n] initState).level ∧ (progress^[n] initState).level ≤ 65535 ∧
      (progress^[n] initState).linesCleared < levelSpan (progress^[n] initState).level := by
  induction n with
  | zero => exact ⟨by decide, by decide, by decide⟩
  | succ n ih =>
    obtain ⟨i1, i2, i3⟩ := ih fun m hm => hne m (by omega)
    have h := hne (n + 1) (Nat.le_refl _)
    rw [Function.iterate_succ_apply'] at h ⊢
    obtain ⟨q1, q2, q3, -⟩ := progress_step_inv _ i1 i2 i3 h
    exact ⟨q1, q2, q3⟩

theorem progress_within_level (t : State) (h1 : 1 ≤ t.level) (h0 : t.linesCleared = 0)
    (j : Nat) (hj : j < levelSpan t.level) :
    (progress^[j] t).level = t.level ∧ (progress^[j] t).linesCleared = j := by
  induction j with
  | zero => exact ⟨rfl, h0⟩
  | succ j ih =>
    obtain ⟨i1, i2⟩ := ih (by omega)
    obtain ⟨p1, p2⟩ := progress_level (progress^[j] t)
    obtain ⟨b1, b2, -, b4⟩ := levelSpan_bounds t.level h1
    rw [Function.iterate_succ_apply', p1, p2, i1, i2]
    have hinc : inc j = j + 1 := by
      unfold inc
      omega
    rw [hinc, if_neg (by omega), if_neg (by omega)]
    exact ⟨rfl, rfl⟩

theorem progress_level_up (t : State) (h1 : 1 ≤ t.level) (h0 : t.linesCleared = 0) :
    (progress^[levelSpan t.level] t).level = inc t.level ∧
      (progress^[levelSpan t.level] t).linesCleared = 0 := by
  obtain ⟨b1, b2, -, b4⟩ := levelSpan_bounds t.level h1
  obtain ⟨j, hj⟩ : ∃ j, levelSpan t.level = j + 1 := ⟨levelSpan t.level - 1, by omega⟩
  obtain ⟨i1, i2⟩ := progress_within_level t h1 h0 j (by omega)
  obtain ⟨p1, p2⟩ := progress_level (progress^[j] t)
  rw [hj, Function.iterate_succ_apply', p1, p2, i1, i2]
  have hinc : inc j = (t.level * 10) % 65536 := by
    unfold inc
    omega
  rw [if_pos hinc, if_pos hinc]
  exact ⟨rfl, rfl⟩

theorem level_reached (L : Nat) (h1 : 1 ≤ L) (h2 : L ≤ 65535) :
    ∃ n, (progress^[n] initState).level = L ∧ (progress^[n] initState).linesCleared = 0 := by
  induction L with
  | zero => omega
  | succ L ih =>
    rcases L with _ | L
    · exact ⟨0, rfl, rfl⟩
    · obtain ⟨n, e1, e2⟩ := ih (by omega) (by omega)
      obtain ⟨u1, u2⟩ := progress_level_up (progress^[n] initState) (by omega) e2
      refine ⟨levelSpan (L + 1) + n, ?_, ?_⟩
      · rw [Function.iterate_add_apply, ← e1, u1, e1]
        unfold inc
        omega
      · rw [Function.iterate_add_apply, ← e1, u2]

/-- C36 as stated fails in the 16-bit arithmetic of `level`: the level counter reaches
65535 and the next level-up wraps it to 0, so a state with `level = 0` is reached
from the initial progression state by processing cleared rows. -/
theorem level_wraps_to_zero : ∃ n, (progress^[n] initState).level = 0 := by
  obtain ⟨n, e1, e2⟩ := level_reached 65535 (by decide) (by decide)
  obtain ⟨u1, -⟩ := progress_level_up (progress^[n] initState) (by omega) e2
  refine ⟨levelSpan 65535 + n, ?_⟩
  rw [Function.iterate_add_apply, ← e1, u1, e1]
  decide

/-- C36, amended. In every state reached from the initial progression state by
processing cleared rows before the 16-bit level counter has wrapped to 0: `level ≥ 1`,
the level has not decreased in the last step, and `linesCleared < level * 10`. No wrap
has happened during the first 214741810 rows (levels 1..6553). -/
theorem progression_invariant (n : Nat)
    (hne : ∀ m, m ≤ n + 1 → (progress^[m] initState).level ≠ 0) :
    1 ≤ (progress^[n] initState).level ∧
      (progress^[n] initState).level ≤ (progress^[n + 1] initState).level ∧
      (progress^[n] initState).linesCleared < (progress^[n] initState).level * 10 ∧
      (∀ m k, k ≤ 6552 → levelStart k ≤ m → m < levelStart (k + 1) →
        (progress^[m] initState).level ≠ 0) ∧
      levelStart 6553 = 214741810 := by
  obtain ⟨i1, i2, i3⟩ := progress_inv n fun m hm => hne m (by omega)
  have h := hne (n + 1) (Nat.le_refl _)
  rw [Function.iterate_succ_apply'] at h ⊢
  obtain ⟨-, -, -, q4⟩ := progress_step_inv _ i1 i2 i3 h
  obtain ⟨-, -, b3, -⟩ := levelSpan_bounds _ i1
  refine ⟨i1, q4, by omega, ?_, ?_⟩
  · intro m k hk hm1 hm2
    rw [(progress_iterate m k hk hm1 hm2).1]
    omega
  · rw [levelStart_eq]

theorem progression_invariant_witness :
    1 ≤ (progress^[9] initState).level ∧
      (progress^[9] initState).level ≤ (progress^[9 + 1] initState).level ∧
      (progress^[9] initState).linesCleared < (progress^[9] initState).level * 10 ∧
      (∀ m k, k ≤ 6552 → levelStart k ≤ m → m < levelStart (k + 1) →
        (progress^[m] initState).level ≠ 0) ∧
      levelStart 6553 = 214741810 :=
  progression_invariant 9 (by
    intro m hm
    interval_cases m <;> decide)

/-! ## Table coverage -/

theorem lock_piece (u : State) :
    (lock u).piece = u.piece ∧ (lock u).rotation = u.rotation := by
  obtain ⟨-, -, -, -, -, h1, h2, -⟩ :=
    ctl_fields _ _ (lineClear_ctl { u with pieceAlive := false })
  unfold lock
  simp only at h1 h2 ⊢
  exact ⟨h1, h2⟩

theorem lockStage_piece (u : State) :
    (lockStage u).piece = u.piece ∧ (lockStage u).rotation = u.rotation := by
  unfold lockStage
  simp only
  split_ifs
  · exact lock_piece { u with graceTime := inc u.graceTime }
  · exact ⟨rfl, rfl⟩
  · exact ⟨rfl, rfl⟩

theorem spawn_piece (u : State) :
    (spawn u).piece = u.keyPress % 7 + 1 ∧ (spawn u).rotation = 0 ∧
      (spawn u).pieceAlive = true := by
  obtain ⟨g1, g2, -⟩ := checkGameOver_fields (spawnSetup u)
  obtain ⟨-, -, -, -, -, p1, p2, -⟩ :=
    ctl_fields _ _ (placePiece_ctl (checkGameOver (spawnSetup u)))
  refine ⟨?_, ?_, rfl⟩
  · show (placePiece (checkGameOver (spawnSetup u))).piece = _
    rw [p1, g1]
    rfl
  · show (placePiece (checkGameOver (spawnSetup u))).rotation = _
    rw [p2, g2]
    rfl

theorem shiftLeft_alive (u : State) : (shiftLeft u).pieceAlive = u.pieceAlive := by
  obtain ⟨r1, -⟩ := ctl_fields _ _ (removePiece_ctl u)
  obtain ⟨p1, -⟩ :=
    ctl_fields _ _ (placePiece_ctl { removePiece u with xPos := dec (removePiece u).xPos })
  unfold shiftLeft
  simp only at p1 ⊢
  rw [p1, r1]

theorem shiftRight_alive (u : State) : (shiftRight u).pieceAlive = u.pieceAlive := by
  obtain ⟨r1, -⟩ := ctl_fields _ _ (removePiece_ctl u)
  obtain ⟨p1, -⟩ :=
    ctl_fields _ _ (placePiece_ctl { removePiece u with xPos := inc (removePiece u).xPos })
  unfold shiftRight
  simp only at p1 ⊢
  rw [p1, r1]

theorem rotate_alive (u : State) : (rotate u).pieceAlive = u.pieceAlive := by
  obtain ⟨r1, -⟩ := ctl_fields _ _ (removePiece_ctl u)
  obtain ⟨p1, -⟩ :=
    ctl_fields _ _
      (placePiece_ctl { removePiece u with rotation := nextRotation (removePiece u).rotation })
  unfold rotate
  simp only at p1 ⊢
  rw [p1, r1]

theorem moveStage_piece (u : State) (h : u.pieceAlive = false ∨ PieceOk u) :
    PieceOk (moveStage u) ∧ (moveStage u).pieceAlive = true := by
  obtain ⟨s1, s2, s3⟩ := spawn_piece u
  obtain ⟨l1, l2, -⟩ := shiftLeft_fields u
  obtain ⟨r1, r2, -⟩ := shiftRight_fields u
  obtain ⟨t1, t2, -⟩ := rotate_fields u
  have la := shiftLeft_alive u
  have ra := shiftRight_alive u
  have ta := rotate_alive u
  unfold moveStage PieceOk
  cases hal : u.pieceAlive
  · simp only [Bool.not_false, if_true]
    rw [s1, s2, s3]
    exact ⟨⟨⟨by omega, by omega⟩, by omega⟩, rfl⟩
  · have hok : PieceOk u := by
      rcases h with h | h
      · rw [hal] at h
        exact absurd h (by decide)
      · exact h
    obtain ⟨hp, hr⟩ := hok
    have hn := nextRotation_le u.rotation
    simp only [Bool.not_true, Bool.false_eq_true, if_false]
    split_ifs
    · rw [l1, l2, la]
      exact ⟨⟨hp, hr⟩, hal⟩
    · rw [r1, r2, ra]
      exact ⟨⟨hp, hr⟩, hal⟩
    · rw [t1, t2, ta]
      exact ⟨⟨hp, hn⟩, hal⟩
    · exact ⟨⟨hp, hr⟩, hal⟩

theorem dropOne_piece (v : State) :
    (dropOne v).piece = v.piece ∧ (dropOne v).rotation = v.rotation ∧
      (dropOne v).pieceAlive = v.pieceAlive := by
  obtain ⟨r1, -, -, -, -, r6, r7, -⟩ := ctl_fields _ _ (removePiece_ctl v)
  obtain ⟨p1, -, -, -, -, p6, p7, -⟩ :=
    ctl_fields _ _ (placePiece_ctl { removePiece v with yPos := inc (removePiece v).yPos })
  unfold dropOne
  simp only at p1 p6 p7 ⊢
  rw [p1, p6, p7, r1, r6, r7]
  exact ⟨rfl, rfl, rfl⟩

theorem dropStage_piece (v : State) :
    (dropStage v).piece = v.piece ∧ (dropStage v).rotation = v.rotation ∧
      (dropStage v).pieceAlive = v.pieceAlive := by
  unfold dropStage
  split_ifs
  · exact dropOne_piece v
  · exact ⟨rfl, rfl, rfl⟩

theorem tick_piece (adc : Nat) (s : State) (h : s.pieceAlive = false ∨ PieceOk s) :
    PieceOk (tick adc s) ∧ (tick adc s).pieceAlive = true := by
  obtain ⟨c1, c2, -, -, -, c6, -⟩ := checkCollisions_fields s
  obtain ⟨l1, l2⟩ := lockStage_piece (checkCollisions s)
  have hu : (lockStage (checkCollisions s)).pieceAlive = false ∨
      PieceOk (lockStage (checkCollisions s)) := by
    rcases h with h | h
    · by_cases ha : (lockStage (checkCollisions s)).pieceAlive = false
      · exact Or.inl ha
      · right
        exfalso
        apply ha
        unfold lockStage
        simp only
        split_ifs
        · exact (lock_ctl _).1
        · exact c6.trans h
        · exact c6.trans h
    · right
      unfold PieceOk
      rw [l1, l2, c1, c2]
      exact h
  obtain ⟨m1, m2⟩ := moveStage_piece _ hu
  obtain ⟨d1, d2, d3⟩ := dropStage_piece (moveStage (lockStage (checkCollisions s)))
  obtain ⟨j1, j2, -⟩ :=
    joystickStage_geo adc (dropStage (moveStage (lockStage (checkCollisions s))))
  obtain ⟨f1, -⟩ :=
    joystickStage_frame adc (dropStage (moveStage (lockStage (checkCollisions s))))
  unfold tick
  unfold PieceOk at m1 ⊢
  rw [j1, j2, f1, d1, d2, d3]
  exact ⟨m1, m2⟩

theorem applyEvent_piece (ev : Event) (s : State) :
    (s.pieceAlive = false ∨ PieceOk s →
        (applyEvent s ev).pieceAlive = false ∨ PieceOk (applyEvent s ev)) ∧
      (PieceOk s → PieceOk (applyEvent s ev)) := by
  cases ev with
  | tick adc =>
    exact ⟨fun h => Or.inr (tick_piece adc s h).1, fun h => (tick_piece adc s (Or.inr h)).1⟩
  | port1 => exact ⟨fun h => h, fun h => h⟩
  | port2 p2in =>
    obtain ⟨-, f2, f3, -, -, -, -, -, -, -, -, f12, -⟩ := Port_2_frame p2in s
    have hk : PieceOk (Port_2 p2in s) ↔ PieceOk s := by
      unfold PieceOk
      rw [f2, f3]
    constructor
    · intro h
      show (Port_2 p2in s).pieceAlive = false ∨ PieceOk (Port_2 p2in s)
      rw [f12, hk]
      exact h
    · intro h
      exact hk.mpr h

theorem run_piece (evs : List Event) :
    ∀ s, (s.pieceAlive = false ∨ PieceOk s →
        (run evs s).pieceAlive = false ∨ PieceOk (run evs s)) ∧
      (PieceOk s → PieceOk (run evs s)) := by
  induction evs with
  | nil => exact fun s => ⟨fun h => h, fun h => h⟩
  | cons ev evs ih =>
    intro s
    obtain ⟨a1, a2⟩ := applyEvent_piece ev s
    obtain ⟨i1, i2⟩ := ih (applyEvent s ev)
    exact ⟨fun h => i1 (a1 h), fun h => i2 (a2 h)⟩

/-- C37. A fresh game and a restarted game start with `pieceAlive = false`. From such a
state, after any events up to and including the first iteration of the step loop
(which spawns the piece) and any events after it, `piece` is in 1..7 and `rotation` is
in 0..3, so the switches over `piece` and `rotation` select a table entry (a footprint
of four cells); every iteration of the step loop ends with `pieceAlive = true`. The
rotate branch maps rotation 3 to 0 and every other rotation `r` to `r + 1`. -/
theorem table_coverage_invariant :
    initState.pieceAlive = false ∧ (∀ s, (restartReset s).pieceAlive = false) ∧
      (∀ before after adc s, s.pieceAlive = false →
        PieceOk (run (before ++ Event.tick adc :: after) s)) ∧
      (∀ adc s, s.pieceAlive = false ∨ PieceOk s →
        PieceOk (tick adc s) ∧ (tick adc s).pieceAlive = true) ∧
      (∀ ev s, PieceOk s → PieceOk (applyEvent s ev)) ∧
      (∀ s, PieceOk s → (footprint s.piece s.rotation).length = 4) ∧
      nextRotation 3 = 0 ∧ (∀ r, r < 3 → nextRotation r = r + 1) := by
  refine ⟨rfl, fun s => (restartReset_fields s).2.2.2.2.2.2.2.1, ?_, tick_piece,
    fun ev s => (applyEvent_piece ev s).2, ?_, rfl, ?_⟩
  · intro before after adc s h
    unfold run
    rw [List.foldl_append, List.foldl_cons]
    have h1 := (run_piece before s).1 (Or.inl h)
    have h2 := (tick_piece adc (run before s) h1).1
    exact (run_piece after _).2 h2
  · intro s h
    exact (footprint_shape s.piece s.rotation h.1 h.2).1
  · intro r hr
    unfold nextRotation
    rw [if_pos hr]

/-! ## Full pull -/

theorem placePiece_level (s : State) : (placePiece s).level = s.level := by
  unfold placePiece
  simp only
  split <;> (try split) <;> rfl

theorem removePiece_level (s : State) : (removePiece s).level = s.level := by
  unfold removePiece
  simp only
  split <;> (try split) <;> rfl

theorem dropOne_counter (v : State) :
    (dropOne v).dropCounter = 0 ∧ (dropOne v).level = v.level := by
  have p := placePiece_level { removePiece v with yPos := inc (removePiece v).yPos }
  have r := removePiece_level v
  unfold dropOne
  simp only at p ⊢
  rw [p, r]
  exact ⟨trivial, rfl⟩

theorem tick_full_pull (adc : Nat) (s : State) (hok : PieceOk s)
    (halive : s.pieceAlive = true) (hd : s.dropCounter > dropThreshold s.level)
    (hcd : (checkCollisions s).canDown = true) :
    (tick adc s).yPos = inc s.yPos ∧ (tick adc s).level = s.level ∧
      (tick adc s).dropCounter = bandIncrement adc := by
  have hlock : lockApplied s = false := by
    unfold lockApplied
    rw [hcd]
    rfl
  have hdrop : dropApplied s = true := by
    unfold dropApplied
    rw [hcd]
    simpa using hd
  obtain ⟨-, -, -, g4, -⟩ := tick_geo adc s hok.1 hok.2 halive hlock
  obtain ⟨gt, hpre⟩ := lockStage_not_locked s hlock
  obtain ⟨c1, c2, -, -, -, c6, -, -, -, c10, c11, -⟩ := checkCollisions_fields s
  generalize hu : ({ checkCollisions s with graceTime := gt } : State) = u at hpre
  have u1 : u.piece = s.piece := by rw [← hu]; exact c1
  have u2 : u.rotation = s.rotation := by rw [← hu]; exact c2
  have u6 : u.pieceAlive = true := by rw [← hu]; exact c6.trans halive
  have u10 : u.dropCounter = s.dropCounter := by rw [← hu]; exact c10
  have u11 : u.level = s.level := by rw [← hu]; exact c11
  have f4 : u.canDown = true := by rw [← hu]; exact hcd
  obtain ⟨-, -, m3, m4, m5, -⟩ :=
    moveStage_geo u (by rw [u1]; exact hok.1) (by rw [u2]; exact hok.2) u6
  have hds : dropStage (moveStage u) = dropOne (moveStage u) := by
    unfold dropStage
    rw [if_pos]
    rw [m3, m4, m5, u10, u11, f4]
    simpa using hd
  obtain ⟨o1, o2⟩ := dropOne_counter (moveStage u)
  obtain ⟨-, j2, -⟩ := joystickStage_frame adc (dropStage (moveStage u))
  have jd := joystickStage_dropCounter adc (dropStage (moveStage u))
  have hb : bandIncrement adc < 65536 := by
    unfold bandIncrement
    split_ifs <;> omega
  refine ⟨?_, ?_, ?_⟩
  · rw [g4, if_pos hdrop]
  · unfold tick
    rw [hpre, j2, hds, o2, m4, u11]
  · unfold tick
    rw [hpre, jd, hds, o1, Nat.zero_add, Nat.mod_eq_of_lt hb]

/-- C38. For every level in 1..21 the drop threshold is `24000 - (level - 1) * 1166`
without wrap and is below 24001. When `dropCounter` is 0 after a forced descent and
the joystick sample of that tick is below 100, `dropCounter` is 24001 at the end of the
tick; and in a tick that starts with `dropCounter = 24001`, a level in 1..21, a live
piece and `canDown` true, the piece descends by one row, the level is unchanged, and
with a sample below 100 `dropCounter` is 24001 again at the end of the tick. -/
theorem full_pull_descends_every_tick :
    (∀ L, 1 ≤ L → L ≤ 21 →
        dropThreshold L = 24000 - (L - 1) * 1166 ∧ dropThreshold L < 24001) ∧
      (∀ adc s, adc < 100 → s.dropCounter = 0 → (joystickStage adc s).dropCounter = 24001) ∧
      (∀ adc s, PieceOk s → s.pieceAlive = true → 1 ≤ s.level → s.level ≤ 21 →
        s.dropCounter = 24001 → (checkCollisions s).canDown = true →
        (tick adc s).yPos = inc s.yPos ∧ (tick adc s).level = s.level ∧
          PieceOk (tick adc s) ∧ (tick adc s).pieceAlive = true ∧
          (adc < 100 → (tick adc s).dropCounter = 24001)) := by
  have hthr : ∀ L, 1 ≤ L → L ≤ 21 →
      dropThreshold L = 24000 - (L - 1) * 1166 ∧ dropThreshold L < 24001 := by
    intro L h1 h2
    interval_cases L <;> decide
  refine ⟨hthr, ?_, ?_⟩
  · intro adc s ha h0
    rw [joystickStage_dropCounter, h0]
    unfold bandIncrement
    rw [if_pos ha]
  · intro adc s hok halive h1 h2 hdc hcd
    have hd : s.dropCounter > dropThreshold s.level := by
      have := (hthr s.level h1 h2).2
      omega
    obtain ⟨t1, t2, t3⟩ := tick_full_pull adc s hok halive hd hcd
    obtain ⟨k1, k2⟩ := tick_piece adc s (Or.inr hok)
    refine ⟨t1, t2, k1, k2, ?_⟩
    intro ha
    rw [t3]
    unfold bandIncrement
    rw [if_pos ha]

/-! ## Cell rectangles on the screen -/

/-- C39. For every grid cell (row `i` in 0..13, column `j` in 0..9) and the origin
`(20 + 20*j, 30 + 20*i)` that `drawGrid` uses for it: the bytes `drawSquare` sends
start with the window `x0..x0+19` by `y..y+19`, where `x0 + 19 ≤ 239` (both column
bounds fit the single byte that is sent) and `y + 19 ≤ 319`, and the two bytes sent
for each row bound satisfy `256 * high + low = bound`; the windows of two distinct
cells have no pixel in common. -/
theorem cell_windows_on_screen (i j : Nat) (hi : i < 14) (hj : j < 10) :
    (20 + 20 * j) + 19 ≤ 239 ∧ (30 + 20 * i) + 19 ≤ 319 ∧
      (∀ id, drawSquare (20 + 20 * j) (30 + 20 * i) id
        = window (20 + 20 * j) (20 + 20 * j + 19) (30 + 20 * i) (30 + 20 * i + 19) ++
            outerFill id ++
            window (20 + 20 * j + 2) (20 + 20 * j + 17) (30 + 20 * i + 2)
              (30 + 20 * i + 17) ++
            innerFill id) ∧
      (20 + 20 * j) % 256 = 20 + 20 * j ∧ (20 + 20 * j + 19) % 256 = 20 + 20 * j + 19 ∧
      256 * ((30 + 20 * i) / 256) + (30 + 20 * i) % 256 = 30 + 20 * i ∧
      256 * ((30 + 20 * i + 19) / 256) + (30 + 20 * i + 19) % 256 = 30 + 20 * i + 19 ∧
      (30 + 20 * i + 19) / 256 < 256 ∧
      (∀ i2 j2, i2 < 14 → j2 < 10 → (i2, j2) ≠ (i, j) →
        ∀ px py, ¬ (inSquare (20 + 20 * j) (30 + 20 * i) px py ∧
          inSquare (20 + 20 * j2) (30 + 20 * i2) px py)) := by
  refine ⟨by omega, by omega, ?_, by omega, by omega, by omega, by omega, by omega, ?_⟩
  · intro id
    exact drawSquare_windows _ _ id (by omega) (by omega)
  · intro i2 j2 hi2 hj2 hne px py
    unfold inSquare
    rintro ⟨⟨a1, a2, a3, a4⟩, b1, b2, b3, b4⟩
    apply hne
    have e1 : i2 = i := by omega
    have e2 : j2 = j := by omega
    rw [e1, e2]

theorem cell_windows_on_screen_witness :
    (20 + 20 * 9) + 19 ≤ 239 ∧ (30 + 20 * 13) + 19 ≤ 319 ∧
      (∀ id, drawSquare (20 + 20 * 9) (30 + 20 * 13) id
        = window (20 + 20 * 9) (20 + 20 * 9 + 19) (30 + 20 * 13) (30 + 20 * 13 + 19) ++
            outerFill id ++
            window (20 + 20 * 9 + 2) (20 + 20 * 9 + 17) (30 + 20 * 13 + 2)
              (30 + 20 * 13 + 17) ++
            innerFill id) ∧
      (20 + 20 * 9) % 256 = 20 + 20 * 9 ∧ (20 + 20 * 9 + 19) % 256 = 20 + 20 * 9 + 19 ∧
      256 * ((30 + 20 * 13) / 256) + (30 + 20 * 13) % 256 = 30 + 20 * 13 ∧
      256 * ((30 + 20 * 13 + 19) / 256) + (30 + 20 * 13 + 19) % 256 = 30 + 20 * 13 + 19 ∧
      (30 + 20 * 13 + 19) / 256 < 256 ∧
      (∀ i2 j2, i2 < 14 → j2 < 10 → (i2, j2) ≠ (13, 9) →
        ∀ px py, ¬ (inSquare (20 + 20 * 9) (30 + 20 * 13) px py ∧
          inSquare (20 + 20 * j2) (30 + 20 * i2) px py)) :=
  cell_windows_on_screen 13 9 (by decide) (by decide)
end Tetris
